import Mathlib

/-! x2udp: the can2udp and iio2udp forwarding daemons.

A shallow embedding of `src/src/can2udp.c`, `src/src/iio2udp.c` and the two
packet headers `src/include/can2udp.h`, `src/include/iio2udp.h`.

Conventions of the embedding

* A byte is a `Nat` below 256; a C object is the list of its bytes (its object
  representation).  Packed structs are the concatenation of their fields.
* C `int` / `ssize_t` values are `Int`; conversions to unsigned types reduce
  modulo `2 ^ w` explicitly.
* Calls into the operating system and into libiio are recorded, in order, in
  the `events` trace of a `World`; what such a call returns is given by an
  `Env`, a family of functions of the trace so far (so the environment may
  answer every call differently).
* The byte order of the host is a parameter (`Endian`).
-/

namespace X2udp

/-! ## Bytes and byte order -/

/-- Byte order of the host the daemon is compiled for. -/
inductive Endian where
  | little
  | big
deriving DecidableEq, Repr

/-- The `n` low-order bytes of `v`, least significant byte first. -/
def le_bytes : Nat → Nat → List Nat
  | 0, _ => []
  | n + 1, v => (v % 256) :: le_bytes n (v / 256)

/-- The `n` low-order bytes of `v`, most significant byte first (network order). -/
def be_bytes (n v : Nat) : List Nat :=
  (le_bytes n v).reverse

/-- Object representation of an `n`-byte unsigned integer on the host. -/
def host_bytes (e : Endian) (n v : Nat) : List Nat :=
  match e with
  | Endian.little => le_bytes n v
  | Endian.big => be_bytes n v

/-- Conversion of a C `int` to `uintN_t`: reduction modulo `2 ^ bits`. -/
def to_unsigned (bits : Nat) (x : Int) : Nat :=
  (x % (2 ^ bits : Int)).toNat

/-- The libc `htons`: identity on a big-endian host, byte swap of the 16-bit
value on a little-endian host. -/
def htons (e : Endian) (x : Nat) : Nat :=
  match e with
  | Endian.big => x % 65536
  | Endian.little => (x % 256) * 256 + (x / 256) % 256

/-- A C array of exactly `n` bytes holding `l`: cut to `n` bytes, zero-filled
when `l` is shorter. -/
def fixed (n : Nat) (l : List Nat) : List Nat :=
  l.take n ++ List.replicate (n - l.length) 0

/-- The libc `memcpy (dst, src, n)`: the first `n` bytes of `dst` are replaced
by the first `n` bytes of `src`. -/
def memcpy (dst src : List Nat) (n : Nat) : List Nat :=
  fixed n src ++ dst.drop n

/-- The characters of a C string held in a buffer: the bytes before the first NUL. -/
def c_string (s : List Nat) : List Nat :=
  s.takeWhile (fun b => b != 0)

/-- The libc `strncpy (dst, src, n)` on a destination of at least `n` bytes:
copies the characters of `src` up to `n` of them, and fills what is left of the
`n` bytes with NUL (no terminator is written when `src` has `n` or more
characters). -/
def strncpy (dst src : List Nat) (n : Nat) : List Nat :=
  fixed n (c_string src) ++ dst.drop n

/-- The bytes the libc `strcpy (dst, src)` writes from the start of `dst`: the
characters of `src` and the terminating NUL, however many bytes `dst` has. -/
def strcpy_written (src : List Nat) : List Nat :=
  c_string src ++ [0]

/-- `IFNAMSIZ` of net/if.h: the size of the array `ifr_name` of `struct ifreq`. -/
def IFNAMSIZ : Nat := 16

/-- The `len` bytes at offset `off` of a datagram. -/
def field (off len : Nat) (data : List Nat) : List Nat :=
  (data.drop off).take len

/-! ## errno values and descriptor sets -/

/-- `EINTR` of errno.h. -/
def EINTR : Int := 4

/-- `EINVAL` of errno.h. -/
def EINVAL : Int := 22

/-- `ENODATA` of errno.h. -/
def ENODATA : Int := 61

/-- `EINPROGRESS` of errno.h. -/
def EINPROGRESS : Int := 115

/-- `EXIT_SUCCESS` of stdlib.h. -/
def EXIT_SUCCESS : Int := 0

/-- `LOG_ERR` of syslog.h. -/
def LOG_ERR : Nat := 3

/-- `LOG_WARNING` of syslog.h. -/
def LOG_WARNING : Nat := 4

/-- `LOG_INFO` of syslog.h. -/
def LOG_INFO : Nat := 6

/-- `LOG_DEBUG` of syslog.h. -/
def LOG_DEBUG : Nat := 7

/-- An `fd_set`: the descriptors whose bit is set. -/
abbrev fd_set := List Int

/-- `FD_SETSIZE` of sys/select.h: an `fd_set` has a bit for each descriptor
below it. -/
def FD_SETSIZE : Int := 1024

/-- `FD_ISSET (fd, fds)`. -/
def FD_ISSET (fd : Int) (fds : fd_set) : Int :=
  if fd ∈ fds then 1 else 0

/-- `FD_SET (fd, fds)`. -/
def FD_SET (fd : Int) (fds : fd_set) : fd_set :=
  if fd ∈ fds then fds else fd :: fds

/-- `FD_CLR (fd, fds)`. -/
def FD_CLR (fd : Int) (fds : fd_set) : fd_set :=
  fds.filter (fun x => x != fd)

/-! ## Signals, options and libdaemon calls -/

/-- `SIGHUP` of signal.h. -/
def SIGHUP : Int := 1

/-- `SIGINT` of signal.h. -/
def SIGINT : Int := 2

/-- `SIGQUIT` of signal.h. -/
def SIGQUIT : Int := 3

/-- `SIGTERM` of signal.h. -/
def SIGTERM : Int := 15

/-- The libdaemon calls of `main` whose only role in the embedding is their
return value. -/
inductive DaemonCall where
  | pid_file_kill_wait
  | reset_sigs
  | unblock_sigs
  | pid_file_is_running
  | retval_init
  | fork
  | retval_done
  | retval_wait
  | close_all
  | pid_file_create
  | signal_init
  | signal_done
  | pid_file_remove
deriving DecidableEq, Repr

/-- One option of the command line as `getopt (argc, argv, "kDtvc:")` returns
it; `unknown` is the result `?`, with `optopt`. -/
inductive Opt where
  | k
  | D
  | t
  | v
  | c (optarg : List Nat)
  | unknown (optopt : Nat)
deriving DecidableEq, Repr

end X2udp

/-! ## can2udp -/

namespace Can2udp

open X2udp

/-- `CAN2UDP_PACKET_VERSION` of can2udp.h. -/
def CAN2UDP_PACKET_VERSION : Nat := 2

/-- `CAN_MTU` of linux/can.h: `sizeof (struct can_frame)`. -/
def CAN_MTU : Nat := 16

/-- `CANFD_MTU` of linux/can.h: `sizeof (struct canfd_frame)`. -/
def CANFD_MTU : Nat := 72

/-- `sizeof (can2udp_packet_t)`, the value the header asserts at compile time. -/
def sizeof_can2udp_packet_t : Nat := 84

/-- `CAN2UDP_DEFAULT_PORT` of can2udp.h. -/
def CAN2UDP_DEFAULT_PORT : Int := 4858

/-- `CAN2UDP_DEFAULT_CONFIG_FILENAME` of can2udp.c: the string `/etc/can2udp`. -/
def CAN2UDP_DEFAULT_CONFIG_FILENAME : List Nat :=
  [47, 101, 116, 99, 47, 99, 97, 110, 50, 117, 100, 112]

/-- `CAN_RAW_FILTER_MAX` of linux/can/raw.h. -/
def CAN_RAW_FILTER_MAX : Nat := 512

/-- `CAN_SFF_MASK` of linux/can.h. -/
def CAN_SFF_MASK : Nat := 0x7FF

/-- `CAN_EFF_MASK` of linux/can.h. -/
def CAN_EFF_MASK : Nat := 0x1FFFFFFF

/-- `struct can_filter` of linux/can.h. -/
structure can_filter where
  can_id : Nat
  can_mask : Nat
deriving DecidableEq, Repr

/-- One element of the `interfaces` list of the configuration file, as libconfig
presents it: each setting is there or not. -/
structure channel_setting where
  name : Option (List Nat)
  interface_index : Option Int
  filter : Option (List Int)
deriving DecidableEq, Repr

/-- The configuration file as libconfig presents it after `config_read_file`. -/
structure config_t where
  port : Option Int
  interface : Option (List Nat)
  can_fd : Option Int
  interfaces : Option (List channel_setting)
deriving DecidableEq, Repr

/-- `struct channel` of can2udp.c (the `next` pointer is the list structure of
`daemon_config_t.channels`). -/
structure channel where
  interface_name : List Nat
  udp_interface_index : Int
  raw_socket : Int
  filters : Option (List Nat)
  filters_length : Nat
  can_fd_enabled : Int
deriving DecidableEq, Repr

/-- `daemon_config_t` of can2udp.c. -/
structure daemon_config_t where
  channels : List channel
  port : Int
  interface : Option (List Nat)
  socket_broadcast : Int
deriving DecidableEq, Repr

/-- `struct timeval`. -/
structure timeval where
  tv_sec : Int
  tv_usec : Int
deriving DecidableEq, Repr

/-- The messages passed to `daemon_log` by the functions embedded here. -/
inductive LogMsg where
  /-- Error sending data to UDP socket. Data loss occured. -/
  | send_error
  /-- Error reading data from RAW socket. Unexpected size. -/
  | read_unexpected_size
  /-- Error reading timestamp from RAW socket. -/
  | timestamp_error
  /-- Debug line: processed `count` packets. -/
  | processed (count : Nat)
  /-- Error processing channel, with the error number. -/
  | process_error (err : Int)
  /-- Error parsing config file. -/
  | config_error
  /-- Out of memory. -/
  | out_of_memory
  /-- CAN socket error. -/
  | can_socket_error
  /-- CAN socket name set failed. -/
  | name_set_failed
  /-- Error setting nonblock for CAN socket. Ignoring. -/
  | nonblock_failed
  /-- Limiting the number of filters. -/
  | limiting_filters
  /-- Error setting filters for CAN socket. Ignoring. -/
  | filters_failed
  /-- CAN socket bind failed. -/
  | bind_failed
  /-- Error enabling CAN FD frames for CAN socket. Ignoring. -/
  | fd_frames_failed
  /-- Error closing socket of a channel. -/
  | close_failed
  /-- Error creating UDP socket. -/
  | udp_socket_error
  /-- Error setting UDP socket broadcast. -/
  | udp_broadcast_error
  /-- Cannot bind UDP socket to the interface. Packets will be sent on all
  interfaces. -/
  | udp_bind_failed
  /-- Error closing UDP socket fd. -/
  | udp_close_failed
  /-- Info line: initialized `good` good channels. -/
  | initialized (good : Int)
  /-- No channels to work with. Exit. -/
  | no_channels
  /-- Error closing channel. -/
  | channel_close_error
  /-- A call wrapped in `run_or_return` or `run_or_retval` failed, with its
  result. -/
  | call_failed (rv : Int)
  /-- Error of `select`. -/
  | select_error
  /-- Got SIGINT, SIGQUIT or SIGTERM. -/
  | got_signal
  /-- Got HUP. -/
  | got_hup
  /-- Starting. -/
  | starting
  /-- Started and working. -/
  | started
  /-- Terminating. -/
  | terminating
  /-- Already running. -/
  | already_running
  /-- Could not recieve return value from daemon process. -/
  | retval_wait_failed
  /-- Daemon failed with the return value. -/
  | daemon_failed (ret : Int)
  /-- Option requires an argument, or unsupported option. -/
  | bad_option
deriving DecidableEq, Repr

/-- One call that leaves the process, as recorded in the trace. -/
inductive Event where
  | read (fd : Int) (count : Nat)
  | ioctl_SIOCGSTAMP (fd : Int)
  | sendto (sock : Int) (data : List Nat)
  | close (fd : Int)
  | daemon_log (prio : Nat) (msg : LogMsg)
  /-- The call `socket (PF_CAN, SOCK_RAW, CAN_RAW)`. -/
  | socket_can
  /-- The `strcpy (ifr.ifr_name, chc->interface_name)` of `channel_init` wrote
  `n > 0` bytes past the end of the array `ifr_name`.  From here on the C
  program has no defined behaviour (the process may be killed). -/
  | buffer_overrun (n : Nat)
  /-- The call `ioctl (fd, SIOCGIFINDEX, &ifr)`; `ifr_name` is what `strcpy`
  left in the array `ifr.ifr_name`. -/
  | ioctl_SIOCGIFINDEX (fd : Int) (ifr_name : List Nat)
  /-- The call `fcntl (fd, F_SETFL, O_NONBLOCK)`. -/
  | fcntl_nonblock (fd : Int)
  /-- The call `setsockopt (fd, SOL_CAN_RAW, CAN_RAW_FILTER, rfilter, ...)`. -/
  | setsockopt_filter (fd : Int) (rfilter : List can_filter)
  /-- The call `bind (fd, &addr, ...)` with `addr.can_ifindex` set. -/
  | bind (fd : Int) (can_ifindex : Int)
  /-- The call `setsockopt (fd, SOL_CAN_RAW, CAN_RAW_FD_FRAMES, ...)`. -/
  | setsockopt_fd_frames (fd : Int)
  /-- The call `socket (PF_INET, SOCK_DGRAM, IPPROTO_UDP)`. -/
  | socket_udp
  /-- The call `setsockopt (fd, SOL_SOCKET, SO_BROADCAST, ...)`. -/
  | setsockopt_broadcast (fd : Int)
  /-- The call `setsockopt (fd, SOL_SOCKET, SO_BINDTODEVICE, interface, ...)`. -/
  | setsockopt_bindtodevice (fd : Int) (ifname : List Nat)
  /-- The call `select (FD_SETSIZE, &fds2, 0, 0, 0)` with `fds2` a copy of `fds`. -/
  | select (fds : fd_set)
  /-- The call `daemon_signal_next ()`. -/
  | daemon_signal_next
  /-- The call `daemon_retval_send (v)`. -/
  | daemon_retval_send (v : Int)
  /-- Another libdaemon call. -/
  | daemon_call (call : DaemonCall)
deriving DecidableEq, Repr

/-- The environment of the daemon: the platform, and what each system call
returns given the trace of the calls made before it. -/
structure Env where
  /-- Byte order of the host. -/
  host : Endian
  /-- Width of `unsigned long` in bits. -/
  ulong_bits : Nat
  /-- Return value of `read (fd, buf, count)`. -/
  read_ret : List Event → Int → Nat → Int
  /-- The bytes `read` stores at the start of the buffer. -/
  read_data : List Event → Int → Nat → List Nat
  /-- Contents of the uninitialised local `struct canfd_frame frame`. -/
  stack : List Event → List Nat
  /-- Result of `ioctl (fd, SIOCGSTAMP, &tv)`: `none` when it is negative. -/
  ioctl_SIOCGSTAMP : List Event → Int → Option timeval
  /-- Return value of `sendto (sock, data, ...)`. -/
  sendto_ret : List Event → Int → List Nat → Int
  /-- Return value of the call that ends the given trace, for `socket`,
  `ioctl (SIOCGIFINDEX)`, `fcntl`, `setsockopt`, `bind` and `close`. -/
  sys_ret : List Event → Int
  /-- The `ifr.ifr_ifindex` stored by the `ioctl (SIOCGIFINDEX)` that ends the
  given trace. -/
  ifindex : List Event → Int
  /-- What `config_read_file` finds in the named file: `none` when it does not
  return `CONFIG_TRUE`. -/
  config_read_file : List Nat → Option config_t
  /-- Whether the `malloc` of the node of channel `i` in `parse_config` succeeds. -/
  malloc_channel : Nat → Bool
  /-- Whether the `malloc` of the filter array of channel `i` succeeds. -/
  malloc_filters : Nat → Bool
  /-- The descriptor `daemon_signal_fd ()` returns. -/
  daemon_signal_fd : Int
  /-- Whether the `select` that ends the given trace leaves the descriptor in
  the set. -/
  select_ready : List Event → Int → Bool

/-- The mutable state outside the channel list: the trace of calls made so far
and the static counter `pkt_count`. -/
structure World where
  events : List Event
  pkt_count : Nat
deriving DecidableEq, Repr

/-- Append one event to the trace. -/
def World.emit (w : World) (e : Event) : World :=
  { w with events := w.events ++ [e] }

/-- Make the call `e`: it is appended to the trace, and the environment gives
its return value. -/
def World.call (w : World) (env : Env) (e : Event) : Int × World :=
  (env.sys_ret (w.events ++ [e]), w.emit e)

/-- The datagrams handed to `sendto`, oldest first. -/
def sent : List Event → List (List Nat)
  | [] => []
  | Event.sendto _ data :: es => data :: sent es
  | _ :: es => sent es

/-- The descriptors `close` was called on, oldest first. -/
def closes : List Event → List Int
  | [] => []
  | Event.close fd :: es => fd :: closes es
  | _ :: es => closes es

/-- The number of UDP sockets asked for, which is the number of calls of
`socket_init`: it makes the call first thing and nothing else makes it. -/
def udp_sockets : List Event → Nat
  | [] => 0
  | Event.socket_udp :: es => udp_sockets es + 1
  | _ :: es => udp_sockets es

/-- The descriptors `read` was called on, oldest first. -/
def reads : List Event → List Int
  | [] => []
  | Event.read fd _ :: es => fd :: reads es
  | _ :: es => reads es

/-- `can2udp_packet_t` of can2udp.h (packed). -/
structure can2udp_packet_t where
  version : Nat
  flags : Nat
  interface_id : Nat
  raw_frame : List Nat
  timestamp : Nat
deriving DecidableEq, Repr

/-- Object representation of a `can2udp_packet_t`: the bytes `sendto` puts on
the wire.  The struct is packed, so the fields follow each other in
declaration order. -/
def can2udp_packet_t.bytes (host : Endian) (p : can2udp_packet_t) : List Nat :=
  host_bytes host 1 p.version ++ host_bytes host 1 p.flags
    ++ host_bytes host 2 p.interface_id
    ++ fixed 72 p.raw_frame
    ++ host_bytes host 8 p.timestamp

/-- The packet `channel_send_frame` builds before sending it: the designated
initialiser (every field not named is zero), then the `memcpy` of the frame
when one is supplied. -/
def channel_send_frame_packet (chc : channel) (frame : Option (List Nat))
    (timestamp : Nat) : can2udp_packet_t :=
  let packet : can2udp_packet_t :=
    { version := CAN2UDP_PACKET_VERSION
      flags := 0
      interface_id := to_unsigned 16 chc.udp_interface_index
      raw_frame := List.replicate 72 0
      timestamp := timestamp % 2 ^ 64 }
  match frame with
  | some f => { packet with raw_frame := memcpy packet.raw_frame f 72 }
  | none => packet

/-- `channel_send_frame` of can2udp.c.  `err` is the value of the comparison
`sendto (...) != sizeof (packet)`, as the C expression parses. -/
def channel_send_frame (env : Env) (config : daemon_config_t) (chc : channel)
    (frame : Option (List Nat)) (timestamp : Nat) (w : World) : Int × World :=
  let data := (channel_send_frame_packet chc frame timestamp).bytes env.host
  let r := env.sendto_ret w.events config.socket_broadcast data
  let w1 := w.emit (Event.sendto config.socket_broadcast data)
  let err : Int := if r ≠ (sizeof_can2udp_packet_t : Int) then 1 else 0
  let w2 := if err ≠ 0 then w1.emit (Event.daemon_log LOG_WARNING LogMsg.send_error) else w1
  (0, w2)

/-- `tiemval_to_ns` of can2udp.c: `(tv.tv_sec * 1000000ul + tv.tv_usec) * 1000ul`
in `unsigned long` arithmetic. -/
def tiemval_to_ns (ulong_bits : Nat) (tv : timeval) : Nat :=
  let m := 2 ^ ulong_bits
  let a := (to_unsigned ulong_bits tv.tv_sec * 1000000) % m
  let b := (a + to_unsigned ulong_bits tv.tv_usec) % m
  (b * 1000) % m

/-- The local `frame` of `channel_process` after `read` returned `nbytes`: the
first `nbytes` bytes come from the socket, the others keep what the
uninitialised buffer held. -/
def frame_after_read (garbage data : List Nat) (nbytes : Int) : List Nat :=
  memcpy (fixed 72 garbage) data nbytes.toNat

/-- The size `channel_process` passes to `read`:
`chc->can_fd_enabled ? CANFD_MTU : CAN_MTU`. -/
def read_count (chc : channel) : Nat :=
  if chc.can_fd_enabled ≠ 0 then CANFD_MTU else CAN_MTU

/-- `channel_process` of can2udp.c. -/
def channel_process (env : Env) (config : daemon_config_t) (chc : channel)
    (w : World) : Int × World :=
  let count := read_count chc
  let nbytes := env.read_ret w.events chc.raw_socket count
  let frame := frame_after_read (env.stack w.events)
    (env.read_data w.events chc.raw_socket count) nbytes
  let w1 := w.emit (Event.read chc.raw_socket count)
  if nbytes = 0 ∨ nbytes = -EINTR then
    (-EINTR, w1)
  else if nbytes ≠ (CAN_MTU : Int) ∧ nbytes ≠ (CANFD_MTU : Int) then
    (-EINVAL, w1.emit (Event.daemon_log LOG_WARNING LogMsg.read_unexpected_size))
  else
    let r := env.ioctl_SIOCGSTAMP w1.events chc.raw_socket
    let w2 := w1.emit (Event.ioctl_SIOCGSTAMP chc.raw_socket)
    let tv : timeval := r.getD { tv_sec := 0, tv_usec := 0 }
    let w3 := if r.isNone then
        w2.emit (Event.daemon_log LOG_DEBUG LogMsg.timestamp_error)
      else w2
    let ret := channel_send_frame env config chc (some frame)
      (tiemval_to_ns env.ulong_bits tv) w3
    let n := (ret.2.pkt_count + 1) % 2 ^ env.ulong_bits
    let w5 : World := { ret.2 with pkt_count := n }
    (ret.1, w5.emit (Event.daemon_log LOG_DEBUG (LogMsg.processed n)))

/-- `channel_is_ready` of can2udp.c. -/
def channel_is_ready (chc : channel) (fds : fd_set) : Int :=
  FD_ISSET chc.raw_socket fds

/-- What the loop of `system_check_channels_and_process` does with the result
of one `channel_process`: a warning when it is not zero. -/
def after_process (r : Int × World) : World :=
  if r.1 ≠ 0 then r.2.emit (Event.daemon_log LOG_WARNING (LogMsg.process_error r.1)) else r.2

/-- The `while (chc)` loop of `system_check_channels_and_process`, on the rest
of the channel list. -/
def check_loop (env : Env) (config : daemon_config_t) (fds : fd_set) :
    List channel → World → World
  | [], w => w
  | chc :: next, w =>
    if channel_is_ready chc fds ≠ 0 then
      check_loop env config fds next (after_process (channel_process env config chc w))
    else
      check_loop env config fds next w

/-- `system_check_channels_and_process` of can2udp.c. -/
def system_check_channels_and_process (env : Env) (config : daemon_config_t)
    (fds : fd_set) (w : World) : Int × World :=
  (0, check_loop env config fds config.channels w)

/-- What `read` returns to `channel_process` called in world `w`. -/
def read_result (env : Env) (chc : channel) (w : World) : Int :=
  env.read_ret w.events chc.raw_socket (read_count chc)

/-- The timestamp `channel_process` passes on: the socket timestamp, or zero
when the ioctl fails. -/
def stamp_of (env : Env) (chc : channel) (w : World) : timeval :=
  (env.ioctl_SIOCGSTAMP (w.events ++ [Event.read chc.raw_socket (read_count chc)])
    chc.raw_socket).getD { tv_sec := 0, tv_usec := 0 }

/-- The packet `channel_process` sends once a frame of an accepted size is read. -/
def packet_of (env : Env) (chc : channel) (w : World) : List Nat :=
  (channel_send_frame_packet chc
    (some (frame_after_read (env.stack w.events)
      (env.read_data w.events chc.raw_socket (read_count chc))
      (env.read_ret w.events chc.raw_socket (read_count chc))))
    (tiemval_to_ns env.ulong_bits (stamp_of env chc w))).bytes env.host

/-! ### Configuration -/

/-- The channel `parse_config` builds from element `i` of `interfaces`: the
defaults, then each setting that is present.  The global `can_fd` is looked up
for every channel. -/
def parse_channel (cf : config_t) (i : Nat) (s : channel_setting) : channel :=
  { interface_name := s.name.getD [118, 99, 97, 110, 48]
    udp_interface_index := s.interface_index.getD (i : Int)
    raw_socket := 0
    filters := s.filter.map (fun l => l.map (to_unsigned 32))
    filters_length := (s.filter.getD []).length
    can_fd_enabled := cf.can_fd.getD 1 }

/-- The `for (i = 0; i < count; i++)` loop of `parse_config` from element `i`
on: the result is -1 when a `malloc` fails and 0 at the end of the list, with
the channels built so far. -/
def parse_channels (env : Env) (cf : config_t) : Nat → List channel_setting → Int × List channel
  | _, [] => (0, [])
  | i, s :: rest =>
    if env.malloc_channel i = false then
      (-1, [])
    else if s.filter.isSome && env.malloc_filters i = false then
      (-1, [{ parse_channel cf i s with filters := none }])
    else
      ((parse_channels env cf (i + 1) rest).1,
        parse_channel cf i s :: (parse_channels env cf (i + 1) rest).2)

/-- `parse_config` of can2udp.c. -/
def parse_config (env : Env) (config : daemon_config_t) (config_file_name : Option (List Nat))
    (w : World) : Int × daemon_config_t × World :=
  let config := { config with channels := [], port := CAN2UDP_DEFAULT_PORT, interface := none }
  let config_file_name := config_file_name.getD CAN2UDP_DEFAULT_CONFIG_FILENAME
  match env.config_read_file config_file_name with
  | none => (-1, config, w.emit (Event.daemon_log LOG_ERR LogMsg.config_error))
  | some cf =>
    let config := { config with port := cf.port.getD config.port, interface := cf.interface }
    match cf.interfaces with
    | none => (0, config, w)
    | some channels =>
      let r := parse_channels env cf 0 channels
      if r.1 < 0 then
        (-1, { config with channels := r.2 },
          w.emit (Event.daemon_log LOG_ERR LogMsg.out_of_memory))
      else
        (0, { config with channels := r.2 }, w)

/-- The elements of `interfaces` in the configuration file `parse_config`
reads: none when the file cannot be read or has no such list. -/
def settings_of (env : Env) (config_file_name : Option (List Nat)) : List channel_setting :=
  ((env.config_read_file (config_file_name.getD CAN2UDP_DEFAULT_CONFIG_FILENAME)).bind
    (fun cf => cf.interfaces)).getD []

/-! ### Channels -/

/-- The `error:` label of `channel_init`: the socket is closed unless
`raw_socket` is 0, `raw_socket` is set to 0 and -1 is returned. -/
def channel_init_error (env : Env) (chc : channel) (fds : fd_set) (w : World) :
    Int × channel × fd_set × World :=
  let w1 := if chc.raw_socket ≠ 0 then (w.call env (Event.close chc.raw_socket)).2 else w
  (-1, { chc with raw_socket := 0 }, fds, w1)

/-- The `if (chc->filters)` block of `channel_init`: the receive filter built
from the first `len` configured ids and installed with `setsockopt`. -/
def channel_init_filters (env : Env) (chc : channel) (w : World) : World :=
  match chc.filters with
  | none => w
  | some filters =>
    let limited : Bool := decide (chc.filters_length > CAN_RAW_FILTER_MAX)
    let w1 := if limited then
        w.emit (Event.daemon_log LOG_WARNING LogMsg.limiting_filters)
      else w
    let len := if limited then CAN_RAW_FILTER_MAX else chc.filters_length
    let rfilter : List can_filter := (List.range len).map (fun j =>
      { can_mask := if filters.getD j 0 > CAN_SFF_MASK then CAN_EFF_MASK else CAN_EFF_MASK
        can_id := filters.getD j 0 })
    let r := w1.call env (Event.setsockopt_filter chc.raw_socket rfilter)
    if r.1 < 0 then r.2.emit (Event.daemon_log LOG_WARNING LogMsg.filters_failed) else r.2

/-- `channel_init` of can2udp.c.  The interface name is copied into the
`IFNAMSIZ` bytes of `ifr.ifr_name` with `strcpy`, whatever its length: when the
name and its NUL have more than `IFNAMSIZ` bytes the copy runs past the array,
which the trace records as `buffer_overrun`.  What follows that event is the
run in which the bytes written past the array do no harm, which C does not
promise; the `ioctl` sees the `IFNAMSIZ` bytes that are in the array. -/
def channel_init (env : Env) (chc : channel) (fds : fd_set) (w : World) :
    Int × channel × fd_set × World :=
  let s := w.call env Event.socket_can
  let chc := { chc with raw_socket := s.1 }
  if s.1 < 0 then
    channel_init_error env chc fds
      (s.2.emit (Event.daemon_log LOG_WARNING LogMsg.can_socket_error))
  else
    let written := strcpy_written chc.interface_name
    let w0 := if written.length > IFNAMSIZ then
        s.2.emit (Event.buffer_overrun (written.length - IFNAMSIZ))
      else s.2
    let i := w0.call env (Event.ioctl_SIOCGIFINDEX chc.raw_socket (written.take IFNAMSIZ))
    if i.1 < 0 then
      channel_init_error env chc fds
        (i.2.emit (Event.daemon_log LOG_WARNING LogMsg.name_set_failed))
    else
      let ifr_ifindex := env.ifindex i.2.events
      let f := i.2.call env (Event.fcntl_nonblock chc.raw_socket)
      let w3 := if f.1 < 0 then
          f.2.emit (Event.daemon_log LOG_WARNING LogMsg.nonblock_failed)
        else f.2
      let w4 := channel_init_filters env chc w3
      let b := w4.call env (Event.bind chc.raw_socket ifr_ifindex)
      if b.1 < 0 then
        channel_init_error env chc fds
          (b.2.emit (Event.daemon_log LOG_WARNING LogMsg.bind_failed))
      else
        let o := b.2.call env (Event.setsockopt_fd_frames chc.raw_socket)
        if o.1 < 0 then
          (0, { chc with can_fd_enabled := 0 }, FD_SET chc.raw_socket fds,
            o.2.emit (Event.daemon_log LOG_WARNING LogMsg.fd_frames_failed))
        else
          (0, chc, FD_SET chc.raw_socket fds, o.2)

/-- `channel_close` of can2udp.c.  The freed `interface_name` is the empty
string afterwards. -/
def channel_close (env : Env) (chc : channel) (fds : fd_set) (w : World) :
    Int × channel × fd_set × World :=
  let fds := FD_CLR chc.raw_socket fds
  let c := w.call env (Event.close chc.raw_socket)
  if c.1 < 0 then
    (-1, chc, fds, c.2.emit (Event.daemon_log LOG_ERR LogMsg.close_failed))
  else
    (0, { chc with raw_socket := 0, interface_name := [] }, fds, c.2)

/-! ### The broadcast socket -/

/-- `socket_init` of can2udp.c (the broadcast address `baddr` is not part of
the embedding). -/
def socket_init (env : Env) (config : daemon_config_t) (w : World) :
    Int × daemon_config_t × World :=
  let s := w.call env Event.socket_udp
  let config := { config with socket_broadcast := s.1 }
  if s.1 < 0 then
    (-1, config, s.2.emit (Event.daemon_log LOG_ERR LogMsg.udp_socket_error))
  else
    let b := s.2.call env (Event.setsockopt_broadcast config.socket_broadcast)
    if b.1 < 0 then
      (-1, config, b.2.emit (Event.daemon_log LOG_ERR LogMsg.udp_broadcast_error))
    else
      match config.interface with
      | none => (0, config, b.2)
      | some ifname =>
        let d := b.2.call env (Event.setsockopt_bindtodevice config.socket_broadcast ifname)
        if d.1 < 0 then
          (0, config, d.2.emit (Event.daemon_log LOG_WARNING LogMsg.udp_bind_failed))
        else
          (0, config, d.2)

/-- `socket_close` of can2udp.c. -/
def socket_close (env : Env) (config : daemon_config_t) (w : World) :
    Int × daemon_config_t × World :=
  let c := w.call env (Event.close config.socket_broadcast)
  if c.1 < 0 then
    (-1, config, c.2.emit (Event.daemon_log LOG_ERR LogMsg.udp_close_failed))
  else
    (0, { config with socket_broadcast := 0 }, c.2)

/-! ### System integration -/

/-- The `while (chc)` loop of `system_init` on the rest of the channel list:
the channels as `channel_init` leaves them, the descriptor set, the world and
the counter `good_channels`. -/
def init_loop (env : Env) : List channel → fd_set → World → Int →
    List channel × fd_set × World × Int
  | [], fds, w, good_channels => ([], fds, w, good_channels)
  | chc :: next, fds, w, good_channels =>
    let r := channel_init env chc fds w
    let rest := init_loop env next r.2.2.1 r.2.2.2
      (if r.1 = 0 then good_channels + 1 else good_channels)
    (r.2.1 :: rest.1, rest.2)

/-- `system_init` of can2udp.c.  The result of `socket_init` is not looked at. -/
def system_init (env : Env) (config : daemon_config_t) (fds : fd_set)
    (config_file_name : Option (List Nat)) (w : World) :
    Int × daemon_config_t × fd_set × World :=
  let p := parse_config env config config_file_name w
  if p.1 < 0 then
    (-1, p.2.1, fds, p.2.2)
  else
    let l := init_loop env p.2.1.channels fds p.2.2 0
    let config := { p.2.1 with channels := l.1 }
    let good_channels := l.2.2.2
    let w1 := l.2.2.1.emit (Event.daemon_log LOG_INFO (LogMsg.initialized good_channels))
    if good_channels = 0 then
      (-ENODATA, config, l.2.1, w1.emit (Event.daemon_log LOG_ERR LogMsg.no_channels))
    else
      let s := socket_init env config w1
      (0, s.2.1, l.2.1, s.2.2)

/-- What the loop of `system_close` does with the result of one
`channel_close`: a warning when it is not zero. -/
def after_close (r : Int × channel × fd_set × World) : fd_set × World :=
  if r.1 ≠ 0 then
    (r.2.2.1, r.2.2.2.emit (Event.daemon_log LOG_WARNING LogMsg.channel_close_error))
  else
    (r.2.2.1, r.2.2.2)

/-- The `while (chc)` loop of `system_close` on the rest of the channel list
(each node is freed after its `channel_close`). -/
def close_loop (env : Env) : List channel → fd_set × World → fd_set × World
  | [], s => s
  | chc :: next, s => close_loop env next (after_close (channel_close env chc s.1 s.2))

/-- `system_close` of can2udp.c: the socket first, then the channels.  The
freed channel list and interface name are empty afterwards. -/
def system_close (env : Env) (config : daemon_config_t) (fds : fd_set) (w : World) :
    daemon_config_t × fd_set × World :=
  let s := socket_close env config w
  let l := close_loop env config.channels (fds, s.2.2)
  ({ s.2.1 with channels := [], interface := none }, l.1, l.2)

/-- The results of the calls of `channel_init` that `system_init` makes on a
channel list, in order. -/
def init_results (env : Env) : List channel → fd_set → World → List Int
  | [], _, _ => []
  | chc :: next, fds, w =>
    (channel_init env chc fds w).1 ::
      init_results env next (channel_init env chc fds w).2.2.1 (channel_init env chc fds w).2.2.2

/-! ### Main daemon routines -/

/-- The values `daemon_retval_send` was called with, oldest first. -/
def retvals_sent : List Event → List Int
  | [] => []
  | Event.daemon_retval_send v :: es => v :: retvals_sent es
  | _ :: es => retvals_sent es

/-- Where control goes at the end of one pass through the body of the
`while (!quit)` loop of `main`. -/
inductive Outcome where
  /-- The loop condition is tested again (`continue`, or the end of the body);
  `quit` is still 0. -/
  | next
  /-- Control is at the label `close_and_finish` (by `break` or by `goto`). -/
  | close_and_finish
  /-- Control is at the label `finish` (by the `goto` of `run_or_retval`). -/
  | finish
deriving DecidableEq, Repr

/-- The body of the loop of `main` after a `select` that did not fail: the
signal, when the signal descriptor is ready, and then the channels.  `fds2` is
the descriptor set as `select` left it. -/
def loop_dispatch (env : Env) (config : daemon_config_t) (fds2 : fd_set) (w : World) :
    Outcome × World :=
  if FD_ISSET env.daemon_signal_fd fds2 ≠ 0 then
    let g := w.call env Event.daemon_signal_next
    let sig := g.1
    if sig < 0 then
      (Outcome.finish, g.2.emit (Event.daemon_log LOG_ERR (LogMsg.call_failed sig)))
    else if sig = SIGINT ∨ sig = SIGQUIT ∨ sig = SIGTERM then
      (Outcome.close_and_finish, g.2.emit (Event.daemon_log LOG_WARNING LogMsg.got_signal))
    else
      let w1 := if sig = SIGHUP then g.2.emit (Event.daemon_log LOG_INFO LogMsg.got_hup) else g.2
      let c := system_check_channels_and_process env config fds2 w1
      if c.1 < 0 then
        (Outcome.finish, c.2.emit (Event.daemon_log LOG_ERR (LogMsg.call_failed c.1)))
      else
        (Outcome.next, c.2)
  else
    let c := system_check_channels_and_process env config fds2 w
    if c.1 < 0 then
      (Outcome.finish, c.2.emit (Event.daemon_log LOG_ERR (LogMsg.call_failed c.1)))
    else
      (Outcome.next, c.2)

/-- The descriptor set `fds2` after `select`: the descriptors of `fds` that
are ready. -/
def fds_after_select (env : Env) (fds : fd_set) (w : World) : fd_set :=
  fds.filter (fun fd => env.select_ready (w.events ++ [Event.select fds]) fd)

/-- One pass through the body of the `while (!quit)` loop of `main`. -/
def loop_body (env : Env) (config : daemon_config_t) (fds : fd_set) (w : World) :
    Outcome × World :=
  let s := w.call env (Event.select fds)
  let ret := s.1
  if ret = -EINTR then
    (Outcome.next, s.2)
  else if ret < 0 then
    (Outcome.close_and_finish, s.2.emit (Event.daemon_log LOG_ERR LogMsg.select_error))
  else
    loop_dispatch env config (fds_after_select env fds w) s.2

/-- The `while (!quit)` loop of `main`, for at most `fuel` passes: the label it
is left to, or `none` when the passes are used up. -/
def main_loop (env : Env) (config : daemon_config_t) (fds : fd_set) :
    Nat → World → Option (Outcome × World)
  | 0, _ => none
  | fuel + 1, w =>
    if (loop_body env config fds w).1 = Outcome.next then
      main_loop env config fds fuel (loop_body env config fds w).2
    else
      some (loop_body env config fds w)

/-- The label `finish` of `main`: the exit status is 0. -/
def main_finish (env : Env) (run_daemon : Int) (w : World) : Int × World :=
  let w1 := w.emit (Event.daemon_log LOG_INFO LogMsg.terminating)
  if run_daemon ≠ 0 then
    let w2 := w1.emit (Event.daemon_retval_send 255)
    let w3 := (w2.call env (Event.daemon_call DaemonCall.signal_done)).2
    (0, (w3.call env (Event.daemon_call DaemonCall.pid_file_remove)).2)
  else
    (0, w1)

/-- What `main` does once the loop is left: from the label `close_and_finish`
it runs `system_close` and falls through to `finish`; from `finish` it does
not. -/
def after_loop (env : Env) (config : daemon_config_t) (fds : fd_set) (run_daemon : Int)
    (l : Outcome × World) : Int × World :=
  if l.1 = Outcome.finish then
    main_finish env run_daemon l.2
  else
    main_finish env run_daemon (system_close env config fds l.2).2.2

/-- The failure branch of the macro `run_or_retval (fun, retval)` outside the
loop: `rv` is the negative result of `fun`. -/
def run_or_retval_failed (env : Env) (run_daemon : Int) (rv retval : Int) (w : World) :
    Int × World :=
  let w1 := w.emit (Event.daemon_log LOG_ERR (LogMsg.call_failed rv))
  let w2 := if run_daemon ≠ 0 ∧ retval ≠ 0 then w1.emit (Event.daemon_retval_send retval) else w1
  main_finish env run_daemon w2

/-- The `else` branch of `main`, which is the daemon itself (the child of the
fork, or the one process when `run_daemon` is 0). -/
def main_daemon (env : Env) (config : daemon_config_t) (run_daemon : Int)
    (config_file_name : List Nat) (fuel : Nat) (w : World) : Option (Int × World) :=
  let w0 := w.emit (Event.daemon_log LOG_INFO LogMsg.starting)
  let a := w0.call env (Event.daemon_call DaemonCall.close_all)
  if a.1 < 0 then
    some (run_or_retval_failed env run_daemon a.1 7 a.2)
  else
    let b := if run_daemon ≠ 0 then a.2.call env (Event.daemon_call DaemonCall.pid_file_create)
      else (0, a.2)
    if b.1 < 0 then
      some (run_or_retval_failed env run_daemon b.1 8 b.2)
    else
      let c := b.2.call env (Event.daemon_call DaemonCall.signal_init)
      if c.1 < 0 then
        some (run_or_retval_failed env run_daemon c.1 9 c.2)
      else
        let s := system_init env config [] (some config_file_name) c.2
        if s.1 < 0 then
          some (run_or_retval_failed env run_daemon s.1 10 s.2.2.2)
        else
          let fds := FD_SET env.daemon_signal_fd s.2.2.1
          let w1 := if run_daemon ≠ 0 then s.2.2.2.emit (Event.daemon_retval_send 0)
            else s.2.2.2
          let w2 := w1.emit (Event.daemon_log LOG_INFO LogMsg.started)
          (main_loop env s.2.1 fds fuel w2).map (after_loop env s.2.1 fds run_daemon)

/-- The `getopt` loop of `main` over the options of the command line: the exit
status when `main` returns from it, and the values of `run_daemon` and
`config_file_name`. -/
def main_options (env : Env) : List Opt → Int → List Nat → World →
    Option Int × Int × List Nat × World
  | [], run_daemon, config_file_name, w => (none, run_daemon, config_file_name, w)
  | Opt.k :: _, run_daemon, config_file_name, w =>
    let r := w.call env (Event.daemon_call DaemonCall.pid_file_kill_wait)
    if r.1 < 0 then
      (some 4, run_daemon, config_file_name,
        r.2.emit (Event.daemon_log LOG_ERR (LogMsg.call_failed r.1)))
    else
      (some 0, run_daemon, config_file_name, r.2)
  | Opt.D :: rest, _, config_file_name, w => main_options env rest 1 config_file_name w
  | Opt.t :: rest, _, config_file_name, w => main_options env rest 0 config_file_name w
  | Opt.v :: rest, run_daemon, config_file_name, w =>
    main_options env rest run_daemon config_file_name w
  | Opt.c optarg :: rest, run_daemon, _, w => main_options env rest run_daemon optarg w
  | Opt.unknown optopt :: _, run_daemon, config_file_name, w =>
    (some 1, run_daemon, config_file_name,
      if optopt = 99 ∨ (32 ≤ optopt ∧ optopt < 127) then
        w.emit (Event.daemon_log LOG_ERR LogMsg.bad_option)
      else w)

/-- `main` of can2udp.c, on the options `getopt` finds in the command line.
The result is the exit status; it is `none` when the daemon is still in its
loop after `fuel` passes. -/
def main (env : Env) (config : daemon_config_t) (opts : List Opt) (fuel : Nat) (w : World) :
    Option (Int × World) :=
  let o := main_options env opts 1 CAN2UDP_DEFAULT_CONFIG_FILENAME w
  match o.1 with
  | some status => some (status, o.2.2.2)
  | none =>
    let run_daemon := o.2.1
    let a := o.2.2.2.call env (Event.daemon_call DaemonCall.reset_sigs)
    if a.1 < 0 then
      some (2, a.2.emit (Event.daemon_log LOG_ERR (LogMsg.call_failed a.1)))
    else
      let b := a.2.call env (Event.daemon_call DaemonCall.unblock_sigs)
      if b.1 < 0 then
        some (3, b.2.emit (Event.daemon_log LOG_ERR (LogMsg.call_failed b.1)))
      else
        let p := b.2.call env (Event.daemon_call DaemonCall.pid_file_is_running)
        if p.1 ≥ 0 then
          some (1, p.2.emit (Event.daemon_log LOG_ERR LogMsg.already_running))
        else
          let i := p.2.call env (Event.daemon_call DaemonCall.retval_init)
          if i.1 < 0 then
            some (1, i.2.emit (Event.daemon_log LOG_ERR (LogMsg.call_failed i.1)))
          else
            let f := if run_daemon ≠ 0 then i.2.call env (Event.daemon_call DaemonCall.fork)
              else (0, i.2)
            if run_daemon ≠ 0 ∧ f.1 < 0 then
              some (1, (f.2.call env (Event.daemon_call DaemonCall.retval_done)).2)
            else if run_daemon ≠ 0 ∧ f.1 ≠ 0 then
              let r := f.2.call env (Event.daemon_call DaemonCall.retval_wait)
              if r.1 < 0 then
                some (6, r.2.emit (Event.daemon_log LOG_ERR LogMsg.retval_wait_failed))
              else if r.1 ≠ 0 then
                some (r.1, r.2.emit (Event.daemon_log LOG_ERR (LogMsg.daemon_failed r.1)))
              else
                some (r.1, r.2)
            else
              main_daemon env config run_daemon o.2.2.1 fuel f.2

/-- What `select` returns to the loop of `main` in world `w`. -/
def select_result (env : Env) (fds : fd_set) (w : World) : Int :=
  env.sys_ret (w.events ++ [Event.select fds])

/-- What `daemon_signal_next` returns when it is called after the `select` made
in world `w`. -/
def signal_read (env : Env) (fds : fd_set) (w : World) : Int :=
  env.sys_ret (w.events ++ [Event.select fds] ++ [Event.daemon_signal_next])

/-- The world in which the loop of `main` calls
`system_check_channels_and_process` after a `select` that left the signal
descriptor ready and a signal that does not end the loop. -/
def world_after_signal (env : Env) (fds : fd_set) (w : World) : World :=
  if signal_read env fds w = SIGHUP then
    (((w.emit (Event.select fds)).emit Event.daemon_signal_next).emit
      (Event.daemon_log LOG_INFO LogMsg.got_hup))
  else
    ((w.emit (Event.select fds)).emit Event.daemon_signal_next)

/-- The receive filters installed with `setsockopt`, oldest first, with the
socket. -/
def filters_installed : List Event → List (Int × List can_filter)
  | [] => []
  | Event.setsockopt_filter fd rfilter :: es => (fd, rfilter) :: filters_installed es
  | _ :: es => filters_installed es

/-- The overruns of `ifr.ifr_name` in the trace, oldest first: the number of
bytes written past the array each time. -/
def overruns : List Event → List Nat
  | [] => []
  | Event.buffer_overrun n :: es => n :: overruns es
  | _ :: es => overruns es

/-- The names handed to `ioctl (SIOCGIFINDEX)` in the array `ifr.ifr_name`,
oldest first. -/
def ifr_names : List Event → List (List Nat)
  | [] => []
  | Event.ioctl_SIOCGIFINDEX _ ifr_name :: es => ifr_name :: ifr_names es
  | _ :: es => ifr_names es

end Can2udp

/-! ## iio2udp -/

namespace Iio2udp

open X2udp

/-- `IIO2UDP_PACKET_VERSION` of iio2udp.h. -/
def IIO2UDP_PACKET_VERSION : Nat := 1

/-- `sizeof (iio2udp_packet_short_t)`, the value the header asserts. -/
def sizeof_iio2udp_packet_short_t : Nat := 16

/-- `sizeof (iio2udp_packet_long_t)`, the value the header asserts. -/
def sizeof_iio2udp_packet_long_t : Nat :=
  sizeof_iio2udp_packet_short_t + 64 + 1 + 64 + 1 + 64 + 1

/-- A C `double`, as its 64-bit pattern. -/
abbrev double := Nat

/-- The constant `1.0`. -/
def double_one : double := 0x3FF0000000000000

/-- The comparison `x != 0` on doubles: false on the two zeros only. -/
def double_ne_zero (x : double) : Bool :=
  x % 2 ^ 63 != 0

/-- `IIO2UDP_DEFAULT_PORT` of iio2udp.h. -/
def IIO2UDP_DEFAULT_PORT : Int := 4857

/-- `IIO2UDP_DEFAULT_CONFIG_FILENAME` of iio2udp.c: the string `/etc/iio2udp`. -/
def IIO2UDP_DEFAULT_CONFIG_FILENAME : List Nat :=
  [47, 101, 116, 99, 47, 105, 105, 111, 50, 117, 100, 112]

/-- `ENODEV` of errno.h. -/
def ENODEV : Int := 19

/-- One element of the `channels` list of the configuration file, as libconfig
presents it: each setting is there or not. -/
structure channel_setting where
  scale : Option double
  offset : Option double
  sample_time : Option Int
  device : Option (List Nat)
  channel : Option (List Nat)
  long_format : Option Int
  device_index : Option Int
  channel_index : Option Int
deriving DecidableEq, Repr

/-- The configuration file as libconfig presents it after `config_read_file`. -/
structure config_t where
  port : Option Int
  interface : Option (List Nat)
  channels : Option (List channel_setting)
deriving DecidableEq, Repr

/-- `struct timespec`. -/
structure timespec where
  tv_sec : Int
  tv_nsec : Int
deriving DecidableEq, Repr

/-- `struct itimerspec`. -/
structure itimerspec where
  it_interval : timespec
  it_value : timespec
deriving DecidableEq, Repr

/-- `struct channel` of iio2udp.c (`rx` and `ch` are handles into libiio, the
`next` pointer is the list structure of `daemon_config_t.channels`). -/
structure channel where
  scale : double
  iio_scale : double
  offset : double
  sample_time : Int
  device_name : List Nat
  channel_name : List Nat
  rx : Option Nat
  ch : Option Nat
  udp_device_index : Int
  udp_channel_index : Int
  use_long_format : Int
  timerfd : Int
deriving DecidableEq, Repr

/-- `daemon_config_t` of iio2udp.c. -/
structure daemon_config_t where
  channels : List channel
  context : Option Nat
  port : Int
  interface : Option (List Nat)
  socket_broadcast : Int
deriving DecidableEq, Repr

/-- The messages passed to `daemon_log` by the functions embedded here. -/
inductive LogMsg where
  /-- Error sending data to UDP socket. Data loss occured. -/
  | send_error
  /-- Error processing channel, with the error number. -/
  | process_error (err : Int)
  /-- Error parsing config file. -/
  | config_error
  /-- Out of memory. -/
  | out_of_memory
  /-- Cannot open iio device. -/
  | device_not_found
  /-- Cannot open iio channel. -/
  | channel_not_found
  /-- Cannot create the timer. -/
  | timer_create_failed
  /-- Error calling timerfd_settime. -/
  | timer_settime_failed
  /-- Error closing timer fd. -/
  | close_failed
  /-- Error creating UDP socket. -/
  | udp_socket_error
  /-- Error setting UDP socket broadcast. -/
  | udp_broadcast_error
  /-- Cannot bind UDP socket to the interface. Packets will be sent on all
  interfaces. -/
  | udp_bind_failed
  /-- Error closing UDP socket fd. -/
  | udp_close_failed
  /-- Cannot create default iio context. -/
  | no_context
  /-- Info line: initialized `good` good channels. -/
  | initialized (good : Int)
  /-- No channels to work with. Exit. -/
  | no_channels
  /-- Error closing channel. -/
  | channel_close_error
  /-- A call wrapped in `run_or_return` or `run_or_retval` failed, with its
  result. -/
  | call_failed (rv : Int)
  /-- Error of `select`. -/
  | select_error
  /-- Got SIGINT, SIGQUIT or SIGTERM. -/
  | got_signal
  /-- Got HUP. -/
  | got_hup
  /-- Starting. -/
  | starting
  /-- Started and working. -/
  | started
  /-- Terminating. -/
  | terminating
  /-- Already running. -/
  | already_running
  /-- Could not recieve return value from daemon process. -/
  | retval_wait_failed
  /-- Daemon failed with the return value. -/
  | daemon_failed (ret : Int)
  /-- Option requires an argument, or unsupported option. -/
  | bad_option
deriving DecidableEq, Repr

/-- One call that leaves the process, as recorded in the trace. -/
inductive Event where
  | read (fd : Int) (count : Nat)
  | iio_channel_attr_read_double (ch : Option Nat)
  | sendto (sock : Int) (data : List Nat)
  | close (fd : Int)
  | daemon_log (prio : Nat) (msg : LogMsg)
  /-- The call `iio_create_default_context ()`. -/
  | iio_create_default_context
  /-- The call `iio_context_find_device (context, device_name)`. -/
  | iio_context_find_device (context : Option Nat) (device_name : List Nat)
  /-- The call `iio_device_find_channel (rx, channel_name, false)`. -/
  | iio_device_find_channel (rx : Option Nat) (channel_name : List Nat)
  /-- The call `iio_channel_attr_read_double (ch, "scale", &chc->iio_scale)`. -/
  | iio_channel_attr_read_scale (ch : Option Nat)
  /-- The call `timerfd_create (CLOCK_MONOTONIC, O_NONBLOCK)`. -/
  | timerfd_create
  /-- The call `timerfd_settime (fd, 0, &interval, NULL)`. -/
  | timerfd_settime (fd : Int) (interval : itimerspec)
  /-- The call `iio_context_destroy (context)`. -/
  | iio_context_destroy (context : Option Nat)
  /-- The call `socket (PF_INET, SOCK_DGRAM, IPPROTO_UDP)`. -/
  | socket_udp
  /-- The call `setsockopt (fd, SOL_SOCKET, SO_BROADCAST, ...)`. -/
  | setsockopt_broadcast (fd : Int)
  /-- The call `setsockopt (fd, SOL_SOCKET, SO_BINDTODEVICE, interface, ...)`. -/
  | setsockopt_bindtodevice (fd : Int) (ifname : List Nat)
  /-- The call `select (FD_SETSIZE, &fds2, 0, 0, 0)` with `fds2` a copy of `fds`. -/
  | select (fds : fd_set)
  /-- The call `daemon_signal_next ()`. -/
  | daemon_signal_next
  /-- The call `daemon_retval_send (v)`. -/
  | daemon_retval_send (v : Int)
  /-- Another libdaemon call. -/
  | daemon_call (call : DaemonCall)
deriving DecidableEq, Repr

/-- The environment of the daemon: the platform, and what each call returns
given the trace of the calls made before it. -/
structure Env where
  /-- Byte order of the host. -/
  host : Endian
  /-- Division of doubles. -/
  fdiv : double → double → double
  /-- Multiplication of doubles. -/
  fmul : double → double → double
  /-- Addition of doubles. -/
  fadd : double → double → double
  /-- Return value of `read (fd, buf, count)`. -/
  read_ret : List Event → Int → Nat → Int
  /-- Return value of `iio_channel_attr_read_double (ch, "raw", &value)` and the
  value it stores. -/
  iio_read_raw : List Event → Option Nat → Int × double
  /-- Return value of `sendto (sock, data, ...)`. -/
  sendto_ret : List Event → Int → List Nat → Int
  /-- Return value of the call that ends the given trace, for `timerfd_create`,
  `timerfd_settime`, `socket`, `setsockopt` and `close`. -/
  sys_ret : List Event → Int
  /-- The handle returned by the libiio call that ends the given trace
  (`iio_create_default_context`, `iio_context_find_device`,
  `iio_device_find_channel`): `none` for NULL. -/
  iio_handle : List Event → Option Nat
  /-- Return value of `iio_channel_attr_read_double (ch, "scale", &value)` and
  the value it stores when it succeeds. -/
  iio_read_scale : List Event → Option Nat → Int × double
  /-- What `config_read_file` finds in the named file: `none` when it does not
  return `CONFIG_TRUE`. -/
  config_read_file : List Nat → Option config_t
  /-- Whether the `malloc` of the node of channel `i` in `parse_config` succeeds. -/
  malloc_channel : Nat → Bool
  /-- The descriptor `daemon_signal_fd ()` returns. -/
  daemon_signal_fd : Int
  /-- Whether the `select` that ends the given trace leaves the descriptor in
  the set. -/
  select_ready : List Event → Int → Bool

/-- The mutable state outside the channel list: the trace of calls so far. -/
structure World where
  events : List Event
deriving DecidableEq, Repr

/-- Append one event to the trace. -/
def World.emit (w : World) (e : Event) : World :=
  { w with events := w.events ++ [e] }

/-- Make the call `e`: it is appended to the trace, and the environment gives
its return value. -/
def World.call (w : World) (env : Env) (e : Event) : Int × World :=
  (env.sys_ret (w.events ++ [e]), w.emit e)

/-- The descriptors `close` was called on, oldest first. -/
def closes : List Event → List Int
  | [] => []
  | Event.close fd :: es => fd :: closes es
  | _ :: es => closes es

/-- The number of UDP sockets asked for, which is the number of calls of
`socket_init`: it makes the call first thing and nothing else makes it. -/
def udp_sockets : List Event → Nat
  | [] => 0
  | Event.socket_udp :: es => udp_sockets es + 1
  | _ :: es => udp_sockets es

/-- The datagrams handed to `sendto`, oldest first. -/
def sent : List Event → List (List Nat)
  | [] => []
  | Event.sendto _ data :: es => data :: sent es
  | _ :: es => sent es

/-- The descriptors `read` was called on, oldest first. -/
def reads : List Event → List Int
  | [] => []
  | Event.read fd _ :: es => fd :: reads es
  | _ :: es => reads es

/-- `iio2udp_packet_short_t` of iio2udp.h (packed); `value` is the anonymous
union of `value_u64` and `value_dbl`. -/
structure iio2udp_packet_short_t where
  version : Nat
  flags : Nat
  OPCQuality : Nat
  device_id : Nat
  channel_id : Nat
  value : Nat
deriving DecidableEq, Repr

/-- Object representation of an `iio2udp_packet_short_t`. -/
def iio2udp_packet_short_t.bytes (host : Endian) (p : iio2udp_packet_short_t) : List Nat :=
  host_bytes host 1 p.version ++ host_bytes host 1 p.flags
    ++ host_bytes host 2 p.OPCQuality
    ++ host_bytes host 2 p.device_id
    ++ host_bytes host 2 p.channel_id
    ++ host_bytes host 8 p.value

/-- `iio2udp_packet_long_t` of iio2udp.h (packed). -/
structure iio2udp_packet_long_t where
  data : iio2udp_packet_short_t
  device_name : List Nat
  channel_name : List Nat
  value_string : List Nat
deriving DecidableEq, Repr

/-- Object representation of an `iio2udp_packet_long_t`. -/
def iio2udp_packet_long_t.bytes (host : Endian) (p : iio2udp_packet_long_t) : List Nat :=
  p.data.bytes host ++ fixed (64 + 1) p.device_name ++ fixed (64 + 1) p.channel_name
    ++ fixed (64 + 1) p.value_string

/-- The `p_short` of `channel_process` once the value has been read: `rc` is
what `iio_channel_attr_read_double` returned and `value` what it stored. -/
def channel_process_short (env : Env) (chc : channel) (rc : Int) (value : double) :
    iio2udp_packet_short_t :=
  let p_short : iio2udp_packet_short_t :=
    { version := IIO2UDP_PACKET_VERSION
      flags := 0
      OPCQuality := 0
      device_id := htons env.host (to_unsigned 16 chc.udp_device_index)
      channel_id := htons env.host (to_unsigned 16 chc.udp_channel_index)
      value := 0 }
  if rc = EXIT_SUCCESS then
    let conditioned := env.fadd
      (env.fmul
        (env.fdiv value (if double_ne_zero chc.iio_scale then chc.iio_scale else double_one))
        chc.scale)
      chc.offset
    { p_short with OPCQuality := htons env.host 0xC0, value := conditioned % 2 ^ 64 }
  else
    { p_short with OPCQuality := htons env.host 0x00 }

/-- The `p_long` of `channel_process` when `use_long_format` is set: the
initialiser `.data = p_short` (every other field zero), then the two
`strncpy`. -/
def channel_process_long (chc : channel) (p_short : iio2udp_packet_short_t) :
    iio2udp_packet_long_t :=
  let p_long : iio2udp_packet_long_t :=
    { data := p_short
      device_name := List.replicate (64 + 1) 0
      channel_name := List.replicate (64 + 1) 0
      value_string := List.replicate (64 + 1) 0 }
  { p_long with
    device_name := strncpy p_long.device_name chc.device_name (64 + 1)
    channel_name := strncpy p_long.channel_name chc.channel_name (64 + 1) }

/-- The bytes `channel_process` hands to `sendto`, with their length
`packet_length`. -/
def channel_process_packet (env : Env) (chc : channel) (rc : Int) (value : double) :
    List Nat × Nat :=
  let p_short := channel_process_short env chc rc value
  if chc.use_long_format ≠ 0 then
    ((channel_process_long chc p_short).bytes env.host, sizeof_iio2udp_packet_long_t)
  else
    (p_short.bytes env.host, sizeof_iio2udp_packet_short_t)

/-- `channel_process` of iio2udp.c.  `err` is the value of the comparison
`sendto (...) != packet_length`, as the C expression parses. -/
def channel_process (env : Env) (config : daemon_config_t) (chc : channel)
    (w : World) : Int × World :=
  let n := env.read_ret w.events chc.timerfd 8
  let w1 := w.emit (Event.read chc.timerfd 8)
  if n ≠ 8 then
    (-EINPROGRESS, w1)
  else
    let rv := env.iio_read_raw w1.events chc.ch
    let w2 := w1.emit (Event.iio_channel_attr_read_double chc.ch)
    let packet := channel_process_packet env chc rv.1 rv.2
    let r := env.sendto_ret w2.events config.socket_broadcast packet.1
    let w3 := w2.emit (Event.sendto config.socket_broadcast packet.1)
    let err : Int := if r ≠ (packet.2 : Int) then 1 else 0
    let w4 := if err ≠ 0 then w3.emit (Event.daemon_log LOG_WARNING LogMsg.send_error) else w3
    (0, w4)

/-- `channel_is_ready` of iio2udp.c. -/
def channel_is_ready (chc : channel) (fds : fd_set) : Int :=
  FD_ISSET chc.timerfd fds

/-- What the loop of `system_check_channels_and_process` does with the result
of one `channel_process`: a warning when it is not zero. -/
def after_process (r : Int × World) : World :=
  if r.1 ≠ 0 then r.2.emit (Event.daemon_log LOG_WARNING (LogMsg.process_error r.1)) else r.2

/-- The `while (chc)` loop of `system_check_channels_and_process`, on the rest
of the channel list. -/
def check_loop (env : Env) (config : daemon_config_t) (fds : fd_set) :
    List channel → World → World
  | [], w => w
  | chc :: next, w =>
    if channel_is_ready chc fds ≠ 0 then
      check_loop env config fds next (after_process (channel_process env config chc w))
    else
      check_loop env config fds next w

/-- `system_check_channels_and_process` of iio2udp.c. -/
def system_check_channels_and_process (env : Env) (config : daemon_config_t)
    (fds : fd_set) (w : World) : Int × World :=
  (0, check_loop env config fds config.channels w)

/-- The result of the value read in `channel_process`, made after the timer
read: return code and value. -/
def value_read (env : Env) (chc : channel) (w : World) : Int × double :=
  env.iio_read_raw (w.events ++ [Event.read chc.timerfd 8]) chc.ch

/-- The packet `channel_process` sends once the timer expiration is consumed. -/
def packet_of (env : Env) (chc : channel) (w : World) : List Nat :=
  (channel_process_packet env chc (value_read env chc w).1 (value_read env chc w).2).1

/-! ### Configuration -/

/-- The channel `parse_config` builds from element `i` of `channels`: the
defaults, then each setting that is present. -/
def parse_channel (i : Nat) (s : channel_setting) : channel :=
  { scale := s.scale.getD double_one
    iio_scale := double_one
    offset := s.offset.getD 0
    sample_time := s.sample_time.getD 100
    device_name := s.device.getD []
    channel_name := s.channel.getD []
    rx := none
    ch := none
    udp_device_index := s.device_index.getD 0
    udp_channel_index := s.channel_index.getD (i : Int)
    use_long_format := s.long_format.getD 0
    timerfd := 0 }

/-- The `for (i = 0; i < count; i++)` loop of `parse_config` from element `i`
on: the result is -1 when a `malloc` fails and 0 at the end of the list, with
the channels built so far. -/
def parse_channels (env : Env) : Nat → List channel_setting → Int × List channel
  | _, [] => (0, [])
  | i, s :: rest =>
    if env.malloc_channel i = false then
      (-1, [])
    else
      ((parse_channels env (i + 1) rest).1,
        parse_channel i s :: (parse_channels env (i + 1) rest).2)

/-- `parse_config` of iio2udp.c. -/
def parse_config (env : Env) (config : daemon_config_t) (config_file_name : Option (List Nat))
    (w : World) : Int × daemon_config_t × World :=
  let config := { config with
    channels := [], port := IIO2UDP_DEFAULT_PORT, context := none, interface := none }
  let config_file_name := config_file_name.getD IIO2UDP_DEFAULT_CONFIG_FILENAME
  match env.config_read_file config_file_name with
  | none => (-1, config, w.emit (Event.daemon_log LOG_ERR LogMsg.config_error))
  | some cf =>
    let config := { config with port := cf.port.getD config.port, interface := cf.interface }
    match cf.channels with
    | none => (0, config, w)
    | some channels =>
      let r := parse_channels env 0 channels
      if r.1 < 0 then
        (-1, { config with channels := r.2 },
          w.emit (Event.daemon_log LOG_ERR LogMsg.out_of_memory))
      else
        (0, { config with channels := r.2 }, w)

/-- The elements of `channels` in the configuration file `parse_config`
reads: none when the file cannot be read or has no such list. -/
def settings_of (env : Env) (config_file_name : Option (List Nat)) : List channel_setting :=
  ((env.config_read_file (config_file_name.getD IIO2UDP_DEFAULT_CONFIG_FILENAME)).bind
    (fun cf => cf.channels)).getD []

/-! ### Channels -/

/-- The `error:` label of `channel_init`. -/
def channel_init_error (chc : channel) (fds : fd_set) (w : World) :
    Int × channel × fd_set × World :=
  (-1, { chc with rx := none, ch := none }, fds, w)

/-- The timer setting of `channel_init` for a `sample_time` of `m` ms:
`floor (m / 1000.0)` seconds and `fmod (m * 1e6, 1e9)` nanoseconds, converted
to the integer fields.  On an `int` `m` both double operations are exact, so
they are the floor of the quotient and the remainder with the sign of `m`. -/
def sample_timespec (m : Int) : timespec :=
  { tv_sec := Int.fdiv m 1000
    tv_nsec := Int.tmod (m * 1000000) 1000000000 }

/-- `channel_init` of iio2udp.c. -/
def channel_init (env : Env) (context : Option Nat) (chc : channel) (fds : fd_set)
    (w : World) : Int × channel × fd_set × World :=
  let w1 := w.emit (Event.iio_context_find_device context chc.device_name)
  let chc := { chc with rx := env.iio_handle w1.events }
  if chc.rx.isNone then
    channel_init_error chc fds
      (w1.emit (Event.daemon_log LOG_WARNING LogMsg.device_not_found))
  else
    let w2 := w1.emit (Event.iio_device_find_channel chc.rx chc.channel_name)
    let chc := { chc with ch := env.iio_handle w2.events }
    if chc.ch.isNone then
      channel_init_error chc fds
        (w2.emit (Event.daemon_log LOG_WARNING LogMsg.channel_not_found))
    else
      let sc := env.iio_read_scale w2.events chc.ch
      let w3 := w2.emit (Event.iio_channel_attr_read_scale chc.ch)
      let chc := if sc.1 = 0 then { chc with iio_scale := sc.2 } else chc
      let t := w3.call env Event.timerfd_create
      let chc := { chc with timerfd := t.1 }
      if t.1 < 0 then
        channel_init_error chc fds
          (t.2.emit (Event.daemon_log LOG_ERR LogMsg.timer_create_failed))
      else
        let interval : itimerspec :=
          { it_interval := sample_timespec chc.sample_time
            it_value := sample_timespec chc.sample_time }
        let st := t.2.call env (Event.timerfd_settime chc.timerfd interval)
        if st.1 < 0 then
          channel_init_error chc fds
            (st.2.emit (Event.daemon_log LOG_ERR LogMsg.timer_settime_failed))
        else
          (0, chc, FD_SET chc.timerfd fds, st.2)

/-- `channel_close` of iio2udp.c.  The freed names are the empty string
afterwards. -/
def channel_close (env : Env) (chc : channel) (fds : fd_set) (w : World) :
    Int × channel × fd_set × World :=
  let fds := FD_CLR chc.timerfd fds
  let c := w.call env (Event.close chc.timerfd)
  if c.1 < 0 then
    (-1, chc, fds, c.2.emit (Event.daemon_log LOG_ERR LogMsg.close_failed))
  else
    (0, { chc with timerfd := 0, channel_name := [], device_name := [], rx := none, ch := none },
      fds, c.2)

/-! ### The broadcast socket -/

/-- `socket_init` of iio2udp.c (the broadcast address `baddr` is not part of
the embedding). -/
def socket_init (env : Env) (config : daemon_config_t) (w : World) :
    Int × daemon_config_t × World :=
  let s := w.call env Event.socket_udp
  let config := { config with socket_broadcast := s.1 }
  if s.1 < 0 then
    (-1, config, s.2.emit (Event.daemon_log LOG_ERR LogMsg.udp_socket_error))
  else
    let b := s.2.call env (Event.setsockopt_broadcast config.socket_broadcast)
    if b.1 < 0 then
      (-1, config, b.2.emit (Event.daemon_log LOG_ERR LogMsg.udp_broadcast_error))
    else
      match config.interface with
      | none => (0, config, b.2)
      | some ifname =>
        let d := b.2.call env (Event.setsockopt_bindtodevice config.socket_broadcast ifname)
        if d.1 < 0 then
          (0, config, d.2.emit (Event.daemon_log LOG_WARNING LogMsg.udp_bind_failed))
        else
          (0, config, d.2)

/-- `socket_close` of iio2udp.c. -/
def socket_close (env : Env) (config : daemon_config_t) (w : World) :
    Int × daemon_config_t × World :=
  let c := w.call env (Event.close config.socket_broadcast)
  if c.1 < 0 then
    (-1, config, c.2.emit (Event.daemon_log LOG_ERR LogMsg.udp_close_failed))
  else
    (0, { config with socket_broadcast := 0 }, c.2)

/-! ### System integration -/

/-- The `while (chc)` loop of `system_init` on the rest of the channel list:
the channels as `channel_init` leaves them, the descriptor set, the world and
the counter `good_channels`. -/
def init_loop (env : Env) (context : Option Nat) : List channel → fd_set → World → Int →
    List channel × fd_set × World × Int
  | [], fds, w, good_channels => ([], fds, w, good_channels)
  | chc :: next, fds, w, good_channels =>
    let r := channel_init env context chc fds w
    let rest := init_loop env context next r.2.2.1 r.2.2.2
      (if r.1 = 0 then good_channels + 1 else good_channels)
    (r.2.1 :: rest.1, rest.2)

/-- `system_init` of iio2udp.c.  The result of `socket_init` is not looked at. -/
def system_init (env : Env) (config : daemon_config_t) (fds : fd_set)
    (config_file_name : Option (List Nat)) (w : World) :
    Int × daemon_config_t × fd_set × World :=
  let p := parse_config env config config_file_name w
  if p.1 < 0 then
    (-1, p.2.1, fds, p.2.2)
  else
    let w0 := p.2.2.emit Event.iio_create_default_context
    let config := { p.2.1 with context := env.iio_handle w0.events }
    if config.context.isNone then
      (-ENODEV, config, fds, w0.emit (Event.daemon_log LOG_WARNING LogMsg.no_context))
    else
      let l := init_loop env config.context config.channels fds w0 0
      let config := { config with channels := l.1 }
      let good_channels := l.2.2.2
      let w1 := l.2.2.1.emit (Event.daemon_log LOG_INFO (LogMsg.initialized good_channels))
      if good_channels = 0 then
        (-ENODATA, config, l.2.1, w1.emit (Event.daemon_log LOG_ERR LogMsg.no_channels))
      else
        let s := socket_init env config w1
        (0, s.2.1, l.2.1, s.2.2)

/-- What the loop of `system_close` does with the result of one
`channel_close`: a warning when it is not zero. -/
def after_close (r : Int × channel × fd_set × World) : fd_set × World :=
  if r.1 ≠ 0 then
    (r.2.2.1, r.2.2.2.emit (Event.daemon_log LOG_WARNING LogMsg.channel_close_error))
  else
    (r.2.2.1, r.2.2.2)

/-- The `while (chc)` loop of `system_close` on the rest of the channel list
(each node is freed after its `channel_close`). -/
def close_loop (env : Env) : List channel → fd_set × World → fd_set × World
  | [], s => s
  | chc :: next, s => close_loop env next (after_close (channel_close env chc s.1 s.2))

/-- `system_close` of iio2udp.c: the socket first, then the channels, then the
iio context.  The freed channel list and interface name are empty afterwards. -/
def system_close (env : Env) (config : daemon_config_t) (fds : fd_set) (w : World) :
    daemon_config_t × fd_set × World :=
  let s := socket_close env config w
  let l := close_loop env config.channels (fds, s.2.2)
  ({ s.2.1 with channels := [], context := none, interface := none }, l.1,
    l.2.emit (Event.iio_context_destroy config.context))

/-- The results of the calls of `channel_init` that `system_init` makes on a
channel list, in order. -/
def init_results (env : Env) (context : Option Nat) : List channel → fd_set → World → List Int
  | [], _, _ => []
  | chc :: next, fds, w =>
    (channel_init env context chc fds w).1 ::
      init_results env context next (channel_init env context chc fds w).2.2.1
        (channel_init env context chc fds w).2.2.2

/-- The handle `iio_create_default_context` returns to `system_init`, called
after `parse_config`. -/
def context_of (env : Env) (config : daemon_config_t) (config_file_name : Option (List Nat))
    (w : World) : Option Nat :=
  env.iio_handle
    ((parse_config env config config_file_name w).2.2.emit
      Event.iio_create_default_context).events

/-! ### Main daemon routines -/

/-- The values `daemon_retval_send` was called with, oldest first. -/
def retvals_sent : List Event → List Int
  | [] => []
  | Event.daemon_retval_send v :: es => v :: retvals_sent es
  | _ :: es => retvals_sent es

/-- Where control goes at the end of one pass through the body of the
`while (!quit)` loop of `main`. -/
inductive Outcome where
  /-- The loop condition is tested again (`continue`, or the end of the body);
  `quit` is still 0. -/
  | next
  /-- Control is at the label `close_and_finish` (by `break` or by `goto`). -/
  | close_and_finish
  /-- Control is at the label `finish` (by the `goto` of `run_or_retval`). -/
  | finish
deriving DecidableEq, Repr

/-- The body of the loop of `main` after a `select` that did not fail: the
signal, when the signal descriptor is ready, and then the channels.  `fds2` is
the descriptor set as `select` left it. -/
def loop_dispatch (env : Env) (config : daemon_config_t) (fds2 : fd_set) (w : World) :
    Outcome × World :=
  if FD_ISSET env.daemon_signal_fd fds2 ≠ 0 then
    let g := w.call env Event.daemon_signal_next
    let sig := g.1
    if sig < 0 then
      (Outcome.finish, g.2.emit (Event.daemon_log LOG_ERR (LogMsg.call_failed sig)))
    else if sig = SIGINT ∨ sig = SIGQUIT ∨ sig = SIGTERM then
      (Outcome.close_and_finish, g.2.emit (Event.daemon_log LOG_WARNING LogMsg.got_signal))
    else
      let w1 := if sig = SIGHUP then g.2.emit (Event.daemon_log LOG_INFO LogMsg.got_hup) else g.2
      let c := system_check_channels_and_process env config fds2 w1
      if c.1 < 0 then
        (Outcome.finish, c.2.emit (Event.daemon_log LOG_ERR (LogMsg.call_failed c.1)))
      else
        (Outcome.next, c.2)
  else
    let c := system_check_channels_and_process env config fds2 w
    if c.1 < 0 then
      (Outcome.finish, c.2.emit (Event.daemon_log LOG_ERR (LogMsg.call_failed c.1)))
    else
      (Outcome.next, c.2)

/-- The descriptor set `fds2` after `select`: the descriptors of `fds` that
are ready. -/
def fds_after_select (env : Env) (fds : fd_set) (w : World) : fd_set :=
  fds.filter (fun fd => env.select_ready (w.events ++ [Event.select fds]) fd)

/-- One pass through the body of the `while (!quit)` loop of `main`. -/
def loop_body (env : Env) (config : daemon_config_t) (fds : fd_set) (w : World) :
    Outcome × World :=
  let s := w.call env (Event.select fds)
  let ret := s.1
  if ret = -EINTR then
    (Outcome.next, s.2)
  else if ret < 0 then
    (Outcome.close_and_finish, s.2.emit (Event.daemon_log LOG_ERR LogMsg.select_error))
  else
    loop_dispatch env config (fds_after_select env fds w) s.2

/-- The `while (!quit)` loop of `main`, for at most `fuel` passes: the label it
is left to, or `none` when the passes are used up. -/
def main_loop (env : Env) (config : daemon_config_t) (fds : fd_set) :
    Nat → World → Option (Outcome × World)
  | 0, _ => none
  | fuel + 1, w =>
    if (loop_body env config fds w).1 = Outcome.next then
      main_loop env config fds fuel (loop_body env config fds w).2
    else
      some (loop_body env config fds w)

/-- The label `finish` of `main`: the exit status is 0. -/
def main_finish (env : Env) (run_daemon : Int) (w : World) : Int × World :=
  let w1 := w.emit (Event.daemon_log LOG_INFO LogMsg.terminating)
  if run_daemon ≠ 0 then
    let w2 := w1.emit (Event.daemon_retval_send 255)
    let w3 := (w2.call env (Event.daemon_call DaemonCall.signal_done)).2
    (0, (w3.call env (Event.daemon_call DaemonCall.pid_file_remove)).2)
  else
    (0, w1)

/-- What `main` does once the loop is left: from the label `close_and_finish`
it runs `system_close` and falls through to `finish`; from `finish` it does
not. -/
def after_loop (env : Env) (config : daemon_config_t) (fds : fd_set) (run_daemon : Int)
    (l : Outcome × World) : Int × World :=
  if l.1 = Outcome.finish then
    main_finish env run_daemon l.2
  else
    main_finish env run_daemon (system_close env config fds l.2).2.2

/-- The failure branch of the macro `run_or_retval (fun, retval)` outside the
loop: `rv` is the negative result of `fun`. -/
def run_or_retval_failed (env : Env) (run_daemon : Int) (rv retval : Int) (w : World) :
    Int × World :=
  let w1 := w.emit (Event.daemon_log LOG_ERR (LogMsg.call_failed rv))
  let w2 := if run_daemon ≠ 0 ∧ retval ≠ 0 then w1.emit (Event.daemon_retval_send retval) else w1
  main_finish env run_daemon w2

/-- The `else` branch of `main`, which is the daemon itself (the child of the
fork, or the one process when `run_daemon` is 0). -/
def main_daemon (env : Env) (config : daemon_config_t) (run_daemon : Int)
    (config_file_name : List Nat) (fuel : Nat) (w : World) : Option (Int × World) :=
  let w0 := w.emit (Event.daemon_log LOG_INFO LogMsg.starting)
  let a := w0.call env (Event.daemon_call DaemonCall.close_all)
  if a.1 < 0 then
    some (run_or_retval_failed env run_daemon a.1 7 a.2)
  else
    let b := if run_daemon ≠ 0 then a.2.call env (Event.daemon_call DaemonCall.pid_file_create)
      else (0, a.2)
    if b.1 < 0 then
      some (run_or_retval_failed env run_daemon b.1 8 b.2)
    else
      let c := b.2.call env (Event.daemon_call DaemonCall.signal_init)
      if c.1 < 0 then
        some (run_or_retval_failed env run_daemon c.1 9 c.2)
      else
        let s := system_init env config [] (some config_file_name) c.2
        if s.1 < 0 then
          some (run_or_retval_failed env run_daemon s.1 10 s.2.2.2)
        else
          let fds := FD_SET env.daemon_signal_fd s.2.2.1
          let w1 := if run_daemon ≠ 0 then s.2.2.2.emit (Event.daemon_retval_send 0)
            else s.2.2.2
          let w2 := w1.emit (Event.daemon_log LOG_INFO LogMsg.started)
          (main_loop env s.2.1 fds fuel w2).map (after_loop env s.2.1 fds run_daemon)

/-- The `getopt` loop of `main` over the options of the command line: the exit
status when `main` returns from it, and the values of `run_daemon` and
`config_file_name`. -/
def main_options (env : Env) : List Opt → Int → List Nat → World →
    Option Int × Int × List Nat × World
  | [], run_daemon, config_file_name, w => (none, run_daemon, config_file_name, w)
  | Opt.k :: _, run_daemon, config_file_name, w =>
    let r := w.call env (Event.daemon_call DaemonCall.pid_file_kill_wait)
    if r.1 < 0 then
      (some 4, run_daemon, config_file_name,
        r.2.emit (Event.daemon_log LOG_ERR (LogMsg.call_failed r.1)))
    else
      (some 0, run_daemon, config_file_name, r.2)
  | Opt.D :: rest, _, config_file_name, w => main_options env rest 1 config_file_name w
  | Opt.t :: rest, _, config_file_name, w => main_options env rest 0 config_file_name w
  | Opt.v :: rest, run_daemon, config_file_name, w =>
    main_options env rest run_daemon config_file_name w
  | Opt.c optarg :: rest, run_daemon, _, w => main_options env rest run_daemon optarg w
  | Opt.unknown optopt :: _, run_daemon, config_file_name, w =>
    (some 1, run_daemon, config_file_name,
      if optopt = 99 ∨ (32 ≤ optopt ∧ optopt < 127) then
        w.emit (Event.daemon_log LOG_ERR LogMsg.bad_option)
      else w)

/-- `main` of iio2udp.c, on the options `getopt` finds in the command line.
The result is the exit status; it is `none` when the daemon is still in its
loop after `fuel` passes. -/
def main (env : Env) (config : daemon_config_t) (opts : List Opt) (fuel : Nat) (w : World) :
    Option (Int × World) :=
  let o := main_options env opts 1 IIO2UDP_DEFAULT_CONFIG_FILENAME w
  match o.1 with
  | some status => some (status, o.2.2.2)
  | none =>
    let run_daemon := o.2.1
    let a := o.2.2.2.call env (Event.daemon_call DaemonCall.reset_sigs)
    if a.1 < 0 then
      some (2, a.2.emit (Event.daemon_log LOG_ERR (LogMsg.call_failed a.1)))
    else
      let b := a.2.call env (Event.daemon_call DaemonCall.unblock_sigs)
      if b.1 < 0 then
        some (3, b.2.emit (Event.daemon_log LOG_ERR (LogMsg.call_failed b.1)))
      else
        let p := b.2.call env (Event.daemon_call DaemonCall.pid_file_is_running)
        if p.1 ≥ 0 then
          some (1, p.2.emit (Event.daemon_log LOG_ERR LogMsg.already_running))
        else
          let i := p.2.call env (Event.daemon_call DaemonCall.retval_init)
          if i.1 < 0 then
            some (1, i.2.emit (Event.daemon_log LOG_ERR (LogMsg.call_failed i.1)))
          else
            let f := if run_daemon ≠ 0 then i.2.call env (Event.daemon_call DaemonCall.fork)
              else (0, i.2)
            if run_daemon ≠ 0 ∧ f.1 < 0 then
              some (1, (f.2.call env (Event.daemon_call DaemonCall.retval_done)).2)
            else if run_daemon ≠ 0 ∧ f.1 ≠ 0 then
              let r := f.2.call env (Event.daemon_call DaemonCall.retval_wait)
              if r.1 < 0 then
                some (6, r.2.emit (Event.daemon_log LOG_ERR LogMsg.retval_wait_failed))
              else if r.1 ≠ 0 then
                some (r.1, r.2.emit (Event.daemon_log LOG_ERR (LogMsg.daemon_failed r.1)))
              else
                some (r.1, r.2)
            else
              main_daemon env config run_daemon o.2.2.1 fuel f.2

/-- What `select` returns to the loop of `main` in world `w`. -/
def select_result (env : Env) (fds : fd_set) (w : World) : Int :=
  env.sys_ret (w.events ++ [Event.select fds])

/-- What `daemon_signal_next` returns when it is called after the `select` made
in world `w`. -/
def signal_read (env : Env) (fds : fd_set) (w : World) : Int :=
  env.sys_ret (w.events ++ [Event.select fds] ++ [Event.daemon_signal_next])

/-- The world in which the loop of `main` calls
`system_check_channels_and_process` after a `select` that left the signal
descriptor ready and a signal that does not end the loop. -/
def world_after_signal (env : Env) (fds : fd_set) (w : World) : World :=
  if signal_read env fds w = SIGHUP then
    (((w.emit (Event.select fds)).emit Event.daemon_signal_next).emit
      (Event.daemon_log LOG_INFO LogMsg.got_hup))
  else
    ((w.emit (Event.select fds)).emit Event.daemon_signal_next)

/-- The timer settings made with `timerfd_settime`, oldest first, with the
descriptor. -/
def timers_set : List Event → List (Int × itimerspec)
  | [] => []
  | Event.timerfd_settime fd interval :: es => (fd, interval) :: timers_set es
  | _ :: es => timers_set es

end Iio2udp

/-! ## Concrete inputs, for evaluating the embedding -/

namespace Can2udp

open X2udp

/-- A little-endian LP64 host on which every read delivers the 16 bytes
`0, 1, ..., 15` of a classic frame, the timestamp is 1 s 2 us and `sendto`
sends everything. -/
def env_le : Env :=
  { host := Endian.little
    ulong_bits := 64
    read_ret := fun _ _ _ => 16
    read_data := fun _ _ _ => List.range 16
    stack := fun _ => List.replicate 72 0xAA
    ioctl_SIOCGSTAMP := fun _ _ => some { tv_sec := 1, tv_usec := 2 }
    sendto_ret := fun _ _ data => data.length
    sys_ret := fun _ => 0
    ifindex := fun _ => 1
    config_read_file := fun _ => none
    malloc_channel := fun _ => true
    malloc_filters := fun _ => true
    daemon_signal_fd := 3
    select_ready := fun _ _ => true }

/-- The channel `vcan0` with interface index 1, opened on descriptor 3. -/
def chc_1 : channel :=
  { interface_name := [118, 99, 97, 110, 48]
    udp_interface_index := 1
    raw_socket := 3
    filters := none
    filters_length := 0
    can_fd_enabled := 1 }

/-- A configuration with the one channel `chc_1` and the sink on descriptor 4. -/
def config_1 : daemon_config_t :=
  { channels := [chc_1]
    port := 4858
    interface := none
    socket_broadcast := 4 }

/-- The world before anything happened. -/
def world_0 : World :=
  { events := []
    pkt_count := 0 }

/-- A configuration file with two interfaces and no setting at all: the
channels are `vcan0` with the interface indices 0 and 1. -/
def cf_two : config_t :=
  { port := none
    interface := none
    can_fd := none
    interfaces := some
      [{ name := none, interface_index := none, filter := none },
       { name := none, interface_index := none, filter := none }] }

/-- A configuration file whose second interface sets `interface_index = 0`,
the index the first interface has by its position. -/
def cf_same_index : config_t :=
  { port := none
    interface := none
    can_fd := none
    interfaces := some
      [{ name := none, interface_index := none, filter := none },
       { name := none, interface_index := some 0, filter := none }] }

/-- The `daemon_config_t` of `main` before `system_init`. -/
def config_0 : daemon_config_t :=
  { channels := []
    port := 0
    interface := none
    socket_broadcast := 0 }

/-- The host `env_le` with the configuration file `cf_two`, on which every
call succeeds and returns 3, but for the creation of the UDP socket, which
fails. -/
def env_udp_fails : Env :=
  { env_le with
    sys_ret := fun es => if es.getLast? = some Event.socket_udp then -1 else 3
    config_read_file := fun _ => some cf_two }

/-- A configuration file with one interface, whose name `vcan0123456789ab`
has 16 characters. -/
def cf_name_16 : config_t :=
  { port := none
    interface := none
    can_fd := none
    interfaces := some
      [{ name := some [118, 99, 97, 110, 48, 49, 50, 51, 52, 53, 54, 55, 56, 57, 97, 98]
         interface_index := none
         filter := none }] }

/-- The host `env_le` with the configuration file `cf_name_16`, on which every
call succeeds and returns 3. -/
def env_name_16 : Env :=
  { env_le with
    sys_ret := fun _ => 3
    config_read_file := fun _ => some cf_name_16 }

/-- A little-endian ILP32 host (`unsigned long` has 32 bits) that is like
`env_le` but for the socket timestamp, which is 5 s 0 us. -/
def env_le32 : Env :=
  { env_le with
    ulong_bits := 32
    ioctl_SIOCGSTAMP := fun _ _ => some { tv_sec := 5, tv_usec := 0 } }

/-- The host `env_le` with the socket timestamp 5 s 0 us. -/
def env_le64 : Env :=
  { env_le with ioctl_SIOCGSTAMP := fun _ _ => some { tv_sec := 5, tv_usec := 0 } }

/-- The host `env_le` on which the socket timestamp cannot be read. -/
def env_no_stamp : Env :=
  { env_le with ioctl_SIOCGSTAMP := fun _ _ => none }

/-- The channel `chc_1` before `channel_init`, with the interface name
`vcan0123456789ab` of 16 characters, one more than fits `ifr_name` with its
NUL. -/
def chc_name_16 : channel :=
  { chc_1 with
    interface_name := [118, 99, 97, 110, 48, 49, 50, 51, 52, 53, 54, 55, 56, 57, 97, 98]
    raw_socket := 0 }

/-- The channel `chc_1` before `channel_init`, with an interface name of 100
characters `a`. -/
def chc_name_100 : channel :=
  { chc_1 with interface_name := List.replicate 100 97, raw_socket := 0 }

/-- The host `env_le` with the configuration file `cf_same_index`. -/
def env_same_index : Env :=
  { env_le with config_read_file := fun _ => some cf_same_index }

/-- The host `env_le` with the configuration file `cf_two`. -/
def env_two : Env :=
  { env_le with config_read_file := fun _ => some cf_two }

/-- The host `env_le` on which no configuration file can be read and no other
instance is running (`daemon_pid_file_is_running` returns -1), every other call
returning 0: also `daemon_fork`, so that `main` runs as the child. -/
def env_no_config : Env :=
  { env_le with
    sys_ret := fun es =>
      if es.getLast? = some (Event.daemon_call DaemonCall.pid_file_is_running) then -1 else 0 }

/-- The host of the parent process of `env_no_config`: `daemon_fork` returns
the pid 5 of the child and `daemon_retval_wait` the value 10 the child sent. -/
def env_parent : Env :=
  { env_le with
    sys_ret := fun es =>
      if es.getLast? = some (Event.daemon_call DaemonCall.pid_file_is_running) then -1
      else if es.getLast? = some (Event.daemon_call DaemonCall.fork) then 5
      else if es.getLast? = some (Event.daemon_call DaemonCall.retval_wait) then 10
      else 0 }

/-- The host `env_le` with other bytes in the uninitialised frame buffer. -/
def env_le_other_stack : Env :=
  { env_le with stack := fun _ => List.replicate 72 0xBB }

/-- The channel `chc_1` with a standard and an extended filter id. -/
def chc_filtered : channel :=
  { chc_1 with filters := some [0x123, 0x12345678], filters_length := 2 }

/-- The host `env_le` with the signal descriptor 6, on which `select` returns 1
with every descriptor ready and the signal read is SIGTERM. -/
def env_sigterm : Env :=
  { env_le with
    daemon_signal_fd := 6
    sys_ret := fun es =>
      if es.getLast? = some Event.daemon_signal_next then SIGTERM
      else if es.getLast? = some (Event.select [6, 3]) then 1
      else 0 }

/-- The host `env_sigterm` with the signal SIGHUP in the place of SIGTERM. -/
def env_sighup : Env :=
  { env_le with
    daemon_signal_fd := 6
    sys_ret := fun es =>
      if es.getLast? = some Event.daemon_signal_next then SIGHUP
      else if es.getLast? = some (Event.select [6, 3]) then 1
      else 0 }

end Can2udp

namespace Iio2udp

open X2udp

/-- A little-endian host whose timer reads succeed, whose value reads succeed
with the raw value 7, whose double operations are stand-ins on the bit
patterns, and whose `sendto` sends everything. -/
def env_le : Env :=
  { host := Endian.little
    fdiv := fun a _ => a
    fmul := fun a _ => a
    fadd := fun a _ => a
    read_ret := fun _ _ _ => 8
    iio_read_raw := fun _ _ => (0, 7)
    sendto_ret := fun _ _ data => data.length
    sys_ret := fun _ => 0
    iio_handle := fun _ => some 0
    iio_read_scale := fun _ _ => (0, double_one)
    config_read_file := fun _ => none
    malloc_channel := fun _ => true
    daemon_signal_fd := 3
    select_ready := fun _ _ => true }

/-- The same host with a value source that fails with `-EIO`. -/
def env_le_bad : Env :=
  { env_le with iio_read_raw := fun _ _ => (-5, 0) }

/-- A long-format channel with device index 1 and channel index 2 whose
device name has 70 characters and whose channel name has 3. -/
def chc_long : channel :=
  { scale := double_one
    iio_scale := double_one
    offset := 0
    sample_time := 100
    device_name := List.replicate 70 100
    channel_name := [118, 48, 49]
    rx := some 0
    ch := some 0
    udp_device_index := 1
    udp_channel_index := 2
    use_long_format := 1
    timerfd := 5 }

/-- The same channel in the short format. -/
def chc_short : channel :=
  { chc_long with use_long_format := 0 }

/-- The channel `chc_long` sampled every 2500 ms. -/
def chc_slow : channel :=
  { chc_long with sample_time := 2500 }

/-- A configuration with the sink on descriptor 4. -/
def config_1 : daemon_config_t :=
  { channels := [chc_long, chc_short]
    context := some 0
    port := 4857
    interface := none
    socket_broadcast := 4 }

/-- The world before anything happened. -/
def world_0 : World :=
  { events := [] }

/-- A configuration file with two channels and no setting at all: the
channels have the device index 0 and the channel indices 0 and 1. -/
def cf_two : config_t :=
  { port := none
    interface := none
    channels := some
      [{ scale := none, offset := none, sample_time := none, device := none, channel := none,
         long_format := none, device_index := none, channel_index := none },
       { scale := none, offset := none, sample_time := none, device := none, channel := none,
         long_format := none, device_index := none, channel_index := none }] }

/-- The `daemon_config_t` of `main` before `system_init`. -/
def config_0 : daemon_config_t :=
  { channels := []
    context := none
    port := 0
    interface := none
    socket_broadcast := 0 }

/-- The host `env_le` with the configuration file `cf_two`. -/
def env_two : Env :=
  { env_le with config_read_file := fun _ => some cf_two }

end Iio2udp

/-! # Theorems -/

set_option maxRecDepth 100000

namespace X2udp

theorem le_bytes_length (n v : Nat) : (le_bytes n v).length = n := by
  induction n generalizing v with
  | zero => rfl
  | succ k ih => simp [le_bytes, ih]

theorem host_bytes_length (e : Endian) (n v : Nat) : (host_bytes e n v).length = n := by
  cases e <;> simp [host_bytes, be_bytes, le_bytes_length]

theorem fixed_length (n : Nat) (l : List Nat) : (fixed n l).length = n := by
  simp [fixed]; omega

theorem fixed_of_length (n : Nat) (l : List Nat) (h : l.length = n) : fixed n l = l := by
  simp [fixed, h, List.take_of_length_le (le_of_eq h)]

theorem FD_ISSET_ne_zero (fd : Int) (fds : fd_set) : FD_ISSET fd fds ≠ 0 ↔ fd ∈ fds := by
  unfold FD_ISSET
  split_ifs with h <;> simp [h]

end X2udp

namespace Can2udp

open X2udp

theorem can_sent_append (a b : List Event) : sent (a ++ b) = sent a ++ sent b := by
  induction a with
  | nil => rfl
  | cons e es ih => cases e <;> simp [sent, ih]

theorem can_reads_append (a b : List Event) : reads (a ++ b) = reads a ++ reads b := by
  induction a with
  | nil => rfl
  | cons e es ih => cases e <;> simp [reads, ih]

/-- The trace `channel_send_frame` leaves: one `sendto` of the packet, and the
warning when the result is not the packet size. -/
theorem channel_send_frame_events (env : Env) (config : daemon_config_t) (chc : channel)
    (frame : Option (List Nat)) (timestamp : Nat) (w : World) :
    (channel_send_frame env config chc frame timestamp w).1 = 0 ∧
    (channel_send_frame env config chc frame timestamp w).2.pkt_count = w.pkt_count ∧
    (channel_send_frame env config chc frame timestamp w).2.events =
      w.events ++
        Event.sendto config.socket_broadcast
          ((channel_send_frame_packet chc frame timestamp).bytes env.host) ::
        (if env.sendto_ret w.events config.socket_broadcast
              ((channel_send_frame_packet chc frame timestamp).bytes env.host)
            ≠ (sizeof_can2udp_packet_t : Int)
          then [Event.daemon_log LOG_WARNING LogMsg.send_error] else []) := by
  unfold channel_send_frame
  simp only [World.emit]
  split_ifs <;> simp_all

end Can2udp

namespace Can2udp
open X2udp

theorem can_channel_process_trace (env : Env) (config : daemon_config_t) (chc : channel) (w : World) :
    ∃ new : List Event,
      (channel_process env config chc w).2.events =
        w.events ++ Event.read chc.raw_socket (read_count chc) :: new ∧
      reads new = [] ∧ (∀ fd, Event.close fd ∉ new) ∧
      sent new =
        (if env.read_ret w.events chc.raw_socket (read_count chc) = (CAN_MTU : Int) ∨
            env.read_ret w.events chc.raw_socket (read_count chc) = (CANFD_MTU : Int)
          then [packet_of env chc w] else []) := by
  unfold channel_process
  by_cases hA : env.read_ret w.events chc.raw_socket (read_count chc) = 0 ∨
      env.read_ret w.events chc.raw_socket (read_count chc) = -EINTR
  · have hn : ¬ (env.read_ret w.events chc.raw_socket (read_count chc) = (CAN_MTU : Int) ∨
        env.read_ret w.events chc.raw_socket (read_count chc) = (CANFD_MTU : Int)) := by
      rcases hA with h | h <;> rw [h] <;> simp [CAN_MTU, CANFD_MTU, EINTR]
    simp only [if_pos hA, if_neg hn]
    simp [World.emit, reads, sent]
  · by_cases hB : env.read_ret w.events chc.raw_socket (read_count chc) ≠ (CAN_MTU : Int) ∧
        env.read_ret w.events chc.raw_socket (read_count chc) ≠ (CANFD_MTU : Int)
    · have hn : ¬ (env.read_ret w.events chc.raw_socket (read_count chc) = (CAN_MTU : Int) ∨
          env.read_ret w.events chc.raw_socket (read_count chc) = (CANFD_MTU : Int)) := by
        rintro (h | h)
        · exact hB.1 h
        · exact hB.2 h
      simp only [if_neg hA, if_pos hB, if_neg hn]
      simp [World.emit, reads, sent]
    · have hy : env.read_ret w.events chc.raw_socket (read_count chc) = (CAN_MTU : Int) ∨
          env.read_ret w.events chc.raw_socket (read_count chc) = (CANFD_MTU : Int) := by
        by_contra hc
        exact hB ⟨fun h => hc (Or.inl h), fun h => hc (Or.inr h)⟩
      simp only [if_neg hA, if_neg hB, if_pos hy]
      simp only [World.emit, (channel_send_frame_events _ _ _ _ _ _).2.2, packet_of, stamp_of]
      split_ifs <;> simp [reads, sent]

theorem can_channel_process_ret (env : Env) (config : daemon_config_t) (chc : channel) (w : World) :
    (channel_process env config chc w).1 =
      (if env.read_ret w.events chc.raw_socket (read_count chc) = 0 ∨
          env.read_ret w.events chc.raw_socket (read_count chc) = -EINTR then -EINTR
        else if env.read_ret w.events chc.raw_socket (read_count chc) ≠ (CAN_MTU : Int) ∧
          env.read_ret w.events chc.raw_socket (read_count chc) ≠ (CANFD_MTU : Int) then -EINVAL
        else 0) := by
  simp only [channel_process]
  split_ifs <;> rfl

end Can2udp

namespace Can2udp
open X2udp

theorem can_reads_after_process (env : Env) (config : daemon_config_t) (chc : channel) (w : World) :
    reads (after_process (channel_process env config chc w)).events =
      reads w.events ++ [chc.raw_socket] := by
  obtain ⟨new, hev, hr, -, -⟩ := can_channel_process_trace env config chc w
  unfold after_process
  split_ifs <;> simp [World.emit, hev, can_reads_append, reads, hr]

theorem can_check_loop_foldl (env : Env) (config : daemon_config_t) (fds : fd_set)
    (l : List channel) (w : World) :
    check_loop env config fds l w =
      (l.filter (fun chc => decide (chc.raw_socket ∈ fds))).foldl
        (fun w chc => after_process (channel_process env config chc w)) w := by
  induction l generalizing w with
  | nil => rfl
  | cons chc next ih =>
    by_cases h : chc.raw_socket ∈ fds
    · have hr : channel_is_ready chc fds ≠ 0 := (FD_ISSET_ne_zero _ _).2 h
      simp [check_loop, hr, h, ih]
    · have hr : ¬ channel_is_ready chc fds ≠ 0 := fun hc => h ((FD_ISSET_ne_zero _ _).1 hc)
      simp only [check_loop, if_neg hr, ih]
      simp [h]

theorem can_reads_foldl (env : Env) (config : daemon_config_t) (l : List channel) (w : World) :
    reads (l.foldl (fun w chc => after_process (channel_process env config chc w)) w).events =
      reads w.events ++ l.map (fun chc => chc.raw_socket) := by
  induction l generalizing w with
  | nil => simp
  | cons chc next ih => simp [ih, can_reads_after_process]

end Can2udp

namespace Iio2udp
open X2udp

theorem iio_sent_append (a b : List Event) : sent (a ++ b) = sent a ++ sent b := by
  induction a with
  | nil => rfl
  | cons e es ih => cases e <;> simp [sent, ih]

theorem iio_reads_append (a b : List Event) : reads (a ++ b) = reads a ++ reads b := by
  induction a with
  | nil => rfl
  | cons e es ih => cases e <;> simp [reads, ih]

theorem iio_channel_process_trace (env : Env) (config : daemon_config_t) (chc : channel) (w : World) :
    ∃ new : List Event,
      (channel_process env config chc w).2.events =
        w.events ++ Event.read chc.timerfd 8 :: new ∧
      reads new = [] ∧ (∀ fd, Event.close fd ∉ new) ∧
      sent new = (if env.read_ret w.events chc.timerfd 8 = 8 then [packet_of env chc w] else []) := by
  unfold channel_process packet_of value_read
  by_cases h : env.read_ret w.events chc.timerfd 8 = 8
  · have hn : ¬ env.read_ret w.events chc.timerfd 8 ≠ 8 := fun hc => hc h
    simp only [if_neg hn, if_pos h, World.emit]
    split_ifs <;> simp [reads, sent]
  · have hn : env.read_ret w.events chc.timerfd 8 ≠ 8 := h
    simp only [if_pos hn, if_neg h, World.emit]
    simp [reads, sent]

theorem iio_channel_process_ret (env : Env) (config : daemon_config_t) (chc : channel) (w : World) :
    (channel_process env config chc w).1 =
      (if env.read_ret w.events chc.timerfd 8 = 8 then 0 else -EINPROGRESS) := by
  simp only [channel_process]
  split_ifs <;> first | rfl | contradiction

theorem iio_reads_after_process (env : Env) (config : daemon_config_t) (chc : channel) (w : World) :
    reads (after_process (channel_process env config chc w)).events =
      reads w.events ++ [chc.timerfd] := by
  obtain ⟨new, hev, hr, -, -⟩ := iio_channel_process_trace env config chc w
  unfold after_process
  split_ifs <;> simp [World.emit, hev, iio_reads_append, reads, hr]

theorem iio_check_loop_foldl (env : Env) (config : daemon_config_t) (fds : fd_set)
    (l : List channel) (w : World) :
    check_loop env config fds l w =
      (l.filter (fun chc => decide (chc.timerfd ∈ fds))).foldl
        (fun w chc => after_process (channel_process env config chc w)) w := by
  induction l generalizing w with
  | nil => rfl
  | cons chc next ih =>
    by_cases h : chc.timerfd ∈ fds
    · have hr : channel_is_ready chc fds ≠ 0 := (FD_ISSET_ne_zero _ _).2 h
      simp [check_loop, hr, h, ih]
    · have hr : ¬ channel_is_ready chc fds ≠ 0 := fun hc => h ((FD_ISSET_ne_zero _ _).1 hc)
      simp only [check_loop, if_neg hr, ih]
      simp [h]

theorem iio_reads_foldl (env : Env) (config : daemon_config_t) (l : List channel) (w : World) :
    reads (l.foldl (fun w chc => after_process (channel_process env config chc w)) w).events =
      reads w.events ++ l.map (fun chc => chc.timerfd) := by
  induction l generalizing w with
  | nil => simp
  | cons chc next ih => simp [ih, iio_reads_after_process]

end Iio2udp

/-- C1. One call of `system_check_channels_and_process`, in can2udp and in
iio2udp alike, returns 0 and leaves the world obtained by running
`channel_process` (followed by the warning for a non-zero result) once on each
channel whose descriptor is in the ready set, in list order, and on no other
channel, whatever the calls return; in the trace this shows as exactly one
`read` per ready channel, on its descriptor, in list order. -/
theorem system_check_channels_and_process_serves_ready :
    (∀ (env : Can2udp.Env) (config : Can2udp.daemon_config_t) (fds : X2udp.fd_set)
        (w : Can2udp.World),
      (Can2udp.system_check_channels_and_process env config fds w).1 = 0 ∧
      (Can2udp.system_check_channels_and_process env config fds w).2 =
        (config.channels.filter (fun chc => decide (chc.raw_socket ∈ fds))).foldl
          (fun w chc => Can2udp.after_process (Can2udp.channel_process env config chc w)) w ∧
      Can2udp.reads (Can2udp.system_check_channels_and_process env config fds w).2.events =
        Can2udp.reads w.events ++
          (config.channels.filter (fun chc => decide (chc.raw_socket ∈ fds))).map
            (fun chc => chc.raw_socket)) ∧
    (∀ (env : Iio2udp.Env) (config : Iio2udp.daemon_config_t) (fds : X2udp.fd_set)
        (w : Iio2udp.World),
      (Iio2udp.system_check_channels_and_process env config fds w).1 = 0 ∧
      (Iio2udp.system_check_channels_and_process env config fds w).2 =
        (config.channels.filter (fun chc => decide (chc.timerfd ∈ fds))).foldl
          (fun w chc => Iio2udp.after_process (Iio2udp.channel_process env config chc w)) w ∧
      Iio2udp.reads (Iio2udp.system_check_channels_and_process env config fds w).2.events =
        Iio2udp.reads w.events ++
          (config.channels.filter (fun chc => decide (chc.timerfd ∈ fds))).map
            (fun chc => chc.timerfd)) := by
  constructor
  · intro env config fds w
    refine ⟨rfl, ?_, ?_⟩
    · exact Can2udp.can_check_loop_foldl env config fds config.channels w
    · show Can2udp.reads (Can2udp.check_loop env config fds config.channels w).events = _
      rw [Can2udp.can_check_loop_foldl, Can2udp.can_reads_foldl]
  · intro env config fds w
    refine ⟨rfl, ?_, ?_⟩
    · exact Iio2udp.iio_check_loop_foldl env config fds config.channels w
    · show Iio2udp.reads (Iio2udp.check_loop env config fds config.channels w).events = _
      rw [Iio2udp.iio_check_loop_foldl, Iio2udp.iio_reads_foldl]

namespace X2udp

/-- The middle part of three concatenated fields. -/
theorem slice_mid (a b c : List Nat) (i n : Nat) (ha : a.length = i) (hb : b.length = n) :
    ((a ++ b ++ c).drop i).take n = b := by
  subst ha hb
  simp [List.append_assoc]

theorem memcpy_whole (dst src : List Nat) (n : Nat) (hd : dst.length = n) (hs : src.length = n) :
    memcpy dst src n = src := by
  unfold memcpy
  rw [fixed_of_length n src hs, List.drop_of_length_le (le_of_eq hd)]
  simp

end X2udp

namespace Can2udp
open X2udp

theorem can_packet_length (host : Endian) (p : can2udp_packet_t) :
    (p.bytes host).length = 84 := by
  simp [can2udp_packet_t.bytes, host_bytes_length, fixed_length]

theorem can_packet_payload (host : Endian) (p : can2udp_packet_t) :
    ((p.bytes host).drop 4).take 72 = fixed 72 p.raw_frame := by
  unfold can2udp_packet_t.bytes
  apply slice_mid
  · simp [host_bytes_length]
  · exact fixed_length _ _

end Can2udp

/-- C2. The datagram `channel_send_frame` hands to `sendto` carries, in its
bytes 4..75, the 72 bytes of the supplied `struct canfd_frame` unchanged, for
every interface index and timestamp; and 72 zero bytes when the frame pointer
is NULL. -/
theorem channel_send_frame_payload (env : Can2udp.Env) (config : Can2udp.daemon_config_t)
    (chc : Can2udp.channel) (timestamp : Nat) (w : Can2udp.World) (frame : List Nat)
    (hframe : frame.length = 72) :
    (∃ data : List Nat,
      Can2udp.sent (Can2udp.channel_send_frame env config chc (some frame) timestamp w).2.events =
        Can2udp.sent w.events ++ [data] ∧
      (data.drop 4).take 72 = frame) ∧
    (∃ data : List Nat,
      Can2udp.sent (Can2udp.channel_send_frame env config chc none timestamp w).2.events =
        Can2udp.sent w.events ++ [data] ∧
      (data.drop 4).take 72 = List.replicate 72 0) := by
  constructor
  · refine ⟨(Can2udp.channel_send_frame_packet chc (some frame) timestamp).bytes env.host, ?_, ?_⟩
    · rw [(Can2udp.channel_send_frame_events _ _ _ _ _ _).2.2, Can2udp.can_sent_append]
      split_ifs <;> simp [Can2udp.sent]
    · rw [Can2udp.can_packet_payload]
      simp only [Can2udp.channel_send_frame_packet]
      rw [X2udp.memcpy_whole _ _ 72 (by simp) hframe, X2udp.fixed_of_length 72 frame hframe]
  · refine ⟨(Can2udp.channel_send_frame_packet chc none timestamp).bytes env.host, ?_, ?_⟩
    · rw [(Can2udp.channel_send_frame_events _ _ _ _ _ _).2.2, Can2udp.can_sent_append]
      split_ifs <;> simp [Can2udp.sent]
    · rw [Can2udp.can_packet_payload]
      simp only [Can2udp.channel_send_frame_packet]
      exact X2udp.fixed_of_length 72 _ (by simp)

/-- Witness of C2: the frame `0, 1, ..., 71` sent on channel `chc_1`. -/
theorem channel_send_frame_payload_witness :
    (List.range 72).length = 72 ∧
    ((∃ data : List Nat,
      Can2udp.sent (Can2udp.channel_send_frame Can2udp.env_le Can2udp.config_1 Can2udp.chc_1
          (some (List.range 72)) 5 Can2udp.world_0).2.events =
        Can2udp.sent Can2udp.world_0.events ++ [data] ∧
      (data.drop 4).take 72 = List.range 72) ∧
    (∃ data : List Nat,
      Can2udp.sent (Can2udp.channel_send_frame Can2udp.env_le Can2udp.config_1 Can2udp.chc_1
          none 5 Can2udp.world_0).2.events =
        Can2udp.sent Can2udp.world_0.events ++ [data] ∧
      (data.drop 4).take 72 = List.replicate 72 0)) :=
  ⟨by decide, channel_send_frame_payload Can2udp.env_le Can2udp.config_1 Can2udp.chc_1 5
    Can2udp.world_0 (List.range 72) (by decide)⟩


namespace X2udp

theorem be_bytes_two (x : Nat) : be_bytes 2 x = [(x / 256) % 256, x % 256] := by
  simp [be_bytes, le_bytes]

/-- A 16-bit value passed through `htons` and stored by the host is in network
order on the wire, on either kind of host. -/
theorem host_bytes_htons (e : Endian) (x : Nat) :
    host_bytes e 2 (htons e x) = be_bytes 2 x := by
  cases e
  · simp only [host_bytes, htons, be_bytes_two]
    simp only [le_bytes]
    have h1 : (x % 256 * 256 + x / 256 % 256) % 256 = x / 256 % 256 := by omega
    have h2 : (x % 256 * 256 + x / 256 % 256) / 256 % 256 = x % 256 := by omega
    rw [h1, h2]
  · simp only [host_bytes, htons, be_bytes_two]
    have h1 : x % 65536 / 256 % 256 = x / 256 % 256 := by omega
    have h2 : x % 65536 % 256 = x % 256 := by omega
    rw [h1, h2]

end X2udp

namespace Iio2udp
open X2udp

theorem iio_short_length (host : Endian) (p : iio2udp_packet_short_t) :
    (p.bytes host).length = 16 := by
  simp [iio2udp_packet_short_t.bytes, host_bytes_length]

theorem iio_long_length (host : Endian) (p : iio2udp_packet_long_t) :
    (p.bytes host).length = 211 := by
  simp [iio2udp_packet_long_t.bytes, iio_short_length, fixed_length]

theorem iio_packet_length (env : Env) (chc : channel) (rc : Int) (value : double) :
    (channel_process_packet env chc rc value).1.length =
      (if chc.use_long_format ≠ 0 then 211 else 16) ∧
    (channel_process_packet env chc rc value).2 =
      (if chc.use_long_format ≠ 0 then 211 else 16) := by
  unfold channel_process_packet
  split_ifs <;> simp [iio_short_length, iio_long_length, sizeof_iio2udp_packet_long_t,
    sizeof_iio2udp_packet_short_t]

end Iio2udp

/-- C3. Every datagram has a fixed length.  A bus packet is 84 = 4 + 72 + 8
bytes whatever the frame, index and timestamp; a short sensor packet is 16
bytes and a long one 211 = 16 + 65 + 65 + 65 bytes whatever the reading and
the names; the sensor `channel_process` sends 211 bytes when
`use_long_format` is not zero and 16 bytes otherwise, and both daemons send
nothing of any other length. -/
theorem datagram_lengths_fixed :
    (∀ (host : X2udp.Endian) (p : Can2udp.can2udp_packet_t),
      (p.bytes host).length = 4 + 72 + 8 ∧ (p.bytes host).length = 84 ∧
      Can2udp.sizeof_can2udp_packet_t = 84) ∧
    (∀ (env : Can2udp.Env) (config : Can2udp.daemon_config_t) (chc : Can2udp.channel)
        (frame : Option (List Nat)) (timestamp : Nat) (w : Can2udp.World),
      ∃ data : List Nat,
        Can2udp.sent (Can2udp.channel_send_frame env config chc frame timestamp w).2.events =
          Can2udp.sent w.events ++ [data] ∧ data.length = 84) ∧
    (∀ (env : Can2udp.Env) (config : Can2udp.daemon_config_t) (chc : Can2udp.channel)
        (w : Can2udp.World),
      ∃ new : List (List Nat),
        Can2udp.sent (Can2udp.channel_process env config chc w).2.events =
          Can2udp.sent w.events ++ new ∧ ∀ data ∈ new, data.length = 84) ∧
    (∀ (host : X2udp.Endian) (p : Iio2udp.iio2udp_packet_short_t),
      (p.bytes host).length = 16 ∧ Iio2udp.sizeof_iio2udp_packet_short_t = 16) ∧
    (∀ (host : X2udp.Endian) (p : Iio2udp.iio2udp_packet_long_t),
      (p.bytes host).length = 16 + 65 + 65 + 65 ∧ (p.bytes host).length = 211 ∧
      Iio2udp.sizeof_iio2udp_packet_long_t = 211) ∧
    (∀ (env : Iio2udp.Env) (config : Iio2udp.daemon_config_t) (chc : Iio2udp.channel)
        (w : Iio2udp.World),
      ∃ new : List (List Nat),
        Iio2udp.sent (Iio2udp.channel_process env config chc w).2.events =
          Iio2udp.sent w.events ++ new ∧
        ∀ data ∈ new, data.length = (if chc.use_long_format ≠ 0 then 211 else 16)) := by
  refine ⟨?_, ?_, ?_, ?_, ?_, ?_⟩
  · intro host p
    exact ⟨Can2udp.can_packet_length host p, Can2udp.can_packet_length host p, rfl⟩
  · intro env config chc frame timestamp w
    refine ⟨(Can2udp.channel_send_frame_packet chc frame timestamp).bytes env.host, ?_,
      Can2udp.can_packet_length _ _⟩
    rw [(Can2udp.channel_send_frame_events _ _ _ _ _ _).2.2, Can2udp.can_sent_append]
    split_ifs <;> simp [Can2udp.sent]
  · intro env config chc w
    obtain ⟨new, hev, -, -, hs⟩ := Can2udp.can_channel_process_trace env config chc w
    refine ⟨Can2udp.sent new, ?_, ?_⟩
    · rw [hev, Can2udp.can_sent_append]
      simp [Can2udp.sent]
    · rw [hs]
      intro data hd
      split_ifs at hd
      · rw [List.mem_singleton] at hd
        rw [hd]
        exact Can2udp.can_packet_length _ _
      · simp at hd
  · intro host p
    exact ⟨Iio2udp.iio_short_length host p, rfl⟩
  · intro host p
    exact ⟨Iio2udp.iio_long_length host p, Iio2udp.iio_long_length host p, rfl⟩
  · intro env config chc w
    obtain ⟨new, hev, -, -, hs⟩ := Iio2udp.iio_channel_process_trace env config chc w
    refine ⟨Iio2udp.sent new, ?_, ?_⟩
    · rw [hev, Iio2udp.iio_sent_append]
      simp [Iio2udp.sent]
    · rw [hs]
      intro data hd
      split_ifs at hd with h1
      · rw [List.mem_singleton] at hd
        rw [hd]
        exact (Iio2udp.iio_packet_length _ _ _ _).1
      · simp at hd

namespace X2udp

theorem field_append_left (off len : Nat) (a b : List Nat) (h : off + len ≤ a.length) :
    field off len (a ++ b) = field off len a := by
  unfold field
  rw [List.drop_append_of_le_length (by omega), List.take_append_of_le_length]
  simp
  omega

theorem field_mid (a b c : List Nat) (i n : Nat) (ha : a.length = i) (hb : b.length = n) :
    field i n (a ++ b ++ c) = b :=
  slice_mid a b c i n ha hb

end X2udp

namespace Iio2udp
open X2udp

theorem iio_short_fields (host : Endian) (p : iio2udp_packet_short_t) :
    field 0 1 (p.bytes host) = host_bytes host 1 p.version ∧
    field 1 1 (p.bytes host) = host_bytes host 1 p.flags ∧
    field 2 2 (p.bytes host) = host_bytes host 2 p.OPCQuality ∧
    field 4 2 (p.bytes host) = host_bytes host 2 p.device_id ∧
    field 6 2 (p.bytes host) = host_bytes host 2 p.channel_id ∧
    field 8 8 (p.bytes host) = host_bytes host 8 p.value := by
  unfold iio2udp_packet_short_t.bytes
  refine ⟨?_, ?_, ?_, ?_, ?_, ?_⟩
  · have := field_mid [] (host_bytes host 1 p.version)
      (host_bytes host 1 p.flags ++ host_bytes host 2 p.OPCQuality
        ++ host_bytes host 2 p.device_id ++ host_bytes host 2 p.channel_id
        ++ host_bytes host 8 p.value) 0 1 rfl (host_bytes_length _ _ _)
    simpa [List.append_assoc] using this
  · have := field_mid (host_bytes host 1 p.version) (host_bytes host 1 p.flags)
      (host_bytes host 2 p.OPCQuality
        ++ host_bytes host 2 p.device_id ++ host_bytes host 2 p.channel_id
        ++ host_bytes host 8 p.value) 1 1 (host_bytes_length _ _ _) (host_bytes_length _ _ _)
    simpa [List.append_assoc] using this
  · have := field_mid (host_bytes host 1 p.version ++ host_bytes host 1 p.flags)
      (host_bytes host 2 p.OPCQuality)
      (host_bytes host 2 p.device_id ++ host_bytes host 2 p.channel_id
        ++ host_bytes host 8 p.value) 2 2 (by simp [host_bytes_length]) (host_bytes_length _ _ _)
    simpa [List.append_assoc] using this
  · have := field_mid (host_bytes host 1 p.version ++ host_bytes host 1 p.flags
        ++ host_bytes host 2 p.OPCQuality)
      (host_bytes host 2 p.device_id)
      (host_bytes host 2 p.channel_id
        ++ host_bytes host 8 p.value) 4 2 (by simp [host_bytes_length]) (host_bytes_length _ _ _)
    simpa [List.append_assoc] using this
  · have := field_mid (host_bytes host 1 p.version ++ host_bytes host 1 p.flags
        ++ host_bytes host 2 p.OPCQuality ++ host_bytes host 2 p.device_id)
      (host_bytes host 2 p.channel_id)
      (host_bytes host 8 p.value) 6 2 (by simp [host_bytes_length]) (host_bytes_length _ _ _)
    simpa [List.append_assoc] using this
  · have := field_mid (host_bytes host 1 p.version ++ host_bytes host 1 p.flags
        ++ host_bytes host 2 p.OPCQuality ++ host_bytes host 2 p.device_id
        ++ host_bytes host 2 p.channel_id)
      (host_bytes host 8 p.value) [] 8 8 (by simp [host_bytes_length]) (host_bytes_length _ _ _)
    simpa [List.append_assoc] using this

/-- The first 16 bytes of the packet sent are the short packet in both formats. -/
theorem iio_packet_head (env : Env) (chc : channel) (rc : Int) (value : double)
    (off len : Nat) (h : off + len ≤ 16) :
    field off len (channel_process_packet env chc rc value).1 =
      field off len ((channel_process_short env chc rc value).bytes env.host) := by
  unfold channel_process_packet
  split_ifs
  · simp only [iio2udp_packet_long_t.bytes, channel_process_long, List.append_assoc]
    exact field_append_left _ _ _ _ (by rw [iio_short_length]; exact h)
  · rfl

end Iio2udp

namespace Can2udp
open X2udp

theorem can_packet_interface_id (host : Endian) (p : can2udp_packet_t) :
    field 2 2 (p.bytes host) = host_bytes host 2 p.interface_id := by
  unfold can2udp_packet_t.bytes
  have := field_mid (host_bytes host 1 p.version ++ host_bytes host 1 p.flags)
    (host_bytes host 2 p.interface_id) (fixed 72 p.raw_frame ++ host_bytes host 8 p.timestamp)
    2 2 (by simp [host_bytes_length]) (host_bytes_length _ _ _)
  simpa [List.append_assoc] using this

theorem channel_send_frame_packet_interface_id (chc : channel) (frame : Option (List Nat))
    (timestamp : Nat) :
    (channel_send_frame_packet chc frame timestamp).interface_id =
      to_unsigned 16 chc.udp_interface_index := by
  unfold channel_send_frame_packet
  cases frame <;> rfl

end Can2udp

/-- C4, as the code has it.  `channel_send_frame` stores the interface index
with a plain cast to `uint16_t`, without `htons`, so bytes 2..3 of the bus
packet are the index in host byte order.  On a little-endian host the channel
with index 1 is sent as `01 00`, where network order is `00 01`. -/
theorem channel_send_frame_interface_id_host_order :
    (∀ (env : Can2udp.Env) (chc : Can2udp.channel) (frame : Option (List Nat))
        (timestamp : Nat),
      X2udp.field 2 2 ((Can2udp.channel_send_frame_packet chc frame timestamp).bytes env.host) =
        X2udp.host_bytes env.host 2 (X2udp.to_unsigned 16 chc.udp_interface_index)) ∧
    (Can2udp.sent (Can2udp.channel_send_frame Can2udp.env_le Can2udp.config_1 Can2udp.chc_1
        none 0 Can2udp.world_0).2.events).map (X2udp.field 2 2) = [[1, 0]] ∧
    X2udp.be_bytes 2 (X2udp.to_unsigned 16 Can2udp.chc_1.udp_interface_index) = [0, 1] := by
  refine ⟨?_, by decide, by decide⟩
  intro env chc frame timestamp
  rw [Can2udp.can_packet_interface_id, Can2udp.channel_send_frame_packet_interface_id]

namespace Iio2udp
open X2udp

theorem channel_process_short_fields (env : Env) (chc : channel) (rc : Int) (value : double) :
    (channel_process_short env chc rc value).version = IIO2UDP_PACKET_VERSION ∧
    (channel_process_short env chc rc value).flags = 0 ∧
    (channel_process_short env chc rc value).OPCQuality =
      htons env.host (if rc = EXIT_SUCCESS then 0xC0 else 0x00) ∧
    (channel_process_short env chc rc value).device_id =
      htons env.host (to_unsigned 16 chc.udp_device_index) ∧
    (channel_process_short env chc rc value).channel_id =
      htons env.host (to_unsigned 16 chc.udp_channel_index) ∧
    (channel_process_short env chc rc value).value =
      (if rc = EXIT_SUCCESS then
        env.fadd (env.fmul (env.fdiv value
          (if double_ne_zero chc.iio_scale then chc.iio_scale else double_one)) chc.scale)
          chc.offset % 2 ^ 64
      else 0) := by
  unfold channel_process_short
  split_ifs <;> simp

end Iio2udp

namespace Iio2udp
open X2udp

/-- Bytes 2..7 of the packet built by `channel_process`: quality, device id
and channel id, each high byte first. -/
theorem iio_packet_id_fields (env : Env) (chc : channel) (rc : Int) (value : double) :
    field 4 2 (channel_process_packet env chc rc value).1 =
      be_bytes 2 (to_unsigned 16 chc.udp_device_index) ∧
    field 6 2 (channel_process_packet env chc rc value).1 =
      be_bytes 2 (to_unsigned 16 chc.udp_channel_index) ∧
    field 2 2 (channel_process_packet env chc rc value).1 =
      be_bytes 2 (if rc = EXIT_SUCCESS then 0xC0 else 0x00) := by
  obtain ⟨-, -, hq, hd, hc, -⟩ := channel_process_short_fields env chc rc value
  obtain ⟨-, -, fq, fd, fc, -⟩ :=
    iio_short_fields env.host (channel_process_short env chc rc value)
  refine ⟨?_, ?_, ?_⟩
  · rw [iio_packet_head env chc rc value 4 2 (by omega), fd, hd, host_bytes_htons]
  · rw [iio_packet_head env chc rc value 6 2 (by omega), fc, hc, host_bytes_htons]
  · rw [iio_packet_head env chc rc value 2 2 (by omega), fq, hq, host_bytes_htons]

end Iio2udp

namespace Iio2udp
open X2udp

/-- The datagram `channel_process` sends when the timer read gives 8 bytes. -/
theorem iio_channel_process_sent (env : Env) (config : daemon_config_t) (chc : channel)
    (w : World) (htimer : env.read_ret w.events chc.timerfd 8 = 8) :
    sent (channel_process env config chc w).2.events =
      sent w.events ++ [packet_of env chc w] := by
  obtain ⟨new, hev, -, -, hs⟩ := iio_channel_process_trace env config chc w
  rw [if_pos htimer] at hs
  rw [hev, iio_sent_append]
  simp [sent, hs]

/-- The datagrams `channel_process` sends, whatever the timer read gives. -/
theorem iio_channel_process_sent_cases (env : Env) (config : daemon_config_t) (chc : channel)
    (w : World) :
    sent (channel_process env config chc w).2.events =
      sent w.events ++
        (if env.read_ret w.events chc.timerfd 8 = 8 then [packet_of env chc w] else []) := by
  obtain ⟨new, hev, -, -, hs⟩ := iio_channel_process_trace env config chc w
  rw [hev, iio_sent_append]
  simp [sent, hs]

end Iio2udp

/-- C5. When the timer read succeeds, the one datagram the sensor
`channel_process` sends (short or long) carries the device id, the channel id
and the quality each in network byte order: bytes 4..5 are the high and the
low byte of `udp_device_index mod 2^16`, bytes 6..7 those of
`udp_channel_index mod 2^16`, and bytes 2..3 those of the quality code (0xC0
when the value read returned `EXIT_SUCCESS`, 0x00 otherwise), on a host of
either byte order. -/
theorem sensor_ids_and_quality_network_order (env : Iio2udp.Env)
    (config : Iio2udp.daemon_config_t) (chc : Iio2udp.channel) (w : Iio2udp.World)
    (htimer : env.read_ret w.events chc.timerfd 8 = 8) :
    ∃ data : List Nat,
      Iio2udp.sent (Iio2udp.channel_process env config chc w).2.events =
        Iio2udp.sent w.events ++ [data] ∧
      X2udp.field 4 2 data = X2udp.be_bytes 2 (X2udp.to_unsigned 16 chc.udp_device_index) ∧
      X2udp.field 6 2 data = X2udp.be_bytes 2 (X2udp.to_unsigned 16 chc.udp_channel_index) ∧
      X2udp.field 2 2 data =
        X2udp.be_bytes 2
          (if (Iio2udp.value_read env chc w).1 = X2udp.EXIT_SUCCESS then 0xC0 else 0x00) ∧
      (∀ x : Nat, X2udp.be_bytes 2 x = [x / 256 % 256, x % 256]) ∧
      (∀ x : Int, X2udp.to_unsigned 16 x = (x % 2 ^ 16).toNat) :=
  ⟨Iio2udp.packet_of env chc w, Iio2udp.iio_channel_process_sent env config chc w htimer,
    (Iio2udp.iio_packet_id_fields env chc _ _).1,
    (Iio2udp.iio_packet_id_fields env chc _ _).2.1,
    (Iio2udp.iio_packet_id_fields env chc _ _).2.2, X2udp.be_bytes_two, fun _ => rfl⟩

/-- Witness of C5: a tick of the short channel `chc_short` (device index 1,
channel index 2, good read) on the little-endian host `env_le`: the datagram
has `00 C0` in bytes 2..3, `00 01` in bytes 4..5 and `00 02` in bytes 6..7. -/
theorem sensor_ids_and_quality_network_order_witness :
    Iio2udp.env_le.read_ret Iio2udp.world_0.events Iio2udp.chc_short.timerfd 8 = 8 ∧
    ∃ data : List Nat,
      Iio2udp.sent (Iio2udp.channel_process Iio2udp.env_le Iio2udp.config_1 Iio2udp.chc_short
        Iio2udp.world_0).2.events = Iio2udp.sent Iio2udp.world_0.events ++ [data] ∧
      X2udp.field 4 2 data = [0, 1] ∧
      X2udp.field 6 2 data = [0, 2] ∧
      X2udp.field 2 2 data = [0, 0xC0] :=
  ⟨rfl, (sensor_ids_and_quality_network_order Iio2udp.env_le Iio2udp.config_1
    Iio2udp.chc_short Iio2udp.world_0 rfl).imp
      (fun _ h => ⟨h.1, h.2.1.trans (by decide), h.2.2.1.trans (by decide),
        h.2.2.2.1.trans (by decide)⟩)⟩

/-- C6. When the 8-byte timer read succeeds, the sensor `channel_process`
returns 0 and sends exactly one packet, whether the value read succeeds or
not; the quality field of that packet is 0xC0 exactly when the value read
returned `EXIT_SUCCESS`, and 0x00 exactly when it did not. -/
theorem sensor_channel_process_sends_each_tick (env : Iio2udp.Env)
    (config : Iio2udp.daemon_config_t) (chc : Iio2udp.channel) (w : Iio2udp.World)
    (htimer : env.read_ret w.events chc.timerfd 8 = 8) :
    (Iio2udp.channel_process env config chc w).1 = 0 ∧
    ∃ data : List Nat,
      Iio2udp.sent (Iio2udp.channel_process env config chc w).2.events =
        Iio2udp.sent w.events ++ [data] ∧
      (X2udp.field 2 2 data = X2udp.be_bytes 2 0xC0 ↔
        (Iio2udp.value_read env chc w).1 = X2udp.EXIT_SUCCESS) ∧
      (X2udp.field 2 2 data = X2udp.be_bytes 2 0x00 ↔
        (Iio2udp.value_read env chc w).1 ≠ X2udp.EXIT_SUCCESS) := by
  refine ⟨?_, Iio2udp.packet_of env chc w, ?_, ?_, ?_⟩
  · rw [Iio2udp.iio_channel_process_ret, if_pos htimer]
  · obtain ⟨new, hev, -, -, hs⟩ := Iio2udp.iio_channel_process_trace env config chc w
    rw [hev, Iio2udp.iio_sent_append, if_pos htimer] at *
    simp [Iio2udp.sent, hs]
  · unfold Iio2udp.packet_of
    rw [(Iio2udp.iio_packet_id_fields env chc _ _).2.2]
    split_ifs with h
    · simp [h]
    · simp only [h, iff_false]
      decide
  · unfold Iio2udp.packet_of
    rw [(Iio2udp.iio_packet_id_fields env chc _ _).2.2]
    split_ifs with h
    · simp only [h, ne_eq, not_true_eq_false, iff_false]
      decide
    · simp [h]

/-- Witness of C6: a tick of channel `chc_long` on a host whose value source
fails. -/
theorem sensor_channel_process_sends_each_tick_witness :
    Iio2udp.env_le_bad.read_ret Iio2udp.world_0.events Iio2udp.chc_long.timerfd 8 = 8 ∧
    (Iio2udp.channel_process Iio2udp.env_le_bad Iio2udp.config_1 Iio2udp.chc_long
      Iio2udp.world_0).1 = 0 ∧
    ∃ data : List Nat,
      Iio2udp.sent (Iio2udp.channel_process Iio2udp.env_le_bad Iio2udp.config_1
        Iio2udp.chc_long Iio2udp.world_0).2.events =
        Iio2udp.sent Iio2udp.world_0.events ++ [data] ∧
      (X2udp.field 2 2 data = X2udp.be_bytes 2 0xC0 ↔
        (Iio2udp.value_read Iio2udp.env_le_bad Iio2udp.chc_long Iio2udp.world_0).1 =
          X2udp.EXIT_SUCCESS) ∧
      (X2udp.field 2 2 data = X2udp.be_bytes 2 0x00 ↔
        (Iio2udp.value_read Iio2udp.env_le_bad Iio2udp.chc_long Iio2udp.world_0).1 ≠
          X2udp.EXIT_SUCCESS) :=
  ⟨rfl, sensor_channel_process_sends_each_tick Iio2udp.env_le_bad Iio2udp.config_1
    Iio2udp.chc_long Iio2udp.world_0 rfl⟩


namespace Iio2udp
open X2udp

theorem host_bytes_one (host : Endian) (x : Nat) : host_bytes host 1 x = [x % 256] := by
  cases host <;> simp [host_bytes, be_bytes, le_bytes]

/-- Bytes 0, 1 and 8..15 of the packet built by `channel_process`. -/
theorem iio_packet_head_fields (env : Env) (chc : channel) (rc : Int) (value : double) :
    field 0 1 (channel_process_packet env chc rc value).1 = [IIO2UDP_PACKET_VERSION] ∧
    field 1 1 (channel_process_packet env chc rc value).1 = [0] ∧
    field 8 8 (channel_process_packet env chc rc value).1 =
      host_bytes env.host 8 (channel_process_short env chc rc value).value := by
  obtain ⟨hv, hf, -, -, -, -⟩ := channel_process_short_fields env chc rc value
  obtain ⟨fv, ff, -, -, -, fval⟩ :=
    iio_short_fields env.host (channel_process_short env chc rc value)
  refine ⟨?_, ?_, ?_⟩
  · rw [iio_packet_head env chc rc value 0 1 (by omega), fv, hv, host_bytes_one]
    rfl
  · rw [iio_packet_head env chc rc value 1 1 (by omega), ff, hf, host_bytes_one]
  · rw [iio_packet_head env chc rc value 8 8 (by omega), fval]

end Iio2udp

/-- Counterexample to C7 as stated.  The short packet of the channel with
device index 1 and channel index 2, after a good read, is
`01 00 00 C0 00 01 00 02 ...`: bytes 2..3 hold the quality 0x00C0 and not the
device id 0x0001, and bytes 4..5 hold the device id and not the quality. -/
theorem short_packet_order_counterexample :
    Iio2udp.chc_short.use_long_format = 0 ∧
    Iio2udp.sent (Iio2udp.channel_process Iio2udp.env_le Iio2udp.config_1 Iio2udp.chc_short
        Iio2udp.world_0).2.events =
      [[1, 0, 0, 0xC0, 0, 1, 0, 2, 7, 0, 0, 0, 0, 0, 0, 0]] ∧
    ¬ (∀ data ∈ Iio2udp.sent (Iio2udp.channel_process Iio2udp.env_le Iio2udp.config_1
          Iio2udp.chc_short Iio2udp.world_0).2.events,
        X2udp.field 2 2 data =
          X2udp.be_bytes 2 (X2udp.to_unsigned 16 Iio2udp.chc_short.udp_device_index) ∧
        X2udp.field 4 2 data = X2udp.be_bytes 2 0xC0 ∧
        X2udp.field 6 2 data =
          X2udp.be_bytes 2 (X2udp.to_unsigned 16 Iio2udp.chc_short.udp_channel_index)) := by
  decide

/-- C7, amended.  When the timer read succeeds, the one datagram the sensor
`channel_process` sends has its fields in the order of the struct
`iio2udp_packet_short_t` (the whole short packet, the first 16 bytes of a long
one): version (byte 0), flags (byte 1), the 2-byte quality (bytes 2..3), the
2-byte device id (bytes 4..5), the 2-byte channel id (bytes 6..7), the 8-byte
numeric value in host layout (bytes 8..15), which is the conditioned reading
after a good read and 0 otherwise; a short packet has nothing after them. -/
theorem short_packet_field_order (env : Iio2udp.Env) (config : Iio2udp.daemon_config_t)
    (chc : Iio2udp.channel) (w : Iio2udp.World)
    (htimer : env.read_ret w.events chc.timerfd 8 = 8) :
    ∃ data : List Nat,
      Iio2udp.sent (Iio2udp.channel_process env config chc w).2.events =
        Iio2udp.sent w.events ++ [data] ∧
      X2udp.field 0 1 data = [Iio2udp.IIO2UDP_PACKET_VERSION] ∧
      X2udp.field 1 1 data = [0] ∧
      X2udp.field 2 2 data =
        X2udp.be_bytes 2
          (if (Iio2udp.value_read env chc w).1 = X2udp.EXIT_SUCCESS then 0xC0 else 0x00) ∧
      X2udp.field 4 2 data = X2udp.be_bytes 2 (X2udp.to_unsigned 16 chc.udp_device_index) ∧
      X2udp.field 6 2 data = X2udp.be_bytes 2 (X2udp.to_unsigned 16 chc.udp_channel_index) ∧
      X2udp.field 8 8 data =
        X2udp.host_bytes env.host 8
          (if (Iio2udp.value_read env chc w).1 = X2udp.EXIT_SUCCESS then
            env.fadd (env.fmul (env.fdiv (Iio2udp.value_read env chc w).2
              (if Iio2udp.double_ne_zero chc.iio_scale then chc.iio_scale
                else Iio2udp.double_one)) chc.scale) chc.offset % 2 ^ 64
          else 0) ∧
      data.length = (if chc.use_long_format ≠ 0 then 211 else 16) := by
  refine ⟨Iio2udp.packet_of env chc w, Iio2udp.iio_channel_process_sent env config chc w htimer,
    (Iio2udp.iio_packet_head_fields env chc _ _).1,
    (Iio2udp.iio_packet_head_fields env chc _ _).2.1,
    (Iio2udp.iio_packet_id_fields env chc _ _).2.2,
    (Iio2udp.iio_packet_id_fields env chc _ _).1,
    (Iio2udp.iio_packet_id_fields env chc _ _).2.1, ?_,
    (Iio2udp.iio_packet_length env chc _ _).1⟩
  unfold Iio2udp.packet_of
  rw [(Iio2udp.iio_packet_head_fields env chc _ _).2.2,
    (Iio2udp.channel_process_short_fields env chc _ _).2.2.2.2.2]

/-- Witness of C7, amended: a tick of the short channel `chc_short` (device
index 1, channel index 2, good read of the value 7) on the host `env_le` sends
`01 00 | 00 C0 | 00 01 | 00 02 | 07 00 00 00 00 00 00 00`. -/
theorem short_packet_field_order_witness :
    Iio2udp.env_le.read_ret Iio2udp.world_0.events Iio2udp.chc_short.timerfd 8 = 8 ∧
    ∃ data : List Nat,
      Iio2udp.sent (Iio2udp.channel_process Iio2udp.env_le Iio2udp.config_1 Iio2udp.chc_short
        Iio2udp.world_0).2.events = Iio2udp.sent Iio2udp.world_0.events ++ [data] ∧
      X2udp.field 0 1 data = [1] ∧
      X2udp.field 1 1 data = [0] ∧
      X2udp.field 2 2 data = [0, 0xC0] ∧
      X2udp.field 4 2 data = [0, 1] ∧
      X2udp.field 6 2 data = [0, 2] ∧
      X2udp.field 8 8 data = [7, 0, 0, 0, 0, 0, 0, 0] ∧
      data.length = 16 :=
  ⟨rfl, (short_packet_field_order Iio2udp.env_le Iio2udp.config_1
    Iio2udp.chc_short Iio2udp.world_0 rfl).imp
      (fun _ h => ⟨h.1, h.2.1, h.2.2.1, h.2.2.2.1.trans (by decide),
        h.2.2.2.2.1.trans (by decide), h.2.2.2.2.2.1.trans (by decide),
        h.2.2.2.2.2.2.1.trans (by decide), h.2.2.2.2.2.2.2.trans (by decide)⟩)⟩

namespace X2udp

theorem c_string_of_nul_free (s : List Nat) (h : ∀ b ∈ s, b ≠ 0) : c_string s = s := by
  unfold c_string
  rw [List.takeWhile_eq_self_iff]
  intro b hb
  simpa using h b hb

theorem fixed_fixed (n : Nat) (l : List Nat) : fixed n (fixed n l) = fixed n l :=
  fixed_of_length n _ (fixed_length n l)

theorem fixed_eq_min (n : Nat) (l : List Nat) :
    fixed n l = l.take (min l.length n) ++ List.replicate (n - min l.length n) 0 := by
  unfold fixed
  rcases Nat.le_total l.length n with h | h
  · rw [Nat.min_eq_left h, List.take_of_length_le h, List.take_of_length_le (le_refl _)]
  · rw [Nat.min_eq_right h]
    simp [Nat.sub_eq_zero_of_le h]

theorem strncpy_zeroed (n : Nat) (src : List Nat) :
    strncpy (List.replicate n 0) src n = fixed n (c_string src) := by
  simp [strncpy]

end X2udp

namespace Iio2udp
open X2udp

theorem iio_long_fields (host : Endian) (p : iio2udp_packet_long_t) :
    field 16 65 (p.bytes host) = fixed 65 p.device_name ∧
    field 81 65 (p.bytes host) = fixed 65 p.channel_name ∧
    field 146 65 (p.bytes host) = fixed 65 p.value_string := by
  unfold iio2udp_packet_long_t.bytes
  refine ⟨?_, ?_, ?_⟩
  · have := field_mid (p.data.bytes host) (fixed 65 p.device_name)
      (fixed 65 p.channel_name ++ fixed 65 p.value_string) 16 65
      (iio_short_length _ _) (fixed_length _ _)
    simpa [List.append_assoc] using this
  · have := field_mid (p.data.bytes host ++ fixed 65 p.device_name) (fixed 65 p.channel_name)
      (fixed 65 p.value_string) 81 65
      (by simp [iio_short_length, fixed_length]) (fixed_length _ _)
    simpa [List.append_assoc] using this
  · have := field_mid (p.data.bytes host ++ fixed 65 p.device_name ++ fixed 65 p.channel_name)
      (fixed 65 p.value_string) [] 146 65
      (by simp [iio_short_length, fixed_length]) (fixed_length _ _)
    simpa [List.append_assoc] using this

end Iio2udp

namespace Iio2udp
open X2udp

/-- The two name fields of the long packet built by `channel_process`. -/
theorem iio_long_packet_names (env : Env) (chc : channel) (rc : Int) (value : double)
    (hlong : chc.use_long_format ≠ 0) :
    field 16 65 (channel_process_packet env chc rc value).1 =
      fixed 65 (c_string chc.device_name) ∧
    field 81 65 (channel_process_packet env chc rc value).1 =
      fixed 65 (c_string chc.channel_name) := by
  constructor
  · simp only [channel_process_packet, if_pos hlong]
    rw [(iio_long_fields _ _).1]
    simp only [channel_process_long]
    rw [strncpy_zeroed, fixed_fixed]
  · simp only [channel_process_packet, if_pos hlong]
    rw [(iio_long_fields _ _).2.1]
    simp only [channel_process_long]
    rw [strncpy_zeroed, fixed_fixed]

end Iio2udp

/-- C8. When the timer read succeeds on a channel in the long format, the one
datagram the sensor `channel_process` sends has 211 bytes, and its 65-byte
device name field (bytes 16..80) and channel name field (bytes 81..145) hold
the first `min (|s|, 65)` bytes of the NUL-free name `s` followed by
`65 - min (|s|, 65)` zero bytes, for names of any length, also longer than
65. -/
theorem long_packet_names_truncated_and_padded (env : Iio2udp.Env)
    (config : Iio2udp.daemon_config_t) (chc : Iio2udp.channel) (w : Iio2udp.World)
    (htimer : env.read_ret w.events chc.timerfd 8 = 8)
    (hlong : chc.use_long_format ≠ 0)
    (hdev : ∀ b ∈ chc.device_name, b ≠ 0)
    (hchn : ∀ b ∈ chc.channel_name, b ≠ 0) :
    ∃ data : List Nat,
      Iio2udp.sent (Iio2udp.channel_process env config chc w).2.events =
        Iio2udp.sent w.events ++ [data] ∧
      X2udp.field 16 65 data =
        chc.device_name.take (min chc.device_name.length 65)
          ++ List.replicate (65 - min chc.device_name.length 65) 0 ∧
      X2udp.field 81 65 data =
        chc.channel_name.take (min chc.channel_name.length 65)
          ++ List.replicate (65 - min chc.channel_name.length 65) 0 ∧
      data.length = 211 := by
  have hlen := (Iio2udp.iio_packet_length env chc (Iio2udp.value_read env chc w).1
    (Iio2udp.value_read env chc w).2).1
  rw [if_pos hlong] at hlen
  obtain ⟨h1, h2⟩ := Iio2udp.iio_long_packet_names env chc (Iio2udp.value_read env chc w).1
    (Iio2udp.value_read env chc w).2 hlong
  rw [X2udp.c_string_of_nul_free _ hdev, X2udp.fixed_eq_min] at h1
  rw [X2udp.c_string_of_nul_free _ hchn, X2udp.fixed_eq_min] at h2
  exact ⟨Iio2udp.packet_of env chc w,
    Iio2udp.iio_channel_process_sent env config chc w htimer, h1, h2, hlen⟩

/-- Witness of C8: a tick of the channel `chc_long`, whose device name has 70
characters `d` and whose channel name is `v01`: the datagram has 65 times `d`
in bytes 16..80 and `v01` with 62 zero bytes in bytes 81..145. -/
theorem long_packet_names_truncated_and_padded_witness :
    Iio2udp.env_le.read_ret Iio2udp.world_0.events Iio2udp.chc_long.timerfd 8 = 8 ∧
    Iio2udp.chc_long.use_long_format ≠ 0 ∧
    (∀ b ∈ Iio2udp.chc_long.device_name, b ≠ 0) ∧
    (∀ b ∈ Iio2udp.chc_long.channel_name, b ≠ 0) ∧
    Iio2udp.chc_long.device_name.length = 70 ∧
    ∃ data : List Nat,
      Iio2udp.sent (Iio2udp.channel_process Iio2udp.env_le Iio2udp.config_1 Iio2udp.chc_long
        Iio2udp.world_0).2.events = Iio2udp.sent Iio2udp.world_0.events ++ [data] ∧
      X2udp.field 16 65 data = List.replicate 65 100 ∧
      X2udp.field 81 65 data = [118, 48, 49] ++ List.replicate 62 0 ∧
      data.length = 211 :=
  ⟨rfl, by decide, by decide, by decide, by decide,
    (long_packet_names_truncated_and_padded Iio2udp.env_le Iio2udp.config_1 Iio2udp.chc_long
      Iio2udp.world_0 rfl (by decide) (by decide) (by decide)).imp
        (fun _ h => ⟨h.1, h.2.1.trans (by decide), h.2.2.1.trans (by decide), h.2.2.2⟩)⟩

/-- C9, as the code has it.  `channel_process` never writes `value_string`:
the field keeps the zeros of the initialiser of `p_long`, so bytes 146..210 of
every long packet are 65 zero bytes, also after a successful read of a
non-zero value (the header documents the field as the value of the channel in
characters). -/
theorem long_packet_value_string_all_zero :
    (∀ (host : X2udp.Endian) (chc : Iio2udp.channel) (p_short : Iio2udp.iio2udp_packet_short_t),
      (Iio2udp.channel_process_long chc p_short).value_string = List.replicate 65 0 ∧
      X2udp.field 146 65 ((Iio2udp.channel_process_long chc p_short).bytes host) =
        List.replicate 65 0) ∧
    Iio2udp.value_read Iio2udp.env_le Iio2udp.chc_long Iio2udp.world_0 = (0, 7) ∧
    (Iio2udp.sent (Iio2udp.channel_process Iio2udp.env_le Iio2udp.config_1 Iio2udp.chc_long
        Iio2udp.world_0).2.events).map (X2udp.field 146 65) = [List.replicate 65 0] := by
  refine ⟨?_, by decide, by decide⟩
  intro host chc p_short
  refine ⟨rfl, ?_⟩
  rw [(Iio2udp.iio_long_fields _ _).2.2]
  exact X2udp.fixed_of_length 65 _ (by simp [Iio2udp.channel_process_long])

/-- C10. Let `n` be what `read` returns in the bus `channel_process`.  A packet
is sent and 0 is returned if and only if `n` is 16 (`CAN_MTU`) or 72
(`CANFD_MTU`); for every other `n` nothing is sent and the result is not
zero: `-EINTR` when `n` is 0 or `-EINTR`, `-EINVAL` otherwise.  In every case
the calls made are appended to the trace and no `close` is among them: the
socket of the channel stays open (the function is given neither the
descriptor set nor a channel it could change). -/
theorem bus_channel_process_by_read_size (env : Can2udp.Env)
    (config : Can2udp.daemon_config_t) (chc : Can2udp.channel) (w : Can2udp.World) :
    (((Can2udp.channel_process env config chc w).1 = 0 ∧
        ∃ data : List Nat,
          Can2udp.sent (Can2udp.channel_process env config chc w).2.events =
            Can2udp.sent w.events ++ [data]) ↔
      (Can2udp.read_result env chc w = 16 ∨ Can2udp.read_result env chc w = 72)) ∧
    (Can2udp.channel_process env config chc w).1 =
      (if Can2udp.read_result env chc w = 16 ∨ Can2udp.read_result env chc w = 72 then 0
        else if Can2udp.read_result env chc w = 0 ∨ Can2udp.read_result env chc w = -4 then -4
        else -22) ∧
    Can2udp.sent (Can2udp.channel_process env config chc w).2.events =
      Can2udp.sent w.events ++
        (if Can2udp.read_result env chc w = 16 ∨ Can2udp.read_result env chc w = 72
          then [Can2udp.packet_of env chc w] else []) ∧
    (∃ new : List Can2udp.Event,
      (Can2udp.channel_process env config chc w).2.events = w.events ++ new ∧
      ∀ fd : Int, Can2udp.Event.close fd ∉ new) ∧
    X2udp.EINTR = 4 ∧ X2udp.EINVAL = 22 ∧ Can2udp.CAN_MTU = 16 ∧ Can2udp.CANFD_MTU = 72 := by
  obtain ⟨new, hev, -, hclose, hs⟩ := Can2udp.can_channel_process_trace env config chc w
  have hret := Can2udp.can_channel_process_ret env config chc w
  have hsent : Can2udp.sent (Can2udp.channel_process env config chc w).2.events =
      Can2udp.sent w.events ++
        (if Can2udp.read_result env chc w = 16 ∨ Can2udp.read_result env chc w = 72
          then [Can2udp.packet_of env chc w] else []) := by
    rw [hev, Can2udp.can_sent_append]
    simp only [Can2udp.sent, hs]
    rfl
  have hval : (Can2udp.channel_process env config chc w).1 =
      (if Can2udp.read_result env chc w = 16 ∨ Can2udp.read_result env chc w = 72 then 0
        else if Can2udp.read_result env chc w = 0 ∨ Can2udp.read_result env chc w = -4 then -4
        else -22) := by
    rw [hret]
    unfold Can2udp.read_result
    simp only [X2udp.EINTR, X2udp.EINVAL, Can2udp.CAN_MTU, Can2udp.CANFD_MTU, Nat.cast_ofNat]
    split_ifs <;> first | rfl | omega
  refine ⟨?_, hval, hsent, ⟨_ :: new, hev, ?_⟩, rfl, rfl, rfl, rfl⟩
  · constructor
    · rintro ⟨h0, -⟩
      by_contra hn
      rw [hval, if_neg hn] at h0
      split_ifs at h0
    · intro h
      rw [hval, hsent, if_pos h, if_pos h]
      exact ⟨rfl, _, rfl⟩
  · intro fd hmem
    rcases List.mem_cons.1 hmem with h | h
    · cases h
    · exact hclose fd h

namespace Iio2udp
open X2udp

/-- The whole trace of one `channel_process`: the timer read and, when it
gives 8 bytes, the value read, one `sendto`, and the warning when `sendto`
did not return the packet length. -/
theorem iio_channel_process_events (env : Env) (config : daemon_config_t) (chc : channel)
    (w : World) :
    (channel_process env config chc w).2.events =
      w.events ++ Event.read chc.timerfd 8 ::
        (if env.read_ret w.events chc.timerfd 8 = 8 then
          Event.iio_channel_attr_read_double chc.ch ::
          Event.sendto config.socket_broadcast (packet_of env chc w) ::
          (if env.sendto_ret
                (w.events ++ [Event.read chc.timerfd 8, Event.iio_channel_attr_read_double chc.ch])
                config.socket_broadcast (packet_of env chc w)
              ≠ ((packet_of env chc w).length : Int)
            then [Event.daemon_log LOG_WARNING LogMsg.send_error] else [])
        else []) := by
  have hlen : ((channel_process_packet env chc (value_read env chc w).1
      (value_read env chc w).2).2 : Int) = ((packet_of env chc w).length : Int) := by
    unfold packet_of
    rw [(iio_packet_length _ _ _ _).1, (iio_packet_length _ _ _ _).2]
  unfold channel_process
  by_cases h : env.read_ret w.events chc.timerfd 8 = 8
  · have hn : ¬ env.read_ret w.events chc.timerfd 8 ≠ 8 := fun hc => hc h
    simp only [if_neg hn, if_pos h, World.emit, List.append_assoc, List.singleton_append,
      List.cons_append, List.nil_append]
    rw [← hlen]
    unfold packet_of value_read
    split_ifs <;> simp_all
  · have hn : env.read_ret w.events chc.timerfd 8 ≠ 8 := h
    simp only [if_pos hn, if_neg h, World.emit]

end Iio2udp

/-- C11. Sending a packet is one `sendto` and nothing more, whatever `sendto`
returns (the full length, a short count or -1): the trace gains exactly one
`sendto` of the packet, followed only by the warning, which is logged exactly
when the result differs from the packet length; the bus `channel_send_frame`
returns 0 and so does the sensor `channel_process` whose timer read
succeeded. -/
theorem send_is_one_sendto_without_retry :
    (∀ (env : Can2udp.Env) (config : Can2udp.daemon_config_t) (chc : Can2udp.channel)
        (frame : Option (List Nat)) (timestamp : Nat) (w : Can2udp.World),
      (Can2udp.channel_send_frame env config chc frame timestamp w).1 = 0 ∧
      ∃ data : List Nat, data.length = 84 ∧
        (Can2udp.channel_send_frame env config chc frame timestamp w).2.events =
          w.events ++ Can2udp.Event.sendto config.socket_broadcast data ::
            (if env.sendto_ret w.events config.socket_broadcast data ≠ (data.length : Int)
              then [Can2udp.Event.daemon_log X2udp.LOG_WARNING Can2udp.LogMsg.send_error]
              else [])) ∧
    (∀ (env : Iio2udp.Env) (config : Iio2udp.daemon_config_t) (chc : Iio2udp.channel)
        (w : Iio2udp.World),
      (Iio2udp.channel_process env config chc w).1 =
        (if env.read_ret w.events chc.timerfd 8 = 8 then 0 else -X2udp.EINPROGRESS) ∧
      ∃ data : List Nat, data.length = (if chc.use_long_format ≠ 0 then 211 else 16) ∧
        (Iio2udp.channel_process env config chc w).2.events =
          w.events ++ Iio2udp.Event.read chc.timerfd 8 ::
            (if env.read_ret w.events chc.timerfd 8 = 8 then
              Iio2udp.Event.iio_channel_attr_read_double chc.ch ::
              Iio2udp.Event.sendto config.socket_broadcast data ::
              (if env.sendto_ret
                    (w.events ++ [Iio2udp.Event.read chc.timerfd 8,
                      Iio2udp.Event.iio_channel_attr_read_double chc.ch])
                    config.socket_broadcast data ≠ (data.length : Int)
                then [Iio2udp.Event.daemon_log X2udp.LOG_WARNING Iio2udp.LogMsg.send_error]
                else [])
            else [])) := by
  constructor
  · intro env config chc frame timestamp w
    obtain ⟨h1, -, h3⟩ := Can2udp.channel_send_frame_events env config chc frame timestamp w
    refine ⟨h1, (Can2udp.channel_send_frame_packet chc frame timestamp).bytes env.host,
      Can2udp.can_packet_length env.host _, ?_⟩
    rw [h3, Can2udp.can_packet_length]
    rfl
  · intro env config chc w
    refine ⟨Iio2udp.iio_channel_process_ret env config chc w, Iio2udp.packet_of env chc w,
      (Iio2udp.iio_packet_length _ _ _ _).1, Iio2udp.iio_channel_process_events env config chc w⟩

namespace Can2udp
open X2udp

theorem can_packet_fields (host : Endian) (p : can2udp_packet_t) :
    field 0 1 (p.bytes host) = [p.version % 256] ∧
    field 1 1 (p.bytes host) = [p.flags % 256] ∧
    field 76 8 (p.bytes host) = host_bytes host 8 p.timestamp := by
  unfold can2udp_packet_t.bytes
  refine ⟨?_, ?_, ?_⟩
  · have := field_mid [] (host_bytes host 1 p.version)
      (host_bytes host 1 p.flags ++ host_bytes host 2 p.interface_id
        ++ fixed 72 p.raw_frame ++ host_bytes host 8 p.timestamp) 0 1 rfl
      (host_bytes_length _ _ _)
    rw [← Iio2udp.host_bytes_one host]
    simpa [List.append_assoc] using this
  · have := field_mid (host_bytes host 1 p.version) (host_bytes host 1 p.flags)
      (host_bytes host 2 p.interface_id
        ++ fixed 72 p.raw_frame ++ host_bytes host 8 p.timestamp) 1 1
      (host_bytes_length _ _ _) (host_bytes_length _ _ _)
    rw [← Iio2udp.host_bytes_one host]
    simpa [List.append_assoc] using this
  · have := field_mid (host_bytes host 1 p.version ++ host_bytes host 1 p.flags
        ++ host_bytes host 2 p.interface_id ++ fixed 72 p.raw_frame)
      (host_bytes host 8 p.timestamp) [] 76 8
      (by simp [host_bytes_length, fixed_length]) (host_bytes_length _ _ _)
    simpa [List.append_assoc] using this

theorem channel_send_frame_packet_head (chc : channel) (frame : Option (List Nat))
    (timestamp : Nat) :
    (channel_send_frame_packet chc frame timestamp).version = CAN2UDP_PACKET_VERSION ∧
    (channel_send_frame_packet chc frame timestamp).flags = 0 ∧
    (channel_send_frame_packet chc frame timestamp).timestamp = timestamp % 2 ^ 64 := by
  unfold channel_send_frame_packet
  cases frame <;> exact ⟨rfl, rfl, rfl⟩

theorem tiemval_to_ns_nat (bits s u : Nat) :
    tiemval_to_ns bits { tv_sec := (s : Int), tv_usec := (u : Int) } =
      ((s * 1000000 + u) * 1000) % 2 ^ bits := by
  have hcast : ∀ n : Nat, to_unsigned bits (n : Int) = n % 2 ^ bits := by
    intro n
    unfold to_unsigned
    have : ((n : Int) % (2 ^ bits : Int)) = ((n % 2 ^ bits : Nat) : Int) := by
      push_cast
      rfl
    rw [this, Int.toNat_ofNat]
  simp only [tiemval_to_ns, hcast]
  simp [Nat.add_mod, Nat.mul_mod]

end Can2udp

namespace Can2udp
open X2udp

/-- The timestamp field of the packet `channel_process` sends. -/
theorem packet_of_timestamp (env : Env) (chc : channel) (w : World) :
    field 76 8 (packet_of env chc w) =
      host_bytes env.host 8 (tiemval_to_ns env.ulong_bits (stamp_of env chc w) % 2 ^ 64) := by
  unfold packet_of
  rw [(can_packet_fields _ _).2.2, (channel_send_frame_packet_head _ _ _).2.2]

end Can2udp

namespace Can2udp
open X2udp

/-- The datagrams the bus `channel_process` sends, by what `read` returns. -/
theorem can_channel_process_sent_cases (env : Env) (config : daemon_config_t) (chc : channel)
    (w : World) :
    sent (channel_process env config chc w).2.events =
      sent w.events ++
        (if env.read_ret w.events chc.raw_socket (read_count chc) = (CAN_MTU : Int) ∨
            env.read_ret w.events chc.raw_socket (read_count chc) = (CANFD_MTU : Int)
          then [packet_of env chc w] else []) := by
  obtain ⟨new, hev, -, -, hs⟩ := can_channel_process_trace env config chc w
  rw [hev, can_sent_append]
  simp [sent, hs]

/-- The one datagram `channel_send_frame` sends. -/
theorem can_channel_send_frame_sent (env : Env) (config : daemon_config_t) (chc : channel)
    (frame : Option (List Nat)) (timestamp : Nat) (w : World) :
    sent (channel_send_frame env config chc frame timestamp w).2.events =
      sent w.events ++ [(channel_send_frame_packet chc frame timestamp).bytes env.host] := by
  rw [(channel_send_frame_events _ _ _ _ _ _).2.2, can_sent_append]
  split_ifs <;> simp [sent]

/-- Bytes 0 and 1 of the packet `channel_send_frame` builds. -/
theorem can_packet_head_bytes (host : Endian) (chc : channel) (frame : Option (List Nat))
    (timestamp : Nat) :
    field 0 1 ((channel_send_frame_packet chc frame timestamp).bytes host) = [2] ∧
    field 1 1 ((channel_send_frame_packet chc frame timestamp).bytes host) = [0] := by
  obtain ⟨hv, hf, -⟩ := channel_send_frame_packet_head chc frame timestamp
  obtain ⟨fv, ff, -⟩ := can_packet_fields host (channel_send_frame_packet chc frame timestamp)
  rw [fv, ff, hv, hf]
  exact ⟨rfl, rfl⟩

/-- Every datagram one call of `system_check_channels_and_process` sends starts
with `02 00`. -/
theorem can_check_sent_heads (env : Env) (config : daemon_config_t) (fds : fd_set)
    (w : World) :
    ∃ new : List (List Nat),
      sent (system_check_channels_and_process env config fds w).2.events =
        sent w.events ++ new ∧
      ∀ data ∈ new, field 0 1 data = [2] ∧ field 1 1 data = [0] := by
  have key : ∀ (l : List channel) (w : World), ∃ new : List (List Nat),
      sent (l.foldl (fun w chc => after_process (channel_process env config chc w)) w).events =
        sent w.events ++ new ∧
      ∀ data ∈ new, field 0 1 data = [2] ∧ field 1 1 data = [0] := by
    intro l
    induction l with
    | nil => exact fun w => ⟨[], by simp, by simp⟩
    | cons chc next ih =>
      intro w
      obtain ⟨new, h1, h2⟩ := ih (after_process (channel_process env config chc w))
      have h3 : sent (after_process (channel_process env config chc w)).events =
          sent (channel_process env config chc w).2.events := by
        unfold after_process
        split_ifs <;> simp [World.emit, can_sent_append, sent]
      rw [h3, can_channel_process_sent_cases] at h1
      refine ⟨(if env.read_ret w.events chc.raw_socket (read_count chc) = (CAN_MTU : Int) ∨
          env.read_ret w.events chc.raw_socket (read_count chc) = (CANFD_MTU : Int)
        then [packet_of env chc w] else []) ++ new,
        by rw [List.foldl_cons, h1, List.append_assoc], ?_⟩
      intro data hd
      rcases List.mem_append.1 hd with hd | hd
      · split_ifs at hd
        · rw [List.mem_singleton] at hd
          rw [hd]
          exact can_packet_head_bytes env.host chc _ _
        · cases hd
      · exact h2 data hd
  simp only [system_check_channels_and_process, can_check_loop_foldl]
  exact key _ w

end Can2udp

namespace Iio2udp
open X2udp

/-- Every datagram one call of `system_check_channels_and_process` sends starts
with `01 00`. -/
theorem iio_check_sent_heads (env : Env) (config : daemon_config_t) (fds : fd_set)
    (w : World) :
    ∃ new : List (List Nat),
      sent (system_check_channels_and_process env config fds w).2.events =
        sent w.events ++ new ∧
      ∀ data ∈ new, field 0 1 data = [1] ∧ field 1 1 data = [0] := by
  have key : ∀ (l : List channel) (w : World), ∃ new : List (List Nat),
      sent (l.foldl (fun w chc => after_process (channel_process env config chc w)) w).events =
        sent w.events ++ new ∧
      ∀ data ∈ new, field 0 1 data = [1] ∧ field 1 1 data = [0] := by
    intro l
    induction l with
    | nil => exact fun w => ⟨[], by simp, by simp⟩
    | cons chc next ih =>
      intro w
      obtain ⟨new, h1, h2⟩ := ih (after_process (channel_process env config chc w))
      have h3 : sent (after_process (channel_process env config chc w)).events =
          sent (channel_process env config chc w).2.events := by
        unfold after_process
        split_ifs <;> simp [World.emit, iio_sent_append, sent]
      rw [h3, iio_channel_process_sent_cases] at h1
      refine ⟨(if env.read_ret w.events chc.timerfd 8 = 8 then [packet_of env chc w] else [])
        ++ new, by rw [List.foldl_cons, h1, List.append_assoc], ?_⟩
      intro data hd
      rcases List.mem_append.1 hd with hd | hd
      · split_ifs at hd
        · rw [List.mem_singleton] at hd
          rw [hd]
          exact ⟨(iio_packet_head_fields env chc _ _).1, (iio_packet_head_fields env chc _ _).2.1⟩
        · cases hd
      · exact h2 data hd
  simp only [system_check_channels_and_process, iio_check_loop_foldl]
  exact key _ w

end Iio2udp

namespace Can2udp
open X2udp

/-- The timestamp field of the one datagram `channel_process` sends after a
read of an accepted size. -/
theorem can_channel_process_timestamp (env : Env) (config : daemon_config_t) (chc : channel)
    (w : World)
    (hread : env.read_ret w.events chc.raw_socket (read_count chc) = (CAN_MTU : Int) ∨
      env.read_ret w.events chc.raw_socket (read_count chc) = (CANFD_MTU : Int)) :
    ∃ data : List Nat,
      sent (channel_process env config chc w).2.events = sent w.events ++ [data] ∧
      field 76 8 data =
        host_bytes env.host 8 (tiemval_to_ns env.ulong_bits (stamp_of env chc w) % 2 ^ 64) := by
  refine ⟨packet_of env chc w, ?_, packet_of_timestamp env chc w⟩
  rw [can_channel_process_sent_cases, if_pos hread]

end Can2udp

/-- C18, as the code has it.  `tiemval_to_ns` works in `unsigned long`: for a
receive time of `s` seconds and `u` microseconds the 8-byte timestamp field
(bytes 76..83) of the datagram `channel_process` sends holds
`((s * 10^6 + u) * 1000) mod 2^b`, where `b` is the width of `unsigned long`,
and 0 when the socket timestamp cannot be read.  With `b = 64` this is the
time in nanoseconds `(s * 10^9 + u * 10^3) mod 2^64`.  With `b = 32` it is
not: on the host `env_le32` the receive time 5 s is sent as 705032704 and not
as 5000000000, the value the 64-bit host `env_le64` sends. -/
theorem bus_packet_timestamp_wraps_with_32_bit_long :
    (∀ (env : Can2udp.Env) (config : Can2udp.daemon_config_t) (chc : Can2udp.channel)
        (w : Can2udp.World) (s u : Nat),
      (env.read_ret w.events chc.raw_socket (Can2udp.read_count chc) = 16 ∨
        env.read_ret w.events chc.raw_socket (Can2udp.read_count chc) = 72) →
      env.ioctl_SIOCGSTAMP
          (w.events ++ [Can2udp.Event.read chc.raw_socket (Can2udp.read_count chc)])
          chc.raw_socket = some { tv_sec := (s : Int), tv_usec := (u : Int) } →
      ∃ data : List Nat,
        Can2udp.sent (Can2udp.channel_process env config chc w).2.events =
          Can2udp.sent w.events ++ [data] ∧
        X2udp.field 76 8 data =
          X2udp.host_bytes env.host 8
            (((s * 10 ^ 6 + u) * 1000) % 2 ^ env.ulong_bits % 2 ^ 64)) ∧
    (∀ (env : Can2udp.Env) (config : Can2udp.daemon_config_t) (chc : Can2udp.channel)
        (w : Can2udp.World),
      (env.read_ret w.events chc.raw_socket (Can2udp.read_count chc) = 16 ∨
        env.read_ret w.events chc.raw_socket (Can2udp.read_count chc) = 72) →
      env.ioctl_SIOCGSTAMP
          (w.events ++ [Can2udp.Event.read chc.raw_socket (Can2udp.read_count chc)])
          chc.raw_socket = none →
      ∃ data : List Nat,
        Can2udp.sent (Can2udp.channel_process env config chc w).2.events =
          Can2udp.sent w.events ++ [data] ∧
        X2udp.field 76 8 data = List.replicate 8 0) ∧
    (∀ s u : Nat,
      ((s * 10 ^ 6 + u) * 1000) % 2 ^ 64 % 2 ^ 64 = (s * 10 ^ 9 + u * 10 ^ 3) % 2 ^ 64) ∧
    Can2udp.env_le32.ulong_bits = 32 ∧
    Can2udp.tiemval_to_ns 32 { tv_sec := 5, tv_usec := 0 } = 705032704 ∧
    Can2udp.tiemval_to_ns 64 { tv_sec := 5, tv_usec := 0 } = 5000000000 ∧
    (Can2udp.sent (Can2udp.channel_process Can2udp.env_le32 Can2udp.config_1 Can2udp.chc_1
        Can2udp.world_0).2.events).map (X2udp.field 76 8) =
      [X2udp.le_bytes 8 705032704] ∧
    (Can2udp.sent (Can2udp.channel_process Can2udp.env_le64 Can2udp.config_1 Can2udp.chc_1
        Can2udp.world_0).2.events).map (X2udp.field 76 8) =
      [X2udp.le_bytes 8 5000000000] ∧
    X2udp.le_bytes 8 705032704 = [0x00, 0xF2, 0x05, 0x2A, 0, 0, 0, 0] ∧
    X2udp.le_bytes 8 5000000000 = [0x00, 0xF2, 0x05, 0x2A, 0x01, 0, 0, 0] ∧
    (Can2udp.sent (Can2udp.channel_process Can2udp.env_no_stamp Can2udp.config_1 Can2udp.chc_1
        Can2udp.world_0).2.events).map (X2udp.field 76 8) = [List.replicate 8 0] := by
  refine ⟨?_, ?_, ?_, rfl, by decide, by decide, by decide, by decide, by decide, by decide,
    by decide⟩
  · intro env config chc w s u hread hst
    obtain ⟨data, h1, h2⟩ := Can2udp.can_channel_process_timestamp env config chc w hread
    refine ⟨data, h1, ?_⟩
    rw [h2]
    unfold Can2udp.stamp_of
    rw [hst, Option.getD_some, Can2udp.tiemval_to_ns_nat]
    norm_num
  · intro env config chc w hread hst
    obtain ⟨data, h1, h2⟩ := Can2udp.can_channel_process_timestamp env config chc w hread
    refine ⟨data, h1, ?_⟩
    rw [h2]
    unfold Can2udp.stamp_of
    rw [hst, Option.getD_none]
    have h0 := Can2udp.tiemval_to_ns_nat env.ulong_bits 0 0
    simp only [Nat.cast_zero] at h0
    rw [h0]
    cases env.host <;> simp [X2udp.host_bytes, X2udp.be_bytes, X2udp.le_bytes]
  · intro s u
    rw [Nat.mod_mod]
    congr 1
    ring

/-- C19. Every datagram the daemons send has the format revision of its family
in byte 0 and the reserved flags, 0, in byte 1.  `channel_send_frame` sends
one datagram, with bytes 0..1 = `02 00`, for every channel, frame and
timestamp.  The bus `channel_process` sends one datagram when `read` returns
16 or 72 and none otherwise, and it starts with `02 00`.  The sensor
`channel_process` sends one datagram when the timer read returns 8 and none
otherwise, and it starts with `01 00`, in the short and in the long format,
whatever the value read gives.  Hence every datagram a call of
`system_check_channels_and_process` sends, for any ready set, starts with
`02 00` in can2udp and with `01 00` in iio2udp. -/
theorem packet_version_and_flags :
    (∀ (env : Can2udp.Env) (config : Can2udp.daemon_config_t) (chc : Can2udp.channel)
        (frame : Option (List Nat)) (timestamp : Nat) (w : Can2udp.World),
      ∃ data : List Nat,
        Can2udp.sent (Can2udp.channel_send_frame env config chc frame timestamp w).2.events =
          Can2udp.sent w.events ++ [data] ∧
        X2udp.field 0 1 data = [2] ∧ X2udp.field 1 1 data = [0]) ∧
    (∀ (env : Can2udp.Env) (config : Can2udp.daemon_config_t) (chc : Can2udp.channel)
        (w : Can2udp.World),
      ∃ new : List (List Nat),
        Can2udp.sent (Can2udp.channel_process env config chc w).2.events =
          Can2udp.sent w.events ++ new ∧
        new.length =
          (if env.read_ret w.events chc.raw_socket (Can2udp.read_count chc) = 16 ∨
              env.read_ret w.events chc.raw_socket (Can2udp.read_count chc) = 72
            then 1 else 0) ∧
        ∀ data ∈ new, X2udp.field 0 1 data = [2] ∧ X2udp.field 1 1 data = [0]) ∧
    (∀ (env : Iio2udp.Env) (config : Iio2udp.daemon_config_t) (chc : Iio2udp.channel)
        (w : Iio2udp.World),
      ∃ new : List (List Nat),
        Iio2udp.sent (Iio2udp.channel_process env config chc w).2.events =
          Iio2udp.sent w.events ++ new ∧
        new.length = (if env.read_ret w.events chc.timerfd 8 = 8 then 1 else 0) ∧
        ∀ data ∈ new, X2udp.field 0 1 data = [1] ∧ X2udp.field 1 1 data = [0]) ∧
    (∀ (env : Can2udp.Env) (config : Can2udp.daemon_config_t) (fds : X2udp.fd_set)
        (w : Can2udp.World),
      ∃ new : List (List Nat),
        Can2udp.sent (Can2udp.system_check_channels_and_process env config fds w).2.events =
          Can2udp.sent w.events ++ new ∧
        ∀ data ∈ new, X2udp.field 0 1 data = [2] ∧ X2udp.field 1 1 data = [0]) ∧
    (∀ (env : Iio2udp.Env) (config : Iio2udp.daemon_config_t) (fds : X2udp.fd_set)
        (w : Iio2udp.World),
      ∃ new : List (List Nat),
        Iio2udp.sent (Iio2udp.system_check_channels_and_process env config fds w).2.events =
          Iio2udp.sent w.events ++ new ∧
        ∀ data ∈ new, X2udp.field 0 1 data = [1] ∧ X2udp.field 1 1 data = [0]) ∧
    (Can2udp.sent (Can2udp.channel_process Can2udp.env_le Can2udp.config_1 Can2udp.chc_1
        Can2udp.world_0).2.events).map (X2udp.field 0 2) = [[2, 0]] ∧
    (Iio2udp.sent (Iio2udp.channel_process Iio2udp.env_le Iio2udp.config_1 Iio2udp.chc_short
        Iio2udp.world_0).2.events).map (X2udp.field 0 2) = [[1, 0]] ∧
    (Iio2udp.sent (Iio2udp.channel_process Iio2udp.env_le_bad Iio2udp.config_1 Iio2udp.chc_long
        Iio2udp.world_0).2.events).map (X2udp.field 0 2) = [[1, 0]] := by
  refine ⟨?_, ?_, ?_, Can2udp.can_check_sent_heads, Iio2udp.iio_check_sent_heads,
    by decide, by decide, by decide⟩
  · intro env config chc frame timestamp w
    exact ⟨_, Can2udp.can_channel_send_frame_sent env config chc frame timestamp w,
      Can2udp.can_packet_head_bytes env.host chc frame timestamp⟩
  · intro env config chc w
    refine ⟨_, Can2udp.can_channel_process_sent_cases env config chc w, ?_, ?_⟩
    · simp only [Can2udp.CAN_MTU, Can2udp.CANFD_MTU, Nat.cast_ofNat]
      split_ifs <;> rfl
    · intro data hd
      split_ifs at hd
      · rw [List.mem_singleton] at hd
        rw [hd]
        exact Can2udp.can_packet_head_bytes env.host chc _ _
      · cases hd
  · intro env config chc w
    refine ⟨_, Iio2udp.iio_channel_process_sent_cases env config chc w, ?_, ?_⟩
    · split_ifs <;> rfl
    · intro data hd
      split_ifs at hd
      · rw [List.mem_singleton] at hd
        rw [hd]
        exact ⟨(Iio2udp.iio_packet_head_fields env chc _ _).1,
          (Iio2udp.iio_packet_head_fields env chc _ _).2.1⟩
      · cases hd

namespace X2udp

theorem mem_FD_SET (fd : Int) (fds : fd_set) : fd ∈ FD_SET fd fds := by
  unfold FD_SET
  split_ifs with h
  · exact h
  · exact List.mem_cons_self _ _

theorem not_mem_FD_CLR (fd : Int) (fds : fd_set) : fd ∉ FD_CLR fd fds := by
  simp [FD_CLR]

theorem not_mem_FD_CLR_of_not_mem (fd x : Int) (fds : fd_set) (h : x ∉ fds) :
    x ∉ FD_CLR fd fds := by
  simp only [FD_CLR, List.mem_filter, not_and]
  intro hx
  exact absurd hx h

end X2udp

namespace Can2udp
open X2udp

/-- The two ways `channel_init` ends. -/
theorem can_channel_init_cases (env : Env) (chc : channel) (fds : fd_set) (w : World) :
    ((channel_init env chc fds w).1 = 0 ∧
      0 ≤ (channel_init env chc fds w).2.1.raw_socket ∧
      (channel_init env chc fds w).2.2.1 =
        FD_SET (channel_init env chc fds w).2.1.raw_socket fds) ∨
    ((channel_init env chc fds w).1 = -1 ∧
      (channel_init env chc fds w).2.1.raw_socket = 0 ∧
      (channel_init env chc fds w).2.2.1 = fds) := by
  simp only [channel_init, channel_init_error]
  split_ifs <;> simp_all

end Can2udp

namespace Iio2udp
open X2udp

/-- The two ways `channel_init` ends. -/
theorem iio_channel_init_cases (env : Env) (context : Option Nat) (chc : channel)
    (fds : fd_set) (w : World) :
    ((channel_init env context chc fds w).1 = 0 ∧
      0 ≤ (channel_init env context chc fds w).2.1.timerfd ∧
      (channel_init env context chc fds w).2.2.1 =
        FD_SET (channel_init env context chc fds w).2.1.timerfd fds) ∨
    ((channel_init env context chc fds w).1 = -1 ∧
      (channel_init env context chc fds w).2.2.1 = fds) := by
  simp only [channel_init, channel_init_error]
  split_ifs <;> simp_all

end Iio2udp

namespace Can2udp
open X2udp

theorem can_overruns_append (a b : List Event) :
    overruns (a ++ b) = overruns a ++ overruns b := by
  induction a with
  | nil => rfl
  | cons e es ih => cases e <;> simp [overruns, ih]

theorem can_channel_init_filters_overruns (env : Env) (chc : channel) (w : World) :
    overruns (channel_init_filters env chc w).events = overruns w.events := by
  unfold channel_init_filters
  cases chc.filters with
  | none => rfl
  | some filters =>
    simp only [World.call, World.emit]
    split_ifs <;> simp [can_overruns_append, overruns]

/-- The overrun `channel_init` makes: none when the socket cannot be created or
the name and its NUL fit the array, one otherwise. -/
theorem can_channel_init_overruns (env : Env) (chc : channel) (fds : fd_set) (w : World) :
    overruns (channel_init env chc fds w).2.2.2.events =
      overruns w.events ++
        (if 0 ≤ env.sys_ret (w.events ++ [Event.socket_can]) ∧
            IFNAMSIZ < (strcpy_written chc.interface_name).length
          then [(strcpy_written chc.interface_name).length - IFNAMSIZ] else []) := by
  simp only [channel_init, channel_init_error, World.call, World.emit]
  split_ifs <;>
    simp [can_overruns_append, overruns, can_channel_init_filters_overruns, World.emit] <;>
    omega

end Can2udp

/-- C15, as the code has it.  `channel_init` of can2udp.c copies the interface
name into the 16 bytes of `ifr.ifr_name` with `strcpy`, without looking at its
length.  Once the socket is created, a name whose characters and NUL are more
than `IFNAMSIZ` = 16 bytes is written past the end of the array, by as many
bytes as it has too many: `channel_init` then has no defined outcome, neither
of the two the claim gives.  A name of 16 characters, read from the
configuration file `cf_name_16`, overruns the array by 1 byte in
`system_init`, and one of 100 characters by 85 bytes.  When the name fits and
the socket descriptor is below `FD_SETSIZE`, `channel_init` does end in one of
the two ways: 0 with the descriptor registered, or -1 with the set unchanged. -/
theorem channel_init_overruns_ifr_name :
    (∀ (env : Can2udp.Env) (chc : Can2udp.channel) (fds : X2udp.fd_set) (w : Can2udp.World),
      Can2udp.overruns (Can2udp.channel_init env chc fds w).2.2.2.events =
        Can2udp.overruns w.events ++
          (if 0 ≤ env.sys_ret (w.events ++ [Can2udp.Event.socket_can]) ∧
              X2udp.IFNAMSIZ < (X2udp.strcpy_written chc.interface_name).length
            then [(X2udp.strcpy_written chc.interface_name).length - X2udp.IFNAMSIZ]
            else [])) ∧
    (∀ name : List Nat, (∀ b ∈ name, b ≠ 0) →
      (X2udp.strcpy_written name).length = name.length + 1) ∧
    X2udp.IFNAMSIZ = 16 ∧
    Can2udp.chc_name_16.interface_name.length = 16 ∧
    Can2udp.overruns (Can2udp.channel_init Can2udp.env_le Can2udp.chc_name_16 []
      Can2udp.world_0).2.2.2.events = [1] ∧
    Can2udp.overruns (Can2udp.channel_init Can2udp.env_le Can2udp.chc_name_100 []
      Can2udp.world_0).2.2.2.events = [85] ∧
    Can2udp.overruns (Can2udp.channel_init Can2udp.env_le Can2udp.chc_1 []
      Can2udp.world_0).2.2.2.events = [] ∧
    (Can2udp.parse_config Can2udp.env_name_16 Can2udp.config_0 none
      Can2udp.world_0).2.1.channels.map (fun chc => chc.interface_name.length) = [16] ∧
    Can2udp.overruns (Can2udp.system_init Can2udp.env_name_16 Can2udp.config_0 [] none
      Can2udp.world_0).2.2.2.events = [1] ∧
    Can2udp.ifr_names (Can2udp.system_init Can2udp.env_name_16 Can2udp.config_0 [] none
      Can2udp.world_0).2.2.2.events =
      [[118, 99, 97, 110, 48, 49, 50, 51, 52, 53, 54, 55, 56, 57, 97, 98]] ∧
    (∀ (env : Can2udp.Env) (chc : Can2udp.channel) (fds : X2udp.fd_set) (w : Can2udp.World),
      (X2udp.strcpy_written chc.interface_name).length ≤ X2udp.IFNAMSIZ →
      env.sys_ret (w.events ++ [Can2udp.Event.socket_can]) < X2udp.FD_SETSIZE →
      Can2udp.overruns (Can2udp.channel_init env chc fds w).2.2.2.events =
        Can2udp.overruns w.events ∧
      (((Can2udp.channel_init env chc fds w).1 = 0 ∧
          0 ≤ (Can2udp.channel_init env chc fds w).2.1.raw_socket ∧
          (Can2udp.channel_init env chc fds w).2.1.raw_socket < X2udp.FD_SETSIZE ∧
          (Can2udp.channel_init env chc fds w).2.2.1 =
            X2udp.FD_SET (Can2udp.channel_init env chc fds w).2.1.raw_socket fds ∧
          (Can2udp.channel_init env chc fds w).2.1.raw_socket ∈
            (Can2udp.channel_init env chc fds w).2.2.1) ∨
        ((Can2udp.channel_init env chc fds w).1 = -1 ∧
          (Can2udp.channel_init env chc fds w).2.2.1 = fds))) := by
  refine ⟨Can2udp.can_channel_init_overruns, ?_, rfl, rfl, by decide, by decide, by decide,
    by decide, by decide, by decide, ?_⟩
  · intro name hn
    simp [X2udp.strcpy_written, X2udp.c_string_of_nul_free name hn]
  · intro env chc fds w hfit hfd
    refine ⟨?_, ?_⟩
    · rw [Can2udp.can_channel_init_overruns, if_neg (fun hc => absurd hfit (not_le.2 hc.2))]
      simp
    · rcases Can2udp.can_channel_init_cases env chc fds w with ⟨h0, h1, h2⟩ | ⟨h0, -, h2⟩
      · left
        refine ⟨h0, h1, ?_, h2, ?_⟩
        · have hs : (Can2udp.channel_init env chc fds w).2.1.raw_socket =
              env.sys_ret (w.events ++ [Can2udp.Event.socket_can]) ∨
              (Can2udp.channel_init env chc fds w).2.1.raw_socket = 0 := by
            simp only [Can2udp.channel_init, Can2udp.channel_init_error, Can2udp.World.call]
            split_ifs <;> simp
          rcases hs with hs | hs
          · rw [hs]
            exact hfd
          · rw [hs]
            decide
        · rw [h2]
          exact X2udp.mem_FD_SET _ _
      · right
        exact ⟨h0, h2⟩

namespace Can2udp
open X2udp

theorem can_udp_sockets_append (a b : List Event) :
    udp_sockets (a ++ b) = udp_sockets a + udp_sockets b := by
  induction a with
  | nil => simp [udp_sockets]
  | cons e es ih =>
    cases e <;> simp [udp_sockets, ih]
    omega

theorem can_closes_append (a b : List Event) : closes (a ++ b) = closes a ++ closes b := by
  induction a with
  | nil => rfl
  | cons e es ih => cases e <;> simp [closes, ih]

theorem can_channel_init_filters_udp (env : Env) (chc : channel) (w : World) :
    udp_sockets (channel_init_filters env chc w).events = udp_sockets w.events := by
  unfold channel_init_filters
  cases chc.filters with
  | none => rfl
  | some filters =>
    simp only [World.call, World.emit]
    split_ifs <;> simp [can_udp_sockets_append, udp_sockets]

theorem can_channel_init_udp (env : Env) (chc : channel) (fds : fd_set) (w : World) :
    udp_sockets (channel_init env chc fds w).2.2.2.events = udp_sockets w.events := by
  simp only [channel_init, channel_init_error, World.call, World.emit]
  split_ifs <;>
    simp [can_udp_sockets_append, udp_sockets, can_channel_init_filters_udp, World.emit]

theorem can_init_loop_spec (env : Env) (l : List channel) (fds : fd_set) (w : World)
    (good : Int) :
    (init_loop env l fds w good).2.2.2 =
      good + (((init_results env l fds w).filter (fun r => decide (r = 0))).length : Int) ∧
    udp_sockets (init_loop env l fds w good).2.2.1.events = udp_sockets w.events := by
  induction l generalizing fds w good with
  | nil => simp [init_loop, init_results]
  | cons chc next ih =>
    simp only [init_loop, init_results]
    obtain ⟨h1, h2⟩ := ih (channel_init env chc fds w).2.2.1 (channel_init env chc fds w).2.2.2
      (if (channel_init env chc fds w).1 = 0 then good + 1 else good)
    refine ⟨?_, ?_⟩
    · rw [h1]
      by_cases h : (channel_init env chc fds w).1 = 0
      · simp [h]
        omega
      · simp [h]
    · rw [h2, can_channel_init_udp]

theorem can_parse_config_events (env : Env) (config : daemon_config_t)
    (name : Option (List Nat)) (w : World) :
    udp_sockets (parse_config env config name w).2.2.events = udp_sockets w.events := by
  unfold parse_config
  dsimp only
  split
  · simp [World.emit, can_udp_sockets_append, udp_sockets]
  · split
    · rfl
    · split_ifs <;> simp [World.emit, can_udp_sockets_append, udp_sockets]

theorem can_socket_init_udp (env : Env) (config : daemon_config_t) (w : World) :
    udp_sockets (socket_init env config w).2.2.events = udp_sockets w.events + 1 := by
  simp only [socket_init, World.call, World.emit]
  split_ifs
  · simp [can_udp_sockets_append, udp_sockets]
  · simp [can_udp_sockets_append, udp_sockets]
  · split
    · simp [can_udp_sockets_append, udp_sockets]
    · split_ifs <;> simp [can_udp_sockets_append, udp_sockets]

end Can2udp

namespace X2udp

theorem filter_zero_length_eq_zero (l : List Int) :
    ((l.filter (fun r => decide (r = 0))).length : Int) = 0 ↔ ∀ r ∈ l, r ≠ 0 := by
  rw [Int.natCast_eq_zero, List.length_eq_zero, List.filter_eq_nil_iff]
  simp

end X2udp

namespace Can2udp
open X2udp

/-- What `system_init` returns and how many UDP sockets it asks for, from the
result of `parse_config` and the results of the calls of `channel_init`. -/
theorem can_system_init_spec (env : Env) (config : daemon_config_t) (fds : fd_set)
    (name : Option (List Nat)) (w : World) :
    (system_init env config fds name w).1 =
      (if (parse_config env config name w).1 < 0 then -1
        else if ∀ r ∈ init_results env (parse_config env config name w).2.1.channels fds
            (parse_config env config name w).2.2, r ≠ 0 then -ENODATA
        else 0) ∧
    udp_sockets (system_init env config fds name w).2.2.2.events =
      udp_sockets w.events +
        (if (parse_config env config name w).1 < 0 then 0
          else if ∀ r ∈ init_results env (parse_config env config name w).2.1.channels fds
              (parse_config env config name w).2.2, r ≠ 0 then 0
          else 1) := by
  unfold system_init
  by_cases hp : (parse_config env config name w).1 < 0
  · simp only [if_pos hp, can_parse_config_events, true_and, Nat.add_zero]
  · simp only [if_neg hp]
    obtain ⟨hg, hu⟩ := can_init_loop_spec env (parse_config env config name w).2.1.channels fds
      (parse_config env config name w).2.2 0
    rw [zero_add] at hg
    by_cases hall : ∀ r ∈ init_results env (parse_config env config name w).2.1.channels fds
        (parse_config env config name w).2.2, r ≠ 0
    · have h0 := (filter_zero_length_eq_zero _).2 hall
      rw [← hg] at h0
      simp only [if_pos hall, if_pos h0, World.emit, can_udp_sockets_append, hu,
        can_parse_config_events, udp_sockets, true_and, Nat.add_zero]
    · have h0 : ¬ (init_loop env (parse_config env config name w).2.1.channels fds
          (parse_config env config name w).2.2 0).2.2.2 = 0 := by
        rw [hg]
        exact fun hc => hall ((filter_zero_length_eq_zero _).1 hc)
      simp only [if_neg hall, if_neg h0, can_socket_init_udp, World.emit,
        can_udp_sockets_append, hu, can_parse_config_events, udp_sockets, true_and,
        Nat.add_zero]

end Can2udp

namespace Iio2udp
open X2udp

theorem iio_udp_sockets_append (a b : List Event) :
    udp_sockets (a ++ b) = udp_sockets a + udp_sockets b := by
  induction a with
  | nil => simp [udp_sockets]
  | cons e es ih =>
    cases e <;> simp [udp_sockets, ih]
    omega

theorem iio_closes_append (a b : List Event) : closes (a ++ b) = closes a ++ closes b := by
  induction a with
  | nil => rfl
  | cons e es ih => cases e <;> simp [closes, ih]

theorem iio_channel_init_udp (env : Env) (context : Option Nat) (chc : channel)
    (fds : fd_set) (w : World) :
    udp_sockets (channel_init env context chc fds w).2.2.2.events = udp_sockets w.events := by
  simp only [channel_init, channel_init_error, World.call, World.emit]
  split_ifs <;> simp [iio_udp_sockets_append, udp_sockets]

theorem iio_init_loop_spec (env : Env) (context : Option Nat) (l : List channel)
    (fds : fd_set) (w : World) (good : Int) :
    (init_loop env context l fds w good).2.2.2 =
      good + (((init_results env context l fds w).filter (fun r => decide (r = 0))).length : Int) ∧
    udp_sockets (init_loop env context l fds w good).2.2.1.events = udp_sockets w.events := by
  induction l generalizing fds w good with
  | nil => simp [init_loop, init_results]
  | cons chc next ih =>
    simp only [init_loop, init_results]
    obtain ⟨h1, h2⟩ := ih (channel_init env context chc fds w).2.2.1
      (channel_init env context chc fds w).2.2.2
      (if (channel_init env context chc fds w).1 = 0 then good + 1 else good)
    refine ⟨?_, ?_⟩
    · rw [h1]
      by_cases h : (channel_init env context chc fds w).1 = 0
      · simp [h]
        omega
      · simp [h]
    · rw [h2, iio_channel_init_udp]

theorem iio_parse_config_events (env : Env) (config : daemon_config_t)
    (name : Option (List Nat)) (w : World) :
    udp_sockets (parse_config env config name w).2.2.events = udp_sockets w.events := by
  unfold parse_config
  dsimp only
  split
  · simp [World.emit, iio_udp_sockets_append, udp_sockets]
  · split
    · rfl
    · split_ifs <;> simp [World.emit, iio_udp_sockets_append, udp_sockets]

theorem iio_socket_init_udp (env : Env) (config : daemon_config_t) (w : World) :
    udp_sockets (socket_init env config w).2.2.events = udp_sockets w.events + 1 := by
  simp only [socket_init, World.call, World.emit]
  split_ifs
  · simp [iio_udp_sockets_append, udp_sockets]
  · simp [iio_udp_sockets_append, udp_sockets]
  · split
    · simp [iio_udp_sockets_append, udp_sockets]
    · split_ifs <;> simp [iio_udp_sockets_append, udp_sockets]

theorem iio_udp_emit (w : World) (e : Event) :
    udp_sockets (w.emit e).events = udp_sockets w.events + udp_sockets [e] := by
  simp [World.emit, iio_udp_sockets_append]

/-- What `system_init` returns and how many UDP sockets it asks for, from the
result of `parse_config`, the iio context and the results of the calls of
`channel_init`. -/
theorem iio_system_init_spec (env : Env) (config : daemon_config_t) (fds : fd_set)
    (name : Option (List Nat)) (w : World) :
    (system_init env config fds name w).1 =
      (if (parse_config env config name w).1 < 0 then -1
        else if (context_of env config name w).isNone then -ENODEV
        else if ∀ r ∈ init_results env (context_of env config name w)
            (parse_config env config name w).2.1.channels fds
            ((parse_config env config name w).2.2.emit Event.iio_create_default_context),
            r ≠ 0 then -ENODATA
        else 0) ∧
    udp_sockets (system_init env config fds name w).2.2.2.events =
      udp_sockets w.events +
        (if (parse_config env config name w).1 < 0 then 0
          else if (context_of env config name w).isNone then 0
          else if ∀ r ∈ init_results env (context_of env config name w)
              (parse_config env config name w).2.1.channels fds
              ((parse_config env config name w).2.2.emit Event.iio_create_default_context),
              r ≠ 0 then 0
          else 1) := by
  unfold context_of
  simp only [system_init]
  by_cases hp : (parse_config env config name w).1 < 0
  · simp only [if_pos hp, iio_parse_config_events, true_and, Nat.add_zero]
  · simp only [if_neg hp]
    by_cases hc : (env.iio_handle
        ((parse_config env config name w).2.2.emit Event.iio_create_default_context).events).isNone
        = true
    · simp only [hc, if_true, iio_udp_emit, iio_parse_config_events, udp_sockets, true_and,
        Nat.add_zero]
    · simp only [hc]
      obtain ⟨hg, hu⟩ := iio_init_loop_spec env
        (env.iio_handle
          ((parse_config env config name w).2.2.emit Event.iio_create_default_context).events)
        (parse_config env config name w).2.1.channels fds
        ((parse_config env config name w).2.2.emit Event.iio_create_default_context) 0
      rw [zero_add] at hg
      rw [iio_udp_emit, iio_parse_config_events] at hu
      by_cases hall : ∀ r ∈ init_results env
          (env.iio_handle
            ((parse_config env config name w).2.2.emit Event.iio_create_default_context).events)
          (parse_config env config name w).2.1.channels fds
          ((parse_config env config name w).2.2.emit Event.iio_create_default_context), r ≠ 0
      · have h0 := (filter_zero_length_eq_zero _).2 hall
        rw [← hg] at h0
        simp only [if_pos hall, if_pos h0, iio_udp_emit, hu, udp_sockets, true_and,
          Nat.add_zero, Bool.false_eq_true, if_false]
      · have h0 : ¬ (init_loop env
            (env.iio_handle
              ((parse_config env config name w).2.2.emit Event.iio_create_default_context).events)
            (parse_config env config name w).2.1.channels fds
            ((parse_config env config name w).2.2.emit Event.iio_create_default_context)
            0).2.2.2 = 0 := by
          rw [hg]
          exact fun hc => hall ((filter_zero_length_eq_zero _).1 hc)
        simp only [if_neg hall, if_neg h0, iio_socket_init_udp, iio_udp_emit, hu, udp_sockets,
          true_and, Nat.add_zero, Bool.false_eq_true, if_false]

end Iio2udp

/-- C12. `system_init` returns -1 when `parse_config` fails (and `-ENODEV` in
iio2udp when the iio context cannot be created); otherwise it returns
`-ENODATA` exactly when every `channel_init` failed, which includes the empty
channel list, and then it never calls `socket_init`; and when at least one
`channel_init` succeeded it returns 0 after calling `socket_init` exactly once,
whatever the other channels did. -/
theorem system_init_needs_one_good_channel :
    (∀ (env : Can2udp.Env) (config : Can2udp.daemon_config_t) (fds : X2udp.fd_set)
        (name : Option (List Nat)) (w : Can2udp.World),
      ((Can2udp.system_init env config fds name w).1 =
        (if (Can2udp.parse_config env config name w).1 < 0 then -1
          else if ∀ r ∈ Can2udp.init_results env
              (Can2udp.parse_config env config name w).2.1.channels fds
              (Can2udp.parse_config env config name w).2.2, r ≠ 0 then -61
          else 0)) ∧
      (Can2udp.udp_sockets (Can2udp.system_init env config fds name w).2.2.2.events =
        Can2udp.udp_sockets w.events +
          (if (Can2udp.parse_config env config name w).1 < 0 then 0
            else if ∀ r ∈ Can2udp.init_results env
                (Can2udp.parse_config env config name w).2.1.channels fds
                (Can2udp.parse_config env config name w).2.2, r ≠ 0 then 0
            else 1)) ∧
      (¬ (Can2udp.parse_config env config name w).1 < 0 →
        (((Can2udp.system_init env config fds name w).1 = -X2udp.ENODATA ∧
            Can2udp.udp_sockets (Can2udp.system_init env config fds name w).2.2.2.events =
              Can2udp.udp_sockets w.events) ↔
          ∀ r ∈ Can2udp.init_results env
            (Can2udp.parse_config env config name w).2.1.channels fds
            (Can2udp.parse_config env config name w).2.2, r ≠ 0))) ∧
    (∀ (env : Iio2udp.Env) (config : Iio2udp.daemon_config_t) (fds : X2udp.fd_set)
        (name : Option (List Nat)) (w : Iio2udp.World),
      ((Iio2udp.system_init env config fds name w).1 =
        (if (Iio2udp.parse_config env config name w).1 < 0 then -1
          else if (Iio2udp.context_of env config name w).isNone then -19
          else if ∀ r ∈ Iio2udp.init_results env (Iio2udp.context_of env config name w)
              (Iio2udp.parse_config env config name w).2.1.channels fds
              ((Iio2udp.parse_config env config name w).2.2.emit
                Iio2udp.Event.iio_create_default_context), r ≠ 0 then -61
          else 0)) ∧
      (Iio2udp.udp_sockets (Iio2udp.system_init env config fds name w).2.2.2.events =
        Iio2udp.udp_sockets w.events +
          (if (Iio2udp.parse_config env config name w).1 < 0 then 0
            else if (Iio2udp.context_of env config name w).isNone then 0
            else if ∀ r ∈ Iio2udp.init_results env (Iio2udp.context_of env config name w)
                (Iio2udp.parse_config env config name w).2.1.channels fds
                ((Iio2udp.parse_config env config name w).2.2.emit
                  Iio2udp.Event.iio_create_default_context), r ≠ 0 then 0
            else 1)) ∧
      (¬ (Iio2udp.parse_config env config name w).1 < 0 →
        ¬ (Iio2udp.context_of env config name w).isNone →
        (((Iio2udp.system_init env config fds name w).1 = -X2udp.ENODATA ∧
            Iio2udp.udp_sockets (Iio2udp.system_init env config fds name w).2.2.2.events =
              Iio2udp.udp_sockets w.events) ↔
          ∀ r ∈ Iio2udp.init_results env (Iio2udp.context_of env config name w)
            (Iio2udp.parse_config env config name w).2.1.channels fds
            ((Iio2udp.parse_config env config name w).2.2.emit
              Iio2udp.Event.iio_create_default_context), r ≠ 0))) := by
  constructor
  · intro env config fds name w
    obtain ⟨h1, h2⟩ := Can2udp.can_system_init_spec env config fds name w
    refine ⟨h1, h2, ?_⟩
    intro hp
    rw [h1, h2, if_neg hp, if_neg hp]
    constructor
    · rintro ⟨hr, -⟩
      by_contra hall
      rw [if_neg hall] at hr
      simp [X2udp.ENODATA] at hr
    · intro hall
      rw [if_pos hall, if_pos hall]
      exact ⟨rfl, rfl⟩
  · intro env config fds name w
    obtain ⟨h1, h2⟩ := Iio2udp.iio_system_init_spec env config fds name w
    refine ⟨h1, h2, ?_⟩
    intro hp hc
    rw [h1, h2, if_neg hp, if_neg hp, if_neg hc, if_neg hc]
    constructor
    · rintro ⟨hr, -⟩
      by_contra hall
      rw [if_neg hall] at hr
      simp [X2udp.ENODATA] at hr
    · intro hall
      rw [if_pos hall, if_pos hall]
      exact ⟨rfl, rfl⟩

namespace Can2udp
open X2udp

/-- What `socket_init` returns, from the results of its calls. -/
theorem can_socket_init_ret (env : Env) (config : daemon_config_t) (w : World) :
    (socket_init env config w).1 =
      (if env.sys_ret (w.events ++ [Event.socket_udp]) < 0 then -1
        else if env.sys_ret (w.events ++ [Event.socket_udp,
            Event.setsockopt_broadcast (env.sys_ret (w.events ++ [Event.socket_udp]))]) < 0
          then -1
        else 0) := by
  simp only [socket_init, World.call, World.emit, List.append_assoc, List.singleton_append]
  split_ifs
  · rfl
  · rfl
  · split
    · rfl
    · split_ifs <;> rfl

end Can2udp

/-- C13, as the code has it.  `socket_init` returns -1 when the UDP socket
cannot be created or cannot be set to broadcast, and 0 otherwise, also when
the bind to the interface fails.  But `system_init` does not look at that
result: with one channel open it returns 0 whatever `socket_init` returned.
On the host `env_udp_fails` the creation of the UDP socket fails, `socket_init`
returns -1 and leaves `socket_broadcast = -1`, and `system_init` returns 0. -/
theorem system_init_ignores_socket_init :
    (∀ (env : Can2udp.Env) (config : Can2udp.daemon_config_t) (w : Can2udp.World),
      (Can2udp.socket_init env config w).1 =
        (if env.sys_ret (w.events ++ [Can2udp.Event.socket_udp]) < 0 then -1
          else if env.sys_ret (w.events ++ [Can2udp.Event.socket_udp,
              Can2udp.Event.setsockopt_broadcast
                (env.sys_ret (w.events ++ [Can2udp.Event.socket_udp]))]) < 0
            then -1
          else 0)) ∧
    (Can2udp.system_init Can2udp.env_udp_fails Can2udp.config_0 [] none Can2udp.world_0).1 = 0 ∧
    (Can2udp.system_init Can2udp.env_udp_fails Can2udp.config_0 [] none
      Can2udp.world_0).2.1.socket_broadcast = -1 ∧
    Can2udp.Event.daemon_log X2udp.LOG_ERR Can2udp.LogMsg.udp_socket_error ∈
      (Can2udp.system_init Can2udp.env_udp_fails Can2udp.config_0 [] none
        Can2udp.world_0).2.2.2.events ∧
    (Can2udp.system_init Can2udp.env_udp_fails Can2udp.config_0 [] none Can2udp.world_0).2.2.1 =
      [3] := by
  refine ⟨Can2udp.can_socket_init_ret, ?_, ?_, ?_, ?_⟩ <;> decide

namespace Can2udp
open X2udp

theorem can_after_close_spec (env : Env) (chc : channel) (fds : fd_set) (w : World) :
    (after_close (channel_close env chc fds w)).1 = FD_CLR chc.raw_socket fds ∧
    closes (after_close (channel_close env chc fds w)).2.events =
      closes w.events ++ [chc.raw_socket] := by
  simp only [after_close, channel_close, World.call, World.emit]
  split_ifs <;> simp_all [can_closes_append, closes]

theorem can_close_loop_foldl (env : Env) (l : List channel) (s : fd_set × World) :
    close_loop env l s =
      l.foldl (fun s chc => after_close (channel_close env chc s.1 s.2)) s := by
  induction l generalizing s with
  | nil => rfl
  | cons chc next ih => simp [close_loop, ih]

theorem can_close_loop_spec (env : Env) (l : List channel) (s : fd_set × World) :
    closes (close_loop env l s).2.events =
      closes s.2.events ++ l.map (fun chc => chc.raw_socket) ∧
    ∀ x : Int, (x ∈ l.map (fun chc => chc.raw_socket) ∨ x ∉ s.1) →
      x ∉ (close_loop env l s).1 := by
  induction l generalizing s with
  | nil =>
    refine ⟨by simp [close_loop], ?_⟩
    intro x hx
    rcases hx with hx | hx
    · simp at hx
    · exact hx
  | cons chc next ih =>
    obtain ⟨h1, h2⟩ := can_after_close_spec env chc s.1 s.2
    obtain ⟨i1, i2⟩ := ih (after_close (channel_close env chc s.1 s.2))
    refine ⟨?_, ?_⟩
    · simp only [close_loop, i1, h1, h2, List.map_cons, List.append_assoc,
        List.singleton_append]
    · intro x hx
      simp only [close_loop]
      apply i2
      rw [h1]
      rcases hx with hx | hx
      · rcases List.mem_cons.1 hx with hx | hx
        · right
          rw [hx]
          exact not_mem_FD_CLR _ _
        · left
          exact hx
      · right
        exact not_mem_FD_CLR_of_not_mem _ _ _ hx

theorem can_socket_close_closes (env : Env) (config : daemon_config_t) (w : World) :
    closes (socket_close env config w).2.2.events =
      closes w.events ++ [config.socket_broadcast] := by
  simp only [socket_close, World.call, World.emit]
  split_ifs <;> simp [can_closes_append, closes]

theorem can_system_close_spec (env : Env) (config : daemon_config_t) (fds : fd_set)
    (w : World) :
    closes (system_close env config fds w).2.2.events =
      closes w.events ++ config.socket_broadcast :: config.channels.map (fun chc => chc.raw_socket) ∧
    ∀ chc ∈ config.channels, chc.raw_socket ∉ (system_close env config fds w).2.1 := by
  obtain ⟨h1, h2⟩ := can_close_loop_spec env config.channels (fds, (socket_close env config w).2.2)
  refine ⟨?_, ?_⟩
  · simp only [system_close, h1, can_socket_close_closes, List.append_assoc,
      List.singleton_append]
  · intro chc hc
    simp only [system_close]
    exact h2 _ (Or.inl (List.mem_map_of_mem _ hc))

end Can2udp

namespace Iio2udp
open X2udp

theorem iio_after_close_spec (env : Env) (chc : channel) (fds : fd_set) (w : World) :
    (after_close (channel_close env chc fds w)).1 = FD_CLR chc.timerfd fds ∧
    closes (after_close (channel_close env chc fds w)).2.events =
      closes w.events ++ [chc.timerfd] := by
  simp only [after_close, channel_close, World.call, World.emit]
  split_ifs <;> simp_all [iio_closes_append, closes]

theorem iio_close_loop_foldl (env : Env) (l : List channel) (s : fd_set × World) :
    close_loop env l s =
      l.foldl (fun s chc => after_close (channel_close env chc s.1 s.2)) s := by
  induction l generalizing s with
  | nil => rfl
  | cons chc next ih => simp [close_loop, ih]

theorem iio_close_loop_spec (env : Env) (l : List channel) (s : fd_set × World) :
    closes (close_loop env l s).2.events =
      closes s.2.events ++ l.map (fun chc => chc.timerfd) ∧
    ∀ x : Int, (x ∈ l.map (fun chc => chc.timerfd) ∨ x ∉ s.1) →
      x ∉ (close_loop env l s).1 := by
  induction l generalizing s with
  | nil =>
    refine ⟨by simp [close_loop], ?_⟩
    intro x hx
    rcases hx with hx | hx
    · simp at hx
    · exact hx
  | cons chc next ih =>
    obtain ⟨h1, h2⟩ := iio_after_close_spec env chc s.1 s.2
    obtain ⟨i1, i2⟩ := ih (after_close (channel_close env chc s.1 s.2))
    refine ⟨?_, ?_⟩
    · simp only [close_loop, i1, h1, h2, List.map_cons, List.append_assoc,
        List.singleton_append]
    · intro x hx
      simp only [close_loop]
      apply i2
      rw [h1]
      rcases hx with hx | hx
      · rcases List.mem_cons.1 hx with hx | hx
        · right
          rw [hx]
          exact not_mem_FD_CLR _ _
        · left
          exact hx
      · right
        exact not_mem_FD_CLR_of_not_mem _ _ _ hx

theorem iio_socket_close_closes (env : Env) (config : daemon_config_t) (w : World) :
    closes (socket_close env config w).2.2.events =
      closes w.events ++ [config.socket_broadcast] := by
  simp only [socket_close, World.call, World.emit]
  split_ifs <;> simp [iio_closes_append, closes]

theorem iio_system_close_spec (env : Env) (config : daemon_config_t) (fds : fd_set)
    (w : World) :
    closes (system_close env config fds w).2.2.events =
      closes w.events ++ config.socket_broadcast :: config.channels.map (fun chc => chc.timerfd) ∧
    ∀ chc ∈ config.channels, chc.timerfd ∉ (system_close env config fds w).2.1 := by
  obtain ⟨h1, h2⟩ := iio_close_loop_spec env config.channels (fds, (socket_close env config w).2.2)
  refine ⟨?_, ?_⟩
  · simp only [system_close, World.emit, iio_closes_append, h1, iio_socket_close_closes,
      List.append_assoc, List.singleton_append, closes, List.append_nil]
  · intro chc hc
    simp only [system_close]
    exact h2 _ (Or.inl (List.mem_map_of_mem _ hc))

end Iio2udp

/-- Counterexample to C16 as stated.  On shutdown of the configuration with
the one channel on descriptor 3 and the sink on descriptor 4, `close` is
called on 4 and then on 3: the sink is closed before the channel, not after. -/
theorem system_close_order_counterexample :
    Can2udp.closes (Can2udp.system_close Can2udp.env_le Can2udp.config_1 [3]
      Can2udp.world_0).2.2.events = [4, 3] ∧
    ¬ (Can2udp.closes (Can2udp.system_close Can2udp.env_le Can2udp.config_1 [3]
        Can2udp.world_0).2.2.events =
      Can2udp.config_1.channels.map (fun chc => chc.raw_socket)
        ++ [Can2udp.config_1.socket_broadcast]) := by
  decide

/-- C16, amended.  On shutdown `system_close` closes the broadcast socket
first and then the channels of the list, each once, in list order: the
descriptors `close` is called on are the sink and then the descriptors of the
channels in list order, in can2udp and in iio2udp. -/
theorem system_close_sink_then_channels :
    (∀ (env : Can2udp.Env) (config : Can2udp.daemon_config_t) (fds : X2udp.fd_set)
        (w : Can2udp.World),
      Can2udp.closes (Can2udp.system_close env config fds w).2.2.events =
        Can2udp.closes w.events ++
          config.socket_broadcast :: config.channels.map (fun chc => chc.raw_socket)) ∧
    (∀ (env : Iio2udp.Env) (config : Iio2udp.daemon_config_t) (fds : X2udp.fd_set)
        (w : Iio2udp.World),
      Iio2udp.closes (Iio2udp.system_close env config fds w).2.2.events =
        Iio2udp.closes w.events ++
          config.socket_broadcast :: config.channels.map (fun chc => chc.timerfd)) :=
  ⟨fun env config fds w => (Can2udp.can_system_close_spec env config fds w).1,
    fun env config fds w => (Iio2udp.iio_system_close_spec env config fds w).1⟩

/-- C17. One run of `system_close` runs `channel_close` once on each channel
of the list, in order (so once on each channel that was opened): the
descriptor set and the trace it leaves are those of the fold of
`channel_close` over the list, and `close` is called once per channel.
Afterwards the descriptor of no channel of the list is in the descriptor
set. -/
theorem system_close_closes_each_channel_once :
    (∀ (env : Can2udp.Env) (config : Can2udp.daemon_config_t) (fds : X2udp.fd_set)
        (w : Can2udp.World),
      ((Can2udp.system_close env config fds w).2.1,
          (Can2udp.system_close env config fds w).2.2) =
        config.channels.foldl
          (fun s chc => Can2udp.after_close (Can2udp.channel_close env chc s.1 s.2))
          (fds, (Can2udp.socket_close env config w).2.2) ∧
      (Can2udp.closes (Can2udp.system_close env config fds w).2.2.events).drop
          ((Can2udp.closes w.events).length + 1) =
        config.channels.map (fun chc => chc.raw_socket) ∧
      ∀ chc ∈ config.channels,
        chc.raw_socket ∉ (Can2udp.system_close env config fds w).2.1) ∧
    (∀ (env : Iio2udp.Env) (config : Iio2udp.daemon_config_t) (fds : X2udp.fd_set)
        (w : Iio2udp.World),
      ((Iio2udp.system_close env config fds w).2.1,
          (Iio2udp.system_close env config fds w).2.2) =
        ((config.channels.foldl
          (fun s chc => Iio2udp.after_close (Iio2udp.channel_close env chc s.1 s.2))
          (fds, (Iio2udp.socket_close env config w).2.2)).1,
         (config.channels.foldl
          (fun s chc => Iio2udp.after_close (Iio2udp.channel_close env chc s.1 s.2))
          (fds, (Iio2udp.socket_close env config w).2.2)).2.emit
            (Iio2udp.Event.iio_context_destroy config.context)) ∧
      (Iio2udp.closes (Iio2udp.system_close env config fds w).2.2.events).drop
          ((Iio2udp.closes w.events).length + 1) =
        config.channels.map (fun chc => chc.timerfd) ∧
      ∀ chc ∈ config.channels,
        chc.timerfd ∉ (Iio2udp.system_close env config fds w).2.1) := by
  constructor
  · intro env config fds w
    obtain ⟨h1, h2⟩ := Can2udp.can_system_close_spec env config fds w
    refine ⟨?_, ?_, h2⟩
    · simp only [Can2udp.system_close, Can2udp.can_close_loop_foldl]
    · rw [h1]
      simp
  · intro env config fds w
    obtain ⟨h1, h2⟩ := Iio2udp.iio_system_close_spec env config fds w
    refine ⟨?_, ?_, h2⟩
    · simp only [Iio2udp.system_close, Iio2udp.iio_close_loop_foldl]
    · rw [h1]
      simp

namespace Can2udp
open X2udp

theorem can_parse_channels_ret (env : Env) (cf : config_t) (k : Nat) (l : List channel_setting) :
    (parse_channels env cf k l).1 = 0 ∨ (parse_channels env cf k l).1 = -1 := by
  induction l generalizing k with
  | nil => simp [parse_channels]
  | cons s rest ih =>
    unfold parse_channels
    split_ifs
    · simp
    · simp
    · exact ih (k + 1)

/-- When the loop of `parse_config` ends with 0, there is one channel per
element, and its interface index is the configured one, or else its position. -/
theorem can_parse_channels_ids (env : Env) (cf : config_t) (k : Nat) (l : List channel_setting)
    (h : (parse_channels env cf k l).1 = 0) :
    (parse_channels env cf k l).2.map (fun chc => chc.udp_interface_index) =
      (List.range l.length).map
        (fun i => ((l.get? i).bind (fun s => s.interface_index)).getD ((k + i : Nat) : Int)) := by
  induction l generalizing k with
  | nil => simp [parse_channels]
  | cons s rest ih =>
    unfold parse_channels at h ⊢
    by_cases h1 : env.malloc_channel k = false
    · rw [if_pos h1] at h
      simp at h
    · rw [if_neg h1] at h ⊢
      by_cases h2 : (s.filter.isSome && env.malloc_filters k = false) = true
      · rw [if_pos h2] at h
        simp at h
      · rw [if_neg h2] at h ⊢
        have ih' := ih (k + 1) h
        simp only [List.map_cons, ih', List.length_cons, List.range_succ_eq_map, List.map_map]
        refine congrArg₂ _ ?_ ?_
        · simp [parse_channel]
        · apply List.map_congr_left
          intro i _
          simp only [Function.comp, List.get?_cons_succ]
          congr 2
          omega

end Can2udp

namespace Iio2udp
open X2udp

/-- When the loop of `parse_config` ends with 0, there is one channel per
element; its device index is the configured one, or else 0, and its channel
index the configured one, or else its position. -/
theorem iio_parse_channels_ids (env : Env) (k : Nat) (l : List channel_setting)
    (h : (parse_channels env k l).1 = 0) :
    (parse_channels env k l).2.map (fun chc => (chc.udp_device_index, chc.udp_channel_index)) =
      (List.range l.length).map
        (fun i => (((l.get? i).bind (fun s => s.device_index)).getD 0,
          ((l.get? i).bind (fun s => s.channel_index)).getD ((k + i : Nat) : Int))) := by
  induction l generalizing k with
  | nil => simp [parse_channels]
  | cons s rest ih =>
    unfold parse_channels at h ⊢
    by_cases h1 : env.malloc_channel k = false
    · rw [if_pos h1] at h
      simp at h
    · rw [if_neg h1] at h ⊢
      have ih' := ih (k + 1) h
      simp only [List.map_cons, ih', List.length_cons, List.range_succ_eq_map, List.map_map]
      refine congrArg₂ _ ?_ ?_
      · simp [parse_channel]
      · apply List.map_congr_left
        intro i _
        simp only [Function.comp, List.get?_cons_succ]
        congr 3
        omega

end Iio2udp

namespace Can2udp
open X2udp

theorem can_parse_config_ids (env : Env) (config : daemon_config_t) (name : Option (List Nat))
    (w : World) (h : (parse_config env config name w).1 = 0) :
    (parse_config env config name w).2.1.channels.map (fun chc => chc.udp_interface_index) =
      (List.range (settings_of env name).length).map
        (fun i => (((settings_of env name).get? i).bind (fun s => s.interface_index)).getD
          (i : Int)) := by
  unfold parse_config settings_of at *
  dsimp only at *
  cases hcf : env.config_read_file (name.getD CAN2UDP_DEFAULT_CONFIG_FILENAME) with
  | none =>
    rw [hcf] at h
    simp at h
  | some cf =>
    rw [hcf] at h
    cases hl : cf.interfaces with
    | none => simp [hl]
    | some l =>
      simp only [hl] at h ⊢
      by_cases hr : (parse_channels env cf 0 l).1 < 0
      · rw [if_pos hr] at h
        simp at h
      · rw [if_neg hr]
        have h0 : (parse_channels env cf 0 l).1 = 0 := by
          have := can_parse_channels_ret env cf 0 l
          omega
        have := can_parse_channels_ids env cf 0 l h0
        simpa [hl] using this

end Can2udp

namespace Iio2udp
open X2udp

theorem iio_parse_channels_ret (env : Env) (k : Nat) (l : List channel_setting) :
    (parse_channels env k l).1 = 0 ∨ (parse_channels env k l).1 = -1 := by
  induction l generalizing k with
  | nil => simp [parse_channels]
  | cons s rest ih =>
    unfold parse_channels
    split_ifs
    · simp
    · exact ih (k + 1)

theorem iio_parse_config_ids (env : Env) (config : daemon_config_t) (name : Option (List Nat))
    (w : World) (h : (parse_config env config name w).1 = 0) :
    (parse_config env config name w).2.1.channels.map
        (fun chc => (chc.udp_device_index, chc.udp_channel_index)) =
      (List.range (settings_of env name).length).map
        (fun i => ((((settings_of env name).get? i).bind (fun s => s.device_index)).getD 0,
          (((settings_of env name).get? i).bind (fun s => s.channel_index)).getD (i : Int))) := by
  unfold parse_config settings_of at *
  dsimp only at *
  cases hcf : env.config_read_file (name.getD IIO2UDP_DEFAULT_CONFIG_FILENAME) with
  | none =>
    rw [hcf] at h
    simp at h
  | some cf =>
    rw [hcf] at h
    cases hl : cf.channels with
    | none => simp [hl]
    | some l =>
      simp only [hl] at h ⊢
      by_cases hr : (parse_channels env 0 l).1 < 0
      · rw [if_pos hr] at h
        simp at h
      · rw [if_neg hr]
        have h0 : (parse_channels env 0 l).1 = 0 := by
          have := iio_parse_channels_ret env 0 l
          omega
        have := iio_parse_channels_ids env 0 l h0
        simpa [hl] using this

end Iio2udp

namespace X2udp

theorem nodup_range_cast (n : Nat) : ((List.range n).map (fun i : Nat => (i : Int))).Nodup :=
  (List.nodup_range n).map (fun _ _ h => Int.ofNat.inj h)

theorem nodup_range_pair (n : Nat) :
    ((List.range n).map (fun i : Nat => ((0 : Int), (i : Int)))).Nodup :=
  (List.nodup_range n).map (fun _ _ h => Int.ofNat.inj (Prod.mk.inj h).2)

end X2udp

/-- Counterexample to C20 as stated.  The configuration file `cf_same_index`
has two interfaces, the second with `interface_index = 0`; `parse_config`
accepts it and both channels have the interface index 0. -/
theorem parse_config_duplicate_identity_counterexample :
    (Can2udp.parse_config Can2udp.env_same_index Can2udp.config_0 none Can2udp.world_0).1 = 0 ∧
    (Can2udp.parse_config Can2udp.env_same_index Can2udp.config_0 none
      Can2udp.world_0).2.1.channels.map (fun chc => chc.udp_interface_index) = [0, 0] ∧
    ¬ ((Can2udp.parse_config Can2udp.env_same_index Can2udp.config_0 none
      Can2udp.world_0).2.1.channels.map (fun chc => chc.udp_interface_index)).Nodup := by
  decide

/-- C20, amended.  For every configuration `parse_config` accepts, the
identity of each channel is the index its element sets, and, where it sets
none, its position in the list (for a sensor channel the device index set, or
else 0, with the channel index set, or else the position).  So when no
element sets an index the identities are pairwise distinct; an index that is
set is taken as it is and not compared with the others. -/
theorem parse_config_channel_identities
    (envc : Can2udp.Env) (configc : Can2udp.daemon_config_t) (namec : Option (List Nat))
    (wc : Can2udp.World)
    (envi : Iio2udp.Env) (configi : Iio2udp.daemon_config_t) (namei : Option (List Nat))
    (wi : Iio2udp.World)
    (hc : (Can2udp.parse_config envc configc namec wc).1 = 0)
    (hi : (Iio2udp.parse_config envi configi namei wi).1 = 0) :
    ((Can2udp.parse_config envc configc namec wc).2.1.channels.map
        (fun chc => chc.udp_interface_index) =
      (List.range (Can2udp.settings_of envc namec).length).map
        (fun i => (((Can2udp.settings_of envc namec).get? i).bind
          (fun s => s.interface_index)).getD (i : Int)) ∧
      ((∀ s ∈ Can2udp.settings_of envc namec, s.interface_index = none) →
        ((Can2udp.parse_config envc configc namec wc).2.1.channels.map
          (fun chc => chc.udp_interface_index)).Nodup)) ∧
    ((Iio2udp.parse_config envi configi namei wi).2.1.channels.map
        (fun chc => (chc.udp_device_index, chc.udp_channel_index)) =
      (List.range (Iio2udp.settings_of envi namei).length).map
        (fun i => ((((Iio2udp.settings_of envi namei).get? i).bind
            (fun s => s.device_index)).getD 0,
          (((Iio2udp.settings_of envi namei).get? i).bind
            (fun s => s.channel_index)).getD (i : Int))) ∧
      ((∀ s ∈ Iio2udp.settings_of envi namei, s.device_index = none ∧ s.channel_index = none) →
        ((Iio2udp.parse_config envi configi namei wi).2.1.channels.map
          (fun chc => (chc.udp_device_index, chc.udp_channel_index))).Nodup)) := by
  have h1 := Can2udp.can_parse_config_ids envc configc namec wc hc
  have h2 := Iio2udp.iio_parse_config_ids envi configi namei wi hi
  refine ⟨⟨h1, ?_⟩, ⟨h2, ?_⟩⟩
  · intro hnone
    rw [h1]
    have : (List.range (Can2udp.settings_of envc namec).length).map
        (fun i => (((Can2udp.settings_of envc namec).get? i).bind
          (fun s => s.interface_index)).getD (i : Int)) =
        (List.range (Can2udp.settings_of envc namec).length).map (fun i : Nat => (i : Int)) := by
      apply List.map_congr_left
      intro i hi
      rw [List.mem_range] at hi
      rw [List.get?_eq_get hi]
      have hm : (Can2udp.settings_of envc namec)[i] ∈ Can2udp.settings_of envc namec :=
        List.getElem_mem _
      simp [hnone _ hm]
    rw [this]
    exact X2udp.nodup_range_cast _
  · intro hnone
    rw [h2]
    have : (List.range (Iio2udp.settings_of envi namei).length).map
        (fun i => ((((Iio2udp.settings_of envi namei).get? i).bind
            (fun s => s.device_index)).getD 0,
          (((Iio2udp.settings_of envi namei).get? i).bind
            (fun s => s.channel_index)).getD (i : Int))) =
        (List.range (Iio2udp.settings_of envi namei).length).map
          (fun i : Nat => ((0 : Int), (i : Int))) := by
      apply List.map_congr_left
      intro i hi
      rw [List.mem_range] at hi
      rw [List.get?_eq_get hi]
      have hm : (Iio2udp.settings_of envi namei)[i] ∈ Iio2udp.settings_of envi namei :=
        List.getElem_mem _
      simp [(hnone _ hm).1, (hnone _ hm).2]
    rw [this]
    exact X2udp.nodup_range_pair _

/-- Witness of C20, amended: the two configuration files `cf_two`, which set
no index, give the identities 0, 1 and (0, 0), (0, 1). -/
theorem parse_config_channel_identities_witness :
    (Can2udp.parse_config Can2udp.env_two Can2udp.config_0 none Can2udp.world_0).1 = 0 ∧
    (Iio2udp.parse_config Iio2udp.env_two Iio2udp.config_0 none Iio2udp.world_0).1 = 0 ∧
    (Can2udp.parse_config Can2udp.env_two Can2udp.config_0 none
      Can2udp.world_0).2.1.channels.map (fun chc => chc.udp_interface_index) = [0, 1] ∧
    ((Can2udp.parse_config Can2udp.env_two Can2udp.config_0 none
      Can2udp.world_0).2.1.channels.map (fun chc => chc.udp_interface_index)).Nodup ∧
    (Iio2udp.parse_config Iio2udp.env_two Iio2udp.config_0 none
      Iio2udp.world_0).2.1.channels.map
        (fun chc => (chc.udp_device_index, chc.udp_channel_index)) = [(0, 0), (0, 1)] ∧
    ((Iio2udp.parse_config Iio2udp.env_two Iio2udp.config_0 none
      Iio2udp.world_0).2.1.channels.map
        (fun chc => (chc.udp_device_index, chc.udp_channel_index))).Nodup :=
  ⟨by decide, by decide,
    ((parse_config_channel_identities Can2udp.env_two Can2udp.config_0 none Can2udp.world_0
      Iio2udp.env_two Iio2udp.config_0 none Iio2udp.world_0 (by decide) (by decide)).1.1).trans
      (by decide),
    (parse_config_channel_identities Can2udp.env_two Can2udp.config_0 none Can2udp.world_0
      Iio2udp.env_two Iio2udp.config_0 none Iio2udp.world_0 (by decide) (by decide)).1.2
      (by decide),
    ((parse_config_channel_identities Can2udp.env_two Can2udp.config_0 none Can2udp.world_0
      Iio2udp.env_two Iio2udp.config_0 none Iio2udp.world_0 (by decide) (by decide)).2.1).trans
      (by decide),
    (parse_config_channel_identities Can2udp.env_two Can2udp.config_0 none Can2udp.world_0
      Iio2udp.env_two Iio2udp.config_0 none Iio2udp.world_0 (by decide) (by decide)).2.2
      (by decide)⟩

namespace Can2udp
open X2udp

/-- The result of `system_check_channels_and_process` is never negative. -/
theorem can_check_ret (env : Env) (config : daemon_config_t) (fds : fd_set) (w : World) :
    ¬ (system_check_channels_and_process env config fds w).1 < 0 := by
  simp [system_check_channels_and_process]

/-- Where the part of the loop body after `select` goes. -/
theorem can_loop_dispatch_spec (env : Env) (config : daemon_config_t) (fds2 : fd_set)
    (w : World) :
    (loop_dispatch env config fds2 w).1 =
      (if env.daemon_signal_fd ∈ fds2 then
        (if env.sys_ret (w.events ++ [Event.daemon_signal_next]) < 0 then Outcome.finish
          else if env.sys_ret (w.events ++ [Event.daemon_signal_next]) = SIGINT ∨
              env.sys_ret (w.events ++ [Event.daemon_signal_next]) = SIGQUIT ∨
              env.sys_ret (w.events ++ [Event.daemon_signal_next]) = SIGTERM
            then Outcome.close_and_finish
          else Outcome.next)
      else Outcome.next) ∧
    (loop_dispatch env config fds2 w).2 =
      (if env.daemon_signal_fd ∈ fds2 then
        (if env.sys_ret (w.events ++ [Event.daemon_signal_next]) < 0 then
            (w.emit Event.daemon_signal_next).emit (Event.daemon_log LOG_ERR
              (LogMsg.call_failed (env.sys_ret (w.events ++ [Event.daemon_signal_next]))))
          else if env.sys_ret (w.events ++ [Event.daemon_signal_next]) = SIGINT ∨
              env.sys_ret (w.events ++ [Event.daemon_signal_next]) = SIGQUIT ∨
              env.sys_ret (w.events ++ [Event.daemon_signal_next]) = SIGTERM
            then (w.emit Event.daemon_signal_next).emit
              (Event.daemon_log LOG_WARNING LogMsg.got_signal)
          else (system_check_channels_and_process env config fds2
            (if env.sys_ret (w.events ++ [Event.daemon_signal_next]) = SIGHUP then
              (w.emit Event.daemon_signal_next).emit (Event.daemon_log LOG_INFO LogMsg.got_hup)
            else w.emit Event.daemon_signal_next)).2)
      else (system_check_channels_and_process env config fds2 w).2) := by
  simp only [loop_dispatch, World.call, FD_ISSET_ne_zero, if_neg (can_check_ret _ _ _ _)]
  constructor <;> split_ifs <;> rfl

/-- One pass through the loop body, by the result of `select`. -/
theorem can_loop_body_spec (env : Env) (config : daemon_config_t) (fds : fd_set) (w : World) :
    loop_body env config fds w =
      (if select_result env fds w = -EINTR then
        (Outcome.next, w.emit (Event.select fds))
      else if select_result env fds w < 0 then
        (Outcome.close_and_finish,
          (w.emit (Event.select fds)).emit (Event.daemon_log LOG_ERR LogMsg.select_error))
      else
        loop_dispatch env config (fds_after_select env fds w) (w.emit (Event.select fds))) := by
  simp only [loop_body, World.call, select_result]

/-- One more pass of the loop. -/
theorem can_main_loop_succ (env : Env) (config : daemon_config_t) (fds : fd_set) (fuel : Nat)
    (w : World) :
    main_loop env config fds (fuel + 1) w =
      (if (loop_body env config fds w).1 = Outcome.next then
        main_loop env config fds fuel (loop_body env config fds w).2
      else some (loop_body env config fds w)) := by
  simp only [main_loop]

/-- The pass of the loop after a `select` that did not fail, with the signal
read in it. -/
theorem can_loop_body_ready (env : Env) (config : daemon_config_t) (fds : fd_set) (w : World)
    (hsel : 0 ≤ select_result env fds w) :
    (loop_body env config fds w).1 =
      (if env.daemon_signal_fd ∈ fds_after_select env fds w then
        (if signal_read env fds w < 0 then Outcome.finish
          else if signal_read env fds w = SIGINT ∨ signal_read env fds w = SIGQUIT ∨
              signal_read env fds w = SIGTERM then Outcome.close_and_finish
          else Outcome.next)
      else Outcome.next) ∧
    (loop_body env config fds w).2 =
      (if env.daemon_signal_fd ∈ fds_after_select env fds w then
        (if signal_read env fds w < 0 then
            ((w.emit (Event.select fds)).emit Event.daemon_signal_next).emit
              (Event.daemon_log LOG_ERR (LogMsg.call_failed (signal_read env fds w)))
          else if signal_read env fds w = SIGINT ∨ signal_read env fds w = SIGQUIT ∨
              signal_read env fds w = SIGTERM then
            ((w.emit (Event.select fds)).emit Event.daemon_signal_next).emit
              (Event.daemon_log LOG_WARNING LogMsg.got_signal)
          else (system_check_channels_and_process env config (fds_after_select env fds w)
            (world_after_signal env fds w)).2)
      else (system_check_channels_and_process env config (fds_after_select env fds w)
        (w.emit (Event.select fds))).2) := by
  have h1 : ¬ select_result env fds w = -EINTR := by
    simp only [EINTR]
    omega
  have h2 : ¬ select_result env fds w < 0 := by omega
  rw [can_loop_body_spec, if_neg h1, if_neg h2]
  have hd := can_loop_dispatch_spec env config (fds_after_select env fds w)
    (w.emit (Event.select fds))
  simp only [World.emit] at hd
  simp only [signal_read, world_after_signal, World.emit]
  exact hd

end Can2udp

namespace Iio2udp
open X2udp

/-- The result of `system_check_channels_and_process` is never negative. -/
theorem iio_check_ret (env : Env) (config : daemon_config_t) (fds : fd_set) (w : World) :
    ¬ (system_check_channels_and_process env config fds w).1 < 0 := by
  simp [system_check_channels_and_process]

/-- Where the part of the loop body after `select` goes. -/
theorem iio_loop_dispatch_spec (env : Env) (config : daemon_config_t) (fds2 : fd_set)
    (w : World) :
    (loop_dispatch env config fds2 w).1 =
      (if env.daemon_signal_fd ∈ fds2 then
        (if env.sys_ret (w.events ++ [Event.daemon_signal_next]) < 0 then Outcome.finish
          else if env.sys_ret (w.events ++ [Event.daemon_signal_next]) = SIGINT ∨
              env.sys_ret (w.events ++ [Event.daemon_signal_next]) = SIGQUIT ∨
              env.sys_ret (w.events ++ [Event.daemon_signal_next]) = SIGTERM
            then Outcome.close_and_finish
          else Outcome.next)
      else Outcome.next) ∧
    (loop_dispatch env config fds2 w).2 =
      (if env.daemon_signal_fd ∈ fds2 then
        (if env.sys_ret (w.events ++ [Event.daemon_signal_next]) < 0 then
            (w.emit Event.daemon_signal_next).emit (Event.daemon_log LOG_ERR
              (LogMsg.call_failed (env.sys_ret (w.events ++ [Event.daemon_signal_next]))))
          else if env.sys_ret (w.events ++ [Event.daemon_signal_next]) = SIGINT ∨
              env.sys_ret (w.events ++ [Event.daemon_signal_next]) = SIGQUIT ∨
              env.sys_ret (w.events ++ [Event.daemon_signal_next]) = SIGTERM
            then (w.emit Event.daemon_signal_next).emit
              (Event.daemon_log LOG_WARNING LogMsg.got_signal)
          else (system_check_channels_and_process env config fds2
            (if env.sys_ret (w.events ++ [Event.daemon_signal_next]) = SIGHUP then
              (w.emit Event.daemon_signal_next).emit (Event.daemon_log LOG_INFO LogMsg.got_hup)
            else w.emit Event.daemon_signal_next)).2)
      else (system_check_channels_and_process env config fds2 w).2) := by
  simp only [loop_dispatch, World.call, FD_ISSET_ne_zero, if_neg (iio_check_ret _ _ _ _)]
  constructor <;> split_ifs <;> rfl

/-- One pass through the loop body, by the result of `select`. -/
theorem iio_loop_body_spec (env : Env) (config : daemon_config_t) (fds : fd_set) (w : World) :
    loop_body env config fds w =
      (if select_result env fds w = -EINTR then
        (Outcome.next, w.emit (Event.select fds))
      else if select_result env fds w < 0 then
        (Outcome.close_and_finish,
          (w.emit (Event.select fds)).emit (Event.daemon_log LOG_ERR LogMsg.select_error))
      else
        loop_dispatch env config (fds_after_select env fds w) (w.emit (Event.select fds))) := by
  simp only [loop_body, World.call, select_result]

/-- One more pass of the loop. -/
theorem iio_main_loop_succ (env : Env) (config : daemon_config_t) (fds : fd_set) (fuel : Nat)
    (w : World) :
    main_loop env config fds (fuel + 1) w =
      (if (loop_body env config fds w).1 = Outcome.next then
        main_loop env config fds fuel (loop_body env config fds w).2
      else some (loop_body env config fds w)) := by
  simp only [main_loop]

/-- The pass of the loop after a `select` that did not fail, with the signal
read in it. -/
theorem iio_loop_body_ready (env : Env) (config : daemon_config_t) (fds : fd_set) (w : World)
    (hsel : 0 ≤ select_result env fds w) :
    (loop_body env config fds w).1 =
      (if env.daemon_signal_fd ∈ fds_after_select env fds w then
        (if signal_read env fds w < 0 then Outcome.finish
          else if signal_read env fds w = SIGINT ∨ signal_read env fds w = SIGQUIT ∨
              signal_read env fds w = SIGTERM then Outcome.close_and_finish
          else Outcome.next)
      else Outcome.next) ∧
    (loop_body env config fds w).2 =
      (if env.daemon_signal_fd ∈ fds_after_select env fds w then
        (if signal_read env fds w < 0 then
            ((w.emit (Event.select fds)).emit Event.daemon_signal_next).emit
              (Event.daemon_log LOG_ERR (LogMsg.call_failed (signal_read env fds w)))
          else if signal_read env fds w = SIGINT ∨ signal_read env fds w = SIGQUIT ∨
              signal_read env fds w = SIGTERM then
            ((w.emit (Event.select fds)).emit Event.daemon_signal_next).emit
              (Event.daemon_log LOG_WARNING LogMsg.got_signal)
          else (system_check_channels_and_process env config (fds_after_select env fds w)
            (world_after_signal env fds w)).2)
      else (system_check_channels_and_process env config (fds_after_select env fds w)
        (w.emit (Event.select fds))).2) := by
  have h1 : ¬ select_result env fds w = -EINTR := by
    simp only [EINTR]
    omega
  have h2 : ¬ select_result env fds w < 0 := by omega
  rw [iio_loop_body_spec, if_neg h1, if_neg h2]
  have hd := iio_loop_dispatch_spec env config (fds_after_select env fds w)
    (w.emit (Event.select fds))
  simp only [World.emit] at hd
  simp only [signal_read, world_after_signal, World.emit]
  exact hd

end Iio2udp

/-- C22. In a pass of the loop of `main` whose `select` returned a value that is
not negative and in which the signal, if the signal descriptor is ready, was
read with success, control goes to `close_and_finish` (where `system_close`
runs and the loop is over) exactly when the signal descriptor is ready and the
signal is SIGINT, SIGQUIT or SIGTERM.  For SIGHUP and every other signal, and
when the signal descriptor is not ready, the pass goes on to
`system_check_channels_and_process` and the loop takes its next pass.  This
holds in can2udp and in iio2udp; on the hosts `env_sigterm` and `env_sighup`
the two cases are run on a ready channel and a ready signal descriptor. -/
theorem termination_signal_leaves_the_loop :
    (∀ (env : Can2udp.Env) (config : Can2udp.daemon_config_t) (fds : X2udp.fd_set) (w : Can2udp.World),
      0 ≤ Can2udp.select_result env fds w →
      (env.daemon_signal_fd ∈ Can2udp.fds_after_select env fds w →
        0 ≤ Can2udp.signal_read env fds w) →
      (((Can2udp.loop_body env config fds w).1 = Can2udp.Outcome.close_and_finish ↔
          (env.daemon_signal_fd ∈ Can2udp.fds_after_select env fds w ∧
            (Can2udp.signal_read env fds w = X2udp.SIGINT ∨
              Can2udp.signal_read env fds w = X2udp.SIGQUIT ∨
              Can2udp.signal_read env fds w = X2udp.SIGTERM))) ∧
        ((Can2udp.loop_body env config fds w).1 = Can2udp.Outcome.next ↔
          ¬ (env.daemon_signal_fd ∈ Can2udp.fds_after_select env fds w ∧
            (Can2udp.signal_read env fds w = X2udp.SIGINT ∨
              Can2udp.signal_read env fds w = X2udp.SIGQUIT ∨
              Can2udp.signal_read env fds w = X2udp.SIGTERM))) ∧
        (¬ (env.daemon_signal_fd ∈ Can2udp.fds_after_select env fds w ∧
            (Can2udp.signal_read env fds w = X2udp.SIGINT ∨
              Can2udp.signal_read env fds w = X2udp.SIGQUIT ∨
              Can2udp.signal_read env fds w = X2udp.SIGTERM)) →
          (Can2udp.loop_body env config fds w).2 =
            (Can2udp.system_check_channels_and_process env config
              (Can2udp.fds_after_select env fds w)
              (if env.daemon_signal_fd ∈ Can2udp.fds_after_select env fds w
                then Can2udp.world_after_signal env fds w
                else w.emit (Can2udp.Event.select fds))).2) ∧
        (∀ fuel : Nat, Can2udp.main_loop env config fds (fuel + 1) w =
          (if env.daemon_signal_fd ∈ Can2udp.fds_after_select env fds w ∧
              (Can2udp.signal_read env fds w = X2udp.SIGINT ∨
                Can2udp.signal_read env fds w = X2udp.SIGQUIT ∨
                Can2udp.signal_read env fds w = X2udp.SIGTERM)
            then some (Can2udp.Outcome.close_and_finish, (Can2udp.loop_body env config fds w).2)
            else Can2udp.main_loop env config fds fuel (Can2udp.loop_body env config fds w).2)) ∧
        (∀ (run_daemon : Int) (w1 : Can2udp.World),
          Can2udp.after_loop env config fds run_daemon (Can2udp.Outcome.close_and_finish, w1) =
            Can2udp.main_finish env run_daemon (Can2udp.system_close env config fds w1).2.2))) ∧
    (∀ (env : Iio2udp.Env) (config : Iio2udp.daemon_config_t) (fds : X2udp.fd_set) (w : Iio2udp.World),
      0 ≤ Iio2udp.select_result env fds w →
      (env.daemon_signal_fd ∈ Iio2udp.fds_after_select env fds w →
        0 ≤ Iio2udp.signal_read env fds w) →
      (((Iio2udp.loop_body env config fds w).1 = Iio2udp.Outcome.close_and_finish ↔
          (env.daemon_signal_fd ∈ Iio2udp.fds_after_select env fds w ∧
            (Iio2udp.signal_read env fds w = X2udp.SIGINT ∨
              Iio2udp.signal_read env fds w = X2udp.SIGQUIT ∨
              Iio2udp.signal_read env fds w = X2udp.SIGTERM))) ∧
        ((Iio2udp.loop_body env config fds w).1 = Iio2udp.Outcome.next ↔
          ¬ (env.daemon_signal_fd ∈ Iio2udp.fds_after_select env fds w ∧
            (Iio2udp.signal_read env fds w = X2udp.SIGINT ∨
              Iio2udp.signal_read env fds w = X2udp.SIGQUIT ∨
              Iio2udp.signal_read env fds w = X2udp.SIGTERM))) ∧
        (¬ (env.daemon_signal_fd ∈ Iio2udp.fds_after_select env fds w ∧
            (Iio2udp.signal_read env fds w = X2udp.SIGINT ∨
              Iio2udp.signal_read env fds w = X2udp.SIGQUIT ∨
              Iio2udp.signal_read env fds w = X2udp.SIGTERM)) →
          (Iio2udp.loop_body env config fds w).2 =
            (Iio2udp.system_check_channels_and_process env config
              (Iio2udp.fds_after_select env fds w)
              (if env.daemon_signal_fd ∈ Iio2udp.fds_after_select env fds w
                then Iio2udp.world_after_signal env fds w
                else w.emit (Iio2udp.Event.select fds))).2) ∧
        (∀ fuel : Nat, Iio2udp.main_loop env config fds (fuel + 1) w =
          (if env.daemon_signal_fd ∈ Iio2udp.fds_after_select env fds w ∧
              (Iio2udp.signal_read env fds w = X2udp.SIGINT ∨
                Iio2udp.signal_read env fds w = X2udp.SIGQUIT ∨
                Iio2udp.signal_read env fds w = X2udp.SIGTERM)
            then some (Iio2udp.Outcome.close_and_finish, (Iio2udp.loop_body env config fds w).2)
            else Iio2udp.main_loop env config fds fuel (Iio2udp.loop_body env config fds w).2)) ∧
        (∀ (run_daemon : Int) (w1 : Iio2udp.World),
          Iio2udp.after_loop env config fds run_daemon (Iio2udp.Outcome.close_and_finish, w1) =
            Iio2udp.main_finish env run_daemon (Iio2udp.system_close env config fds w1).2.2))) ∧
    (Can2udp.select_result Can2udp.env_sigterm [6, 3] Can2udp.world_0 = 1 ∧
      Can2udp.signal_read Can2udp.env_sigterm [6, 3] Can2udp.world_0 = X2udp.SIGTERM ∧
      (Can2udp.loop_body Can2udp.env_sigterm Can2udp.config_1 [6, 3] Can2udp.world_0).1 =
        Can2udp.Outcome.close_and_finish ∧
      Can2udp.reads (Can2udp.loop_body Can2udp.env_sigterm Can2udp.config_1 [6, 3]
        Can2udp.world_0).2.events = [] ∧
      Can2udp.signal_read Can2udp.env_sighup [6, 3] Can2udp.world_0 = X2udp.SIGHUP ∧
      (Can2udp.loop_body Can2udp.env_sighup Can2udp.config_1 [6, 3] Can2udp.world_0).1 =
        Can2udp.Outcome.next ∧
      Can2udp.reads (Can2udp.loop_body Can2udp.env_sighup Can2udp.config_1 [6, 3]
        Can2udp.world_0).2.events = [3]) := by
  refine ⟨?_, ?_, by decide⟩
  · intro env config fds w hsel hsig
    obtain ⟨h1, h2⟩ := Can2udp.can_loop_body_ready env config fds w hsel
    by_cases hr : env.daemon_signal_fd ∈ Can2udp.fds_after_select env fds w
    · have hs : ¬ Can2udp.signal_read env fds w < 0 := not_lt.2 (hsig hr)
      rw [if_pos hr, if_neg hs] at h1 h2
      by_cases ht : Can2udp.signal_read env fds w = X2udp.SIGINT ∨
          Can2udp.signal_read env fds w = X2udp.SIGQUIT ∨
          Can2udp.signal_read env fds w = X2udp.SIGTERM
      · rw [if_pos ht] at h1 h2
        refine ⟨?_, ?_, ?_, ?_, ?_⟩
        · rw [h1]
          exact ⟨fun _ => ⟨hr, ht⟩, fun _ => rfl⟩
        · rw [h1]
          constructor
          · intro hc
            cases hc
          · intro hc
            exact absurd ⟨hr, ht⟩ hc
        · intro hc
          exact absurd ⟨hr, ht⟩ hc
        · intro fuel
          rw [Can2udp.can_main_loop_succ, h1, if_pos (And.intro hr ht)]
          simp only [reduceCtorEq, if_false]
          rw [← h1]
        · intro run_daemon w1
          rfl
      · rw [if_neg ht] at h1 h2
        have hn : ¬ (env.daemon_signal_fd ∈ Can2udp.fds_after_select env fds w ∧
            (Can2udp.signal_read env fds w = X2udp.SIGINT ∨
              Can2udp.signal_read env fds w = X2udp.SIGQUIT ∨
              Can2udp.signal_read env fds w = X2udp.SIGTERM)) := fun hc => ht hc.2
        refine ⟨?_, ?_, ?_, ?_, ?_⟩
        · rw [h1]
          constructor
          · intro hc
            cases hc
          · intro hc
            exact absurd hc hn
        · rw [h1]
          exact ⟨fun _ => hn, fun _ => rfl⟩
        · intro _
          rw [h2, if_pos hr]
        · intro fuel
          rw [Can2udp.can_main_loop_succ, h1, if_neg hn]
          simp only [if_true]
        · intro run_daemon w1
          rfl
    · rw [if_neg hr] at h1 h2
      have hn : ¬ (env.daemon_signal_fd ∈ Can2udp.fds_after_select env fds w ∧
          (Can2udp.signal_read env fds w = X2udp.SIGINT ∨
            Can2udp.signal_read env fds w = X2udp.SIGQUIT ∨
            Can2udp.signal_read env fds w = X2udp.SIGTERM)) := fun hc => hr hc.1
      refine ⟨?_, ?_, ?_, ?_, ?_⟩
      · rw [h1]
        constructor
        · intro hc
          cases hc
        · intro hc
          exact absurd hc hn
      · rw [h1]
        exact ⟨fun _ => hn, fun _ => rfl⟩
      · intro _
        rw [h2, if_neg hr]
      · intro fuel
        rw [Can2udp.can_main_loop_succ, h1, if_neg hn]
        simp only [if_true]
      · intro run_daemon w1
        rfl
  · intro env config fds w hsel hsig
    obtain ⟨h1, h2⟩ := Iio2udp.iio_loop_body_ready env config fds w hsel
    by_cases hr : env.daemon_signal_fd ∈ Iio2udp.fds_after_select env fds w
    · have hs : ¬ Iio2udp.signal_read env fds w < 0 := not_lt.2 (hsig hr)
      rw [if_pos hr, if_neg hs] at h1 h2
      by_cases ht : Iio2udp.signal_read env fds w = X2udp.SIGINT ∨
          Iio2udp.signal_read env fds w = X2udp.SIGQUIT ∨
          Iio2udp.signal_read env fds w = X2udp.SIGTERM
      · rw [if_pos ht] at h1 h2
        refine ⟨?_, ?_, ?_, ?_, ?_⟩
        · rw [h1]
          exact ⟨fun _ => ⟨hr, ht⟩, fun _ => rfl⟩
        · rw [h1]
          constructor
          · intro hc
            cases hc
          · intro hc
            exact absurd ⟨hr, ht⟩ hc
        · intro hc
          exact absurd ⟨hr, ht⟩ hc
        · intro fuel
          rw [Iio2udp.iio_main_loop_succ, h1, if_pos (And.intro hr ht)]
          simp only [reduceCtorEq, if_false]
          rw [← h1]
        · intro run_daemon w1
          rfl
      · rw [if_neg ht] at h1 h2
        have hn : ¬ (env.daemon_signal_fd ∈ Iio2udp.fds_after_select env fds w ∧
            (Iio2udp.signal_read env fds w = X2udp.SIGINT ∨
              Iio2udp.signal_read env fds w = X2udp.SIGQUIT ∨
              Iio2udp.signal_read env fds w = X2udp.SIGTERM)) := fun hc => ht hc.2
        refine ⟨?_, ?_, ?_, ?_, ?_⟩
        · rw [h1]
          constructor
          · intro hc
            cases hc
          · intro hc
            exact absurd hc hn
        · rw [h1]
          exact ⟨fun _ => hn, fun _ => rfl⟩
        · intro _
          rw [h2, if_pos hr]
        · intro fuel
          rw [Iio2udp.iio_main_loop_succ, h1, if_neg hn]
          simp only [if_true]
        · intro run_daemon w1
          rfl
    · rw [if_neg hr] at h1 h2
      have hn : ¬ (env.daemon_signal_fd ∈ Iio2udp.fds_after_select env fds w ∧
          (Iio2udp.signal_read env fds w = X2udp.SIGINT ∨
            Iio2udp.signal_read env fds w = X2udp.SIGQUIT ∨
            Iio2udp.signal_read env fds w = X2udp.SIGTERM)) := fun hc => hr hc.1
      refine ⟨?_, ?_, ?_, ?_, ?_⟩
      · rw [h1]
        constructor
        · intro hc
          cases hc
        · intro hc
          exact absurd hc hn
      · rw [h1]
        exact ⟨fun _ => hn, fun _ => rfl⟩
      · intro _
        rw [h2, if_neg hr]
      · intro fuel
        rw [Iio2udp.iio_main_loop_succ, h1, if_neg hn]
        simp only [if_true]
      · intro run_daemon w1
        rfl

/-- C26. In the loop of `main`, by the value `select` returns: on -4 (`-EINTR`)
and on no other value the pass ends there and the wait is made again with
nothing processed; on every other negative value, -1 among them, the loop is
left for `close_and_finish`, where `system_close` runs; on a value that is not
negative the pass goes on to the signal and the channels.  This holds in
can2udp and in iio2udp. -/
theorem select_result_decides_the_pass :
    (∀ (env : Can2udp.Env) (config : Can2udp.daemon_config_t) (fds : X2udp.fd_set) (w : Can2udp.World),
      Can2udp.loop_body env config fds w =
        (if Can2udp.select_result env fds w = -4 then
          (Can2udp.Outcome.next, w.emit (Can2udp.Event.select fds))
        else if Can2udp.select_result env fds w < 0 then
          (Can2udp.Outcome.close_and_finish,
            (w.emit (Can2udp.Event.select fds)).emit
              (Can2udp.Event.daemon_log X2udp.LOG_ERR Can2udp.LogMsg.select_error))
        else
          Can2udp.loop_dispatch env config (Can2udp.fds_after_select env fds w)
            (w.emit (Can2udp.Event.select fds))) ∧
      (∀ fuel : Nat, Can2udp.main_loop env config fds (fuel + 1) w =
        (if Can2udp.select_result env fds w = -4 then
          Can2udp.main_loop env config fds fuel (w.emit (Can2udp.Event.select fds))
        else if Can2udp.select_result env fds w < 0 then
          some (Can2udp.Outcome.close_and_finish,
            (w.emit (Can2udp.Event.select fds)).emit
              (Can2udp.Event.daemon_log X2udp.LOG_ERR Can2udp.LogMsg.select_error))
        else if (Can2udp.loop_dispatch env config (Can2udp.fds_after_select env fds w)
            (w.emit (Can2udp.Event.select fds))).1 = Can2udp.Outcome.next then
          Can2udp.main_loop env config fds fuel
            (Can2udp.loop_dispatch env config (Can2udp.fds_after_select env fds w)
              (w.emit (Can2udp.Event.select fds))).2
        else
          some (Can2udp.loop_dispatch env config (Can2udp.fds_after_select env fds w)
            (w.emit (Can2udp.Event.select fds))))) ∧
      (Can2udp.select_result env fds w = -1 →
        (Can2udp.loop_body env config fds w).1 = Can2udp.Outcome.close_and_finish) ∧
      (∀ (run_daemon : Int) (w1 : Can2udp.World),
        Can2udp.after_loop env config fds run_daemon (Can2udp.Outcome.close_and_finish, w1) =
          Can2udp.main_finish env run_daemon (Can2udp.system_close env config fds w1).2.2)) ∧
    (∀ (env : Iio2udp.Env) (config : Iio2udp.daemon_config_t) (fds : X2udp.fd_set) (w : Iio2udp.World),
      Iio2udp.loop_body env config fds w =
        (if Iio2udp.select_result env fds w = -4 then
          (Iio2udp.Outcome.next, w.emit (Iio2udp.Event.select fds))
        else if Iio2udp.select_result env fds w < 0 then
          (Iio2udp.Outcome.close_and_finish,
            (w.emit (Iio2udp.Event.select fds)).emit
              (Iio2udp.Event.daemon_log X2udp.LOG_ERR Iio2udp.LogMsg.select_error))
        else
          Iio2udp.loop_dispatch env config (Iio2udp.fds_after_select env fds w)
            (w.emit (Iio2udp.Event.select fds))) ∧
      (∀ fuel : Nat, Iio2udp.main_loop env config fds (fuel + 1) w =
        (if Iio2udp.select_result env fds w = -4 then
          Iio2udp.main_loop env config fds fuel (w.emit (Iio2udp.Event.select fds))
        else if Iio2udp.select_result env fds w < 0 then
          some (Iio2udp.Outcome.close_and_finish,
            (w.emit (Iio2udp.Event.select fds)).emit
              (Iio2udp.Event.daemon_log X2udp.LOG_ERR Iio2udp.LogMsg.select_error))
        else if (Iio2udp.loop_dispatch env config (Iio2udp.fds_after_select env fds w)
            (w.emit (Iio2udp.Event.select fds))).1 = Iio2udp.Outcome.next then
          Iio2udp.main_loop env config fds fuel
            (Iio2udp.loop_dispatch env config (Iio2udp.fds_after_select env fds w)
              (w.emit (Iio2udp.Event.select fds))).2
        else
          some (Iio2udp.loop_dispatch env config (Iio2udp.fds_after_select env fds w)
            (w.emit (Iio2udp.Event.select fds))))) ∧
      (Iio2udp.select_result env fds w = -1 →
        (Iio2udp.loop_body env config fds w).1 = Iio2udp.Outcome.close_and_finish) ∧
      (∀ (run_daemon : Int) (w1 : Iio2udp.World),
        Iio2udp.after_loop env config fds run_daemon (Iio2udp.Outcome.close_and_finish, w1) =
          Iio2udp.main_finish env run_daemon (Iio2udp.system_close env config fds w1).2.2)) := by
  constructor
  · intro env config fds w
    have hb : Can2udp.loop_body env config fds w =
        (if Can2udp.select_result env fds w = -4 then
          (Can2udp.Outcome.next, w.emit (Can2udp.Event.select fds))
        else if Can2udp.select_result env fds w < 0 then
          (Can2udp.Outcome.close_and_finish,
            (w.emit (Can2udp.Event.select fds)).emit
              (Can2udp.Event.daemon_log X2udp.LOG_ERR Can2udp.LogMsg.select_error))
        else
          Can2udp.loop_dispatch env config (Can2udp.fds_after_select env fds w)
            (w.emit (Can2udp.Event.select fds))) :=
      Can2udp.can_loop_body_spec env config fds w
    refine ⟨hb, ?_, ?_, ?_⟩
    · intro fuel
      rw [Can2udp.can_main_loop_succ, hb]
      split_ifs <;> simp_all
    · intro h1
      rw [hb, h1]
      simp
    · intro run_daemon w1
      rfl
  · intro env config fds w
    have hb : Iio2udp.loop_body env config fds w =
        (if Iio2udp.select_result env fds w = -4 then
          (Iio2udp.Outcome.next, w.emit (Iio2udp.Event.select fds))
        else if Iio2udp.select_result env fds w < 0 then
          (Iio2udp.Outcome.close_and_finish,
            (w.emit (Iio2udp.Event.select fds)).emit
              (Iio2udp.Event.daemon_log X2udp.LOG_ERR Iio2udp.LogMsg.select_error))
        else
          Iio2udp.loop_dispatch env config (Iio2udp.fds_after_select env fds w)
            (w.emit (Iio2udp.Event.select fds))) :=
      Iio2udp.iio_loop_body_spec env config fds w
    refine ⟨hb, ?_, ?_, ?_⟩
    · intro fuel
      rw [Iio2udp.iio_main_loop_succ, hb]
      split_ifs <;> simp_all
    · intro h1
      rw [hb, h1]
      simp
    · intro run_daemon w1
      rfl

namespace Can2udp
open X2udp

theorem can_retvals_sent_append (a b : List Event) :
    retvals_sent (a ++ b) = retvals_sent a ++ retvals_sent b := by
  induction a with
  | nil => rfl
  | cons e es ih => cases e <;> simp [retvals_sent, ih]

/-- The label `finish` gives the exit status 0. -/
theorem can_main_finish_status (env : Env) (run_daemon : Int) (w : World) :
    (main_finish env run_daemon w).1 = 0 := by
  unfold main_finish
  split_ifs <;> rfl

/-- The daemon block of `main` has no other exit status than 0. -/
theorem can_main_daemon_status (env : Env) (config : daemon_config_t) (run_daemon : Int)
    (config_file_name : List Nat) (fuel : Nat) (w : World) (r : Int × World)
    (h : main_daemon env config run_daemon config_file_name fuel w = some r) : r.1 = 0 := by
  simp only [main_daemon] at h
  split_ifs at h
  all_goals first
    | (simp only [Option.some.injEq] at h
       rw [← h]
       simp only [run_or_retval_failed]
       exact can_main_finish_status _ _ _)
    | (simp only [Option.map_eq_some'] at h
       obtain ⟨l, -, hl⟩ := h
       rw [← hl]
       unfold after_loop
       split_ifs <;> exact can_main_finish_status _ _ _)

end Can2udp

/-- C21, as the code has it.  The process that runs `system_init` leaves `main`
through the label `finish`, which returns 0: the daemon block has no other exit
status.  On the host `env_no_config` the configuration file cannot be read and
`system_init` returns -1; run in the foreground (`-t`) `main` returns 0, and
run as a daemon the child sends the value 10 to its parent and returns 0,
while the parent returns the 10 it receives. -/
theorem main_returns_zero_after_failed_startup :
    (∀ (env : Can2udp.Env) (config : Can2udp.daemon_config_t) (run_daemon : Int)
        (config_file_name : List Nat) (fuel : Nat) (w : Can2udp.World) (r : Int × Can2udp.World),
      Can2udp.main_daemon env config run_daemon config_file_name fuel w = some r → r.1 = 0) ∧
    (∀ w : Can2udp.World,
      (Can2udp.system_init Can2udp.env_no_config Can2udp.config_0 []
        (some Can2udp.CAN2UDP_DEFAULT_CONFIG_FILENAME) w).1 = -1) ∧
    (∀ fuel : Nat,
      (Can2udp.main Can2udp.env_no_config Can2udp.config_0 [X2udp.Opt.t] fuel
        Can2udp.world_0).map (fun r => (r.1, Can2udp.retvals_sent r.2.events)) =
        some (0, [])) ∧
    (∀ fuel : Nat,
      (Can2udp.main Can2udp.env_no_config Can2udp.config_0 [] fuel
        Can2udp.world_0).map (fun r => (r.1, Can2udp.retvals_sent r.2.events)) =
        some (0, [10, 255])) ∧
    (∀ fuel : Nat,
      (Can2udp.main Can2udp.env_parent Can2udp.config_0 [] fuel
        Can2udp.world_0).map (fun r => r.1) = some 10) := by
  refine ⟨Can2udp.can_main_daemon_status, ?_, ?_, ?_, ?_⟩
  · intro w
    rfl
  · intro fuel
    rfl
  · intro fuel
    rfl
  · intro fuel
    rfl

namespace Iio2udp
open X2udp

theorem iio_timers_set_append (a b : List Event) :
    timers_set (a ++ b) = timers_set a ++ timers_set b := by
  induction a with
  | nil => rfl
  | cons e es ih => cases e <;> simp [timers_set, ih]

theorem sample_timespec_nonneg (m : Int) (hm : 0 ≤ m) :
    sample_timespec m = { tv_sec := m / 1000, tv_nsec := (m % 1000) * 1000000 } := by
  unfold sample_timespec
  rw [Int.fdiv_eq_ediv m (by norm_num : (0 : Int) ≤ 1000),
    Int.tmod_eq_emod (by omega) (by norm_num)]
  congr 1
  omega

theorem iio_channel_init_timers (env : Env) (context : Option Nat) (chc : channel)
    (fds : fd_set) (w : World) :
    ∃ l : List (Int × itimerspec),
      timers_set (channel_init env context chc fds w).2.2.2.events = timers_set w.events ++ l ∧
      (∀ x ∈ l, x.2.it_value = sample_timespec chc.sample_time ∧
        x.2.it_interval = sample_timespec chc.sample_time) ∧
      ((channel_init env context chc fds w).1 = 0 → l.length = 1) := by
  simp only [channel_init, channel_init_error, World.call, World.emit]
  split_ifs <;>
    first
    | (refine ⟨[], ?_, ?_, ?_⟩ <;> simp [iio_timers_set_append, timers_set] <;> done)
    | (refine ⟨[((channel_init env context chc fds w).2.1.timerfd,
          ⟨sample_timespec chc.sample_time, sample_timespec chc.sample_time⟩)],
        ?_, ?_, ?_⟩ <;>
        simp only [channel_init, channel_init_error, World.call, World.emit, *, if_true,
          if_false, reduceIte] <;>
        simp [iio_timers_set_append, timers_set])

end Iio2udp

namespace Can2udp
open X2udp

theorem can_filters_installed_append (a b : List Event) :
    filters_installed (a ++ b) = filters_installed a ++ filters_installed b := by
  induction a with
  | nil => rfl
  | cons e es ih => cases e <;> simp [filters_installed, ih]

theorem range_map_getD_eq_take (l : List Nat) (d : Nat) (g : Nat → can_filter) (n : Nat)
    (hn : n ≤ l.length) :
    (List.range n).map (fun j => g (l.getD j d)) = (l.take n).map g := by
  apply List.ext_getElem
  · simp [hn]
  · intro i h1 h2
    simp at h1 h2
    simp [List.getD_eq_getElem?_getD, List.getElem?_eq_getElem (show i < l.length by omega)]

theorem can_channel_init_filters_installed (env : Env) (chc : channel) (w : World)
    (fl : List Nat) (hf : chc.filters = some fl) (hl : chc.filters_length = fl.length) :
    filters_installed (channel_init_filters env chc w).events =
      filters_installed w.events ++
        [(chc.raw_socket, (fl.take CAN_RAW_FILTER_MAX).map
          (fun f => { can_id := f, can_mask := CAN_EFF_MASK }))] := by
  unfold channel_init_filters
  rw [hf]
  have hr : ∀ n, n ≤ fl.length →
      (List.range n).map (fun j => ({ can_mask := if fl.getD j 0 > CAN_SFF_MASK then
        CAN_EFF_MASK else CAN_EFF_MASK, can_id := fl.getD j 0 } : can_filter)) =
      (fl.take n).map (fun f => { can_id := f, can_mask := CAN_EFF_MASK }) := by
    intro n hn
    rw [← range_map_getD_eq_take fl 0 _ n hn]
    simp
  simp only [World.call, World.emit]
  by_cases hlim : chc.filters_length > CAN_RAW_FILTER_MAX
  · have h1 : CAN_RAW_FILTER_MAX ≤ fl.length := by omega
    simp only [hlim, decide_True, if_true]
    rw [hr _ h1]
    split_ifs <;> simp [can_filters_installed_append, filters_installed]
  · have h1 : List.take CAN_RAW_FILTER_MAX fl = List.take chc.filters_length fl := by
      rw [hl, List.take_length]
      exact List.take_of_length_le (by omega)
    simp only [hlim, decide_False, if_false, Bool.false_eq_true]
    rw [hr _ (le_of_eq hl), h1]
    split_ifs <;> simp [can_filters_installed_append, filters_installed]

theorem can_channel_init_filters_of_init (env : Env) (chc : channel) (fds : fd_set) (w : World)
    (fl : List Nat) (hf : chc.filters = some fl) (hl : chc.filters_length = fl.length) :
    ∃ l : List (Int × List can_filter),
      filters_installed (channel_init env chc fds w).2.2.2.events =
        filters_installed w.events ++ l ∧
      (∀ x ∈ l, x.2 = (fl.take CAN_RAW_FILTER_MAX).map
        (fun f => { can_id := f, can_mask := CAN_EFF_MASK })) ∧
      ((channel_init env chc fds w).1 = 0 → l.length = 1) := by
  have key : ∀ (w3 : World) (s : Int),
      filters_installed (channel_init_filters env { chc with raw_socket := s } w3).events =
        filters_installed w3.events ++
          [(s, (fl.take CAN_RAW_FILTER_MAX).map
            (fun f => { can_id := f, can_mask := CAN_EFF_MASK }))] :=
    fun w3 s => can_channel_init_filters_installed env { chc with raw_socket := s } w3 fl hf hl
  simp only [channel_init, channel_init_error, World.call, World.emit]
  split_ifs <;>
    first
    | (refine ⟨[], ?_, ?_, ?_⟩ <;>
        simp [can_filters_installed_append, filters_installed] <;> done)
    | (refine ⟨[(env.sys_ret (w.events ++ [Event.socket_can]),
          (fl.take CAN_RAW_FILTER_MAX).map
            (fun f => { can_id := f, can_mask := CAN_EFF_MASK }))], ?_, ?_, ?_⟩ <;>
        simp [can_filters_installed_append, filters_installed, key])

theorem can_stale_bytes (env : Env) (chc : channel) (w : World)
    (hr : read_result env chc w = (CAN_MTU : Int)) (hs : (env.stack w.events).length = 72) :
    field 20 56 (packet_of env chc w) = (env.stack w.events).drop 16 := by
  have h1 : ∀ l : List Nat, field 20 56 l = (((l.drop 4).take 72).drop 16).take 56 := by
    intro l
    simp [field, List.drop_take, List.take_take]
  unfold read_result at hr
  rw [h1, packet_of, can_packet_payload]
  simp only [channel_send_frame_packet, frame_after_read, hr, CAN_MTU, Int.toNat_ofNat]
  have h2 : (memcpy (fixed 72 (env.stack w.events))
      (env.read_data w.events chc.raw_socket (read_count chc)) 16).length = 72 := by
    simp [memcpy, fixed_length]
  rw [memcpy_whole _ _ 72 (by simp) h2, fixed_of_length 72 _ h2, fixed_of_length 72 _ hs]
  unfold memcpy
  rw [List.drop_append_of_le_length (by rw [fixed_length]), List.drop_of_length_le
    (by rw [fixed_length]), List.nil_append]
  apply List.take_of_length_le
  simp [hs]

end Can2udp

/-- C23. For every sample time of m milliseconds that is not negative, the
timer setting `channel_init` of the sensor daemon computes has m div 1000
seconds and (m mod 1000) * 10^6 nanoseconds, which together are m * 10^6
nanoseconds with a nanosecond part below 10^9; and every timer `channel_init`
arms has this setting both as its first expiration and as its period, one
timer being armed whenever it returns 0. -/
theorem sensor_timer_is_the_sample_time (env : Iio2udp.Env) (context : Option Nat)
    (chc : Iio2udp.channel) (fds : X2udp.fd_set) (w : Iio2udp.World)
    (hm : 0 ≤ chc.sample_time) :
    (Iio2udp.sample_timespec chc.sample_time).tv_sec = chc.sample_time / 1000 ∧
    (Iio2udp.sample_timespec chc.sample_time).tv_nsec = (chc.sample_time % 1000) * 10 ^ 6 ∧
    (Iio2udp.sample_timespec chc.sample_time).tv_sec * 10 ^ 9 +
      (Iio2udp.sample_timespec chc.sample_time).tv_nsec = chc.sample_time * 10 ^ 6 ∧
    0 ≤ (Iio2udp.sample_timespec chc.sample_time).tv_nsec ∧
    (Iio2udp.sample_timespec chc.sample_time).tv_nsec < 10 ^ 9 ∧
    ∃ l : List (Int × Iio2udp.itimerspec),
      Iio2udp.timers_set (Iio2udp.channel_init env context chc fds w).2.2.2.events =
        Iio2udp.timers_set w.events ++ l ∧
      (∀ x ∈ l, x.2.it_value = Iio2udp.sample_timespec chc.sample_time ∧
        x.2.it_interval = Iio2udp.sample_timespec chc.sample_time) ∧
      ((Iio2udp.channel_init env context chc fds w).1 = 0 → l.length = 1) := by
  rw [Iio2udp.sample_timespec_nonneg _ hm]
  refine ⟨rfl, by norm_num, ?_, ?_, ?_, ?_⟩
  · show chc.sample_time / 1000 * 10 ^ 9 + chc.sample_time % 1000 * 1000000 = _
    omega
  · show 0 ≤ chc.sample_time % 1000 * 1000000
    omega
  · show chc.sample_time % 1000 * 1000000 < 10 ^ 9
    omega
  · rw [← Iio2udp.sample_timespec_nonneg _ hm]
    exact Iio2udp.iio_channel_init_timers env context chc fds w

/-- Witness of C23: a sample time of 2500 ms arms the one timer with 2 s and
500000000 ns, as first expiration and as period. -/
theorem sensor_timer_is_the_sample_time_witness :
    (0 : Int) ≤ Iio2udp.chc_slow.sample_time ∧
    Iio2udp.timers_set (Iio2udp.channel_init Iio2udp.env_le (some 0) Iio2udp.chc_slow []
      Iio2udp.world_0).2.2.2.events =
      [(0, { it_interval := { tv_sec := 2, tv_nsec := 500000000 },
             it_value := { tv_sec := 2, tv_nsec := 500000000 } })] ∧
    (Iio2udp.sample_timespec Iio2udp.chc_slow.sample_time).tv_sec * 10 ^ 9 +
      (Iio2udp.sample_timespec Iio2udp.chc_slow.sample_time).tv_nsec =
      Iio2udp.chc_slow.sample_time * 10 ^ 6 :=
  ⟨by decide, by decide,
    (sensor_timer_is_the_sample_time Iio2udp.env_le (some 0) Iio2udp.chc_slow []
      Iio2udp.world_0 (by decide)).2.2.1⟩

/-- C24. When a bus channel has the filter ids `fl` (as many as
`filters_length` says), the filter block of `channel_init` installs one
receive filter on the socket of the channel: its entries are the first
min(filters_length, CAN_RAW_FILTER_MAX) ids, in order, each with `can_id` the
id and `can_mask` the value CAN_EFF_MASK = 0x1FFFFFFF, for a standard id
(at most CAN_SFF_MASK = 0x7FF) as for an extended one; and every filter a whole
`channel_init` installs is this one, exactly one when it returns 0. -/
theorem receive_filter_entries_share_one_mask (env : Can2udp.Env) (chc : Can2udp.channel)
    (fds : X2udp.fd_set) (w : Can2udp.World) (fl : List Nat)
    (hf : chc.filters = some fl) (hl : chc.filters_length = fl.length) :
    Can2udp.filters_installed (Can2udp.channel_init_filters env chc w).events =
      Can2udp.filters_installed w.events ++
        [(chc.raw_socket, (fl.take Can2udp.CAN_RAW_FILTER_MAX).map
          (fun f => { can_id := f, can_mask := Can2udp.CAN_EFF_MASK }))] ∧
    ((fl.take Can2udp.CAN_RAW_FILTER_MAX).map
      (fun f => ({ can_id := f, can_mask := Can2udp.CAN_EFF_MASK } : Can2udp.can_filter))).length =
      min chc.filters_length Can2udp.CAN_RAW_FILTER_MAX ∧
    (∀ f : Nat, (if f > Can2udp.CAN_SFF_MASK then Can2udp.CAN_EFF_MASK
      else Can2udp.CAN_EFF_MASK) = 0x1FFFFFFF) ∧
    Can2udp.CAN_SFF_MASK = 0x7FF ∧
    ∃ l : List (Int × List Can2udp.can_filter),
      Can2udp.filters_installed (Can2udp.channel_init env chc fds w).2.2.2.events =
        Can2udp.filters_installed w.events ++ l ∧
      (∀ x ∈ l, x.2 = (fl.take Can2udp.CAN_RAW_FILTER_MAX).map
        (fun f => { can_id := f, can_mask := Can2udp.CAN_EFF_MASK })) ∧
      ((Can2udp.channel_init env chc fds w).1 = 0 → l.length = 1) := by
  refine ⟨Can2udp.can_channel_init_filters_installed env chc w fl hf hl, ?_, ?_, rfl,
    Can2udp.can_channel_init_filters_of_init env chc fds w fl hf hl⟩
  · rw [List.length_map, List.length_take, hl, min_comm]
  · intro f
    split_ifs <;> rfl

/-- Witness of C24: the standard id 0x123 and the extended id 0x12345678 on
socket 3 both get the mask 0x1FFFFFFF. -/
theorem receive_filter_entries_share_one_mask_witness :
    Can2udp.chc_filtered.filters = some [0x123, 0x12345678] ∧
    Can2udp.chc_filtered.filters_length = [0x123, 0x12345678].length ∧
    Can2udp.filters_installed
      (Can2udp.channel_init_filters Can2udp.env_le Can2udp.chc_filtered Can2udp.world_0).events =
      [(3, [{ can_id := 0x123, can_mask := 0x1FFFFFFF },
            { can_id := 0x12345678, can_mask := 0x1FFFFFFF }])] :=
  ⟨rfl, rfl,
    (receive_filter_entries_share_one_mask Can2udp.env_le Can2udp.chc_filtered []
      Can2udp.world_0 [0x123, 0x12345678] rfl rfl).1.trans (by decide)⟩

/-- C25. The bytes of a bus packet are not a function of the interface index,
the received bytes and the timestamp alone.  After a read of 16 bytes the
payload bytes 16..71 (packet bytes 20..75) are the bytes 16..71 the
uninitialised local `frame` of `channel_process` held before the read.  On
the hosts `env_le` and `env_le_other_stack`, which differ in those buffer
bytes only, the channel `chc_1` reads the same 16 bytes with the same
timestamp and sends two different packets: bytes 20..75 are 0xAA on the one
and 0xBB on the other. -/
theorem bus_packet_carries_stale_buffer_bytes :
    (∀ (env : Can2udp.Env) (chc : Can2udp.channel) (w : Can2udp.World),
      Can2udp.read_result env chc w = (Can2udp.CAN_MTU : Int) →
      (env.stack w.events).length = 72 →
      X2udp.field 20 56 (Can2udp.packet_of env chc w) = (env.stack w.events).drop 16) ∧
    Can2udp.read_result Can2udp.env_le Can2udp.chc_1 Can2udp.world_0 = 16 ∧
    Can2udp.read_result Can2udp.env_le_other_stack Can2udp.chc_1 Can2udp.world_0 = 16 ∧
    Can2udp.env_le.read_data [] 3 72 = Can2udp.env_le_other_stack.read_data [] 3 72 ∧
    Can2udp.stamp_of Can2udp.env_le Can2udp.chc_1 Can2udp.world_0 =
      Can2udp.stamp_of Can2udp.env_le_other_stack Can2udp.chc_1 Can2udp.world_0 ∧
    Can2udp.sent (Can2udp.channel_process Can2udp.env_le Can2udp.config_1 Can2udp.chc_1
      Can2udp.world_0).2.events =
      [Can2udp.packet_of Can2udp.env_le Can2udp.chc_1 Can2udp.world_0] ∧
    Can2udp.sent (Can2udp.channel_process Can2udp.env_le_other_stack Can2udp.config_1
      Can2udp.chc_1 Can2udp.world_0).2.events =
      [Can2udp.packet_of Can2udp.env_le_other_stack Can2udp.chc_1 Can2udp.world_0] ∧
    (Can2udp.packet_of Can2udp.env_le Can2udp.chc_1 Can2udp.world_0).length = 84 ∧
    X2udp.field 4 16 (Can2udp.packet_of Can2udp.env_le Can2udp.chc_1 Can2udp.world_0) =
      X2udp.field 4 16
        (Can2udp.packet_of Can2udp.env_le_other_stack Can2udp.chc_1 Can2udp.world_0) ∧
    X2udp.field 20 56 (Can2udp.packet_of Can2udp.env_le Can2udp.chc_1 Can2udp.world_0) =
      List.replicate 56 0xAA ∧
    X2udp.field 20 56
      (Can2udp.packet_of Can2udp.env_le_other_stack Can2udp.chc_1 Can2udp.world_0) =
      List.replicate 56 0xBB ∧
    Can2udp.sent (Can2udp.channel_process Can2udp.env_le Can2udp.config_1 Can2udp.chc_1
      Can2udp.world_0).2.events ≠
      Can2udp.sent (Can2udp.channel_process Can2udp.env_le_other_stack Can2udp.config_1
        Can2udp.chc_1 Can2udp.world_0).2.events := by
  refine ⟨fun env chc w hr hs => Can2udp.can_stale_bytes env chc w hr hs, ?_⟩
  decide

namespace Can2udp
open X2udp

end Can2udp

